import Mathlib

/-!
# cling `ForwardDeclPrinter`: a shallow embedding

Source file: `interpreter/cling/lib/Interpreter/ForwardDeclPrinter.cpp`.

The printer walks the declarations of a transaction and writes forward
declarations for them.  The embedding keeps the shape of the C++ code:

* a declaration pointer `clang::Decl*` is an index (`DeclId`) into the list of
  declarations of the translation unit (`Env.decls`);
* the printer object is the record `ForwardDeclPrinter` (one field per data
  member that the source reads or writes), threaded through every method;
* a method `void ForwardDeclPrinter::M(...)` is a function
  `... → ForwardDeclPrinter → Option ForwardDeclPrinter`; the recursive call
  `Visit(clang::Decl*)` is the parameter `V` of each method, and `exec` ties the
  knot with a bound on the depth of nested `Visit(Decl*)` calls (`none` = the
  bound was reached);
* clang's own printers (`QualType::print`, `Stmt::printPretty`, ...) are
  functions carried by `Env`.

The counters `m_SkipCounter` and `m_TotalDecls` are natural numbers (no claim
depends on their wrap-around).
-/

namespace cling

/-- A `clang::Decl*`: the index of the declaration in `Env.decls`. -/
abbrev DeclId := Nat

/-- An expression handle (`clang::Expr*`), rendered only by `Env.printPretty`. -/
abbrev Expr := String

/-- The fields of `clang::PrintingPolicy` that the source reads or writes. -/
structure PrintingPolicy where
  SuppressSpecifiers : Bool := false
  SuppressInitializers : Bool := false
  SuppressTagKeyword : Bool := false
  TerseOutput : Bool := false
  UseBool : Bool := false
  Indentation : Nat := 2
deriving DecidableEq, Repr

inductive StorageClass
  | SC_None
  | SC_Extern
  | SC_Static
  | SC_PrivateExtern
  | SC_OpenCLWorkGroupLocal
  | SC_Auto
  | SC_Register
deriving DecidableEq, Repr

inductive ThreadStorageClassSpecifier
  | TSCS_unspecified
  | TSCS___thread
  | TSCS_thread_local
  | TSCS__Thread_local
deriving DecidableEq, Repr

inductive RefQualifierKind
  | RQ_None
  | RQ_LValue
  | RQ_RValue
deriving DecidableEq, Repr

/-- The type classes that `Visit(const Type*)` unwraps with `VISIT_DECL`. -/
inductive SugarClass
  | ConstantArray
  | DependentSizedArray
  | IncompleteArray
  | VariableArray
  | Atomic
  | Auto
  | Decltype
  | Paren
  | Pointer
  | LValueReference
  | RValueReference
  | TypeOf
  | Elaborated
  | UnaryTransform
deriving DecidableEq, Repr

mutual
/-- A `clang::Type` node, by the cases of the switch in `Visit(const Type*)`. -/
inductive Ty
  | Sugar (cls : SugarClass) (inner : Ty)
  | DependentName (qualifier : NestedNameSpecifier)
  | MemberPointer (pointee : Ty) (cls : Ty)
  | Enum (decl : DeclId)
  | Record (decl : DeclId)
  | TemplateSpecialization (args : TemplateArguments) (name : TemplateName)
  | Typedef (decl : DeclId)
  | TemplateTypeParm (decl : DeclId)
  | Builtin (name : String)
  | TypeOfExpr
  | Other (typeClassName : String)
/-- A `clang::TemplateArgument`, by the cases of `VisitTemplateArgument`. -/
inductive TemplateArgument
  | Type (t : Ty)
  | Declaration (decl : DeclId)
  | Template (name : TemplateName)
  | Pack (name : TemplateName)
  | ExpressionDeclRef (foundDecl : DeclId)
  | Expression
  | Other (kind : Nat)
/-- The argument list of a `TemplateSpecializationType`. -/
inductive TemplateArguments
  | nil
  | cons (arg : TemplateArgument) (rest : TemplateArguments)
/-- A `clang::TemplateName`, by the cases of `VisitTemplateName`. -/
inductive TemplateName
  | Template (decl : DeclId)
  | QualifiedTemplate (decl : DeclId)
  | DependentTemplate (qualifier : NestedNameSpecifier)
  | SubstTemplateTemplateParm (replacement : TemplateName)
  | SubstTemplateTemplateParmPack (argumentPack : TemplateArgument)
  | Other (kind : Nat)
/-- A `clang::NestedNameSpecifier`: its optional prefix and its kind. -/
inductive NestedNameSpecifier
  | Namespace (pre : NestedNameSpecifierOpt) (decl : DeclId)
  | TypeSpec (pre : NestedNameSpecifierOpt) (t : Ty)
  | TypeSpecWithTemplate (pre : NestedNameSpecifierOpt) (t : Ty)
  | Other (pre : NestedNameSpecifierOpt) (kind : Nat)
/-- The result of `NestedNameSpecifier::getPrefix()`. -/
inductive NestedNameSpecifierOpt
  | none
  | some (q : NestedNameSpecifier)
end

instance : Inhabited Ty := ⟨Ty.Builtin "int"⟩

/-- A `clang::QualType`: the type node and the local `restrict` qualifier. -/
structure QualType where
  ty : Ty
  isRestrictQualified : Bool := false

instance : Inhabited QualType := ⟨{ ty := default }⟩

/-- The Visit State Table `m_Visited`: canonical key ↦ emittable. -/
abbrev VisitedMap := List (DeclId × Bool)

/-- The lookup `m_Visited.find(k)`. -/
def VisitedMap.find : VisitedMap → DeclId → Option Bool
  | [], _ => none
  | (k, v) :: rest, key => if k = key then some v else VisitedMap.find rest key

/-- The assignment `m_Visited[k] = v` (inserts the key when it is absent). -/
def VisitedMap.assign : VisitedMap → DeclId → Bool → VisitedMap
  | [], key, val => [(key, val)]
  | (k, v) :: rest, key, val =>
    if k = key then (k, val) :: rest else (k, v) :: VisitedMap.assign rest key val

/-- The printer object.  `streamTop` is the text of the stream on top of
`m_StreamStack` (the target of `Out()`), `streamRest` the texts of the streams
below it.  `traceDispatch` and `traceDriver` are ghost fields: they record the
calls of `DeclVisitor::Visit` and the calls of `Visit` made by the constructor's
loop; no method reads them. -/
structure ForwardDeclPrinter where
  m_Policy : PrintingPolicy := {}
  m_Log : String := ""
  m_Indentation : Nat := 0
  m_PrintInstantiation : Bool := false
  m_SkipFlag : Bool := false
  m_Visited : VisitedMap := []
  streamTop : String := ""
  streamRest : List String := []
  m_SkipCounter : Nat := 0
  m_TotalDecls : Nat := 0
  traceDispatch : List DeclId := []
  traceDriver : List DeclId := []

namespace ForwardDeclPrinter

/-- The write `Out() << text`. -/
def Out (s : ForwardDeclPrinter) (text : String) : ForwardDeclPrinter :=
  { s with streamTop := s.streamTop ++ text }

/-- The write `Log() << text`. -/
def Log (s : ForwardDeclPrinter) (text : String) : ForwardDeclPrinter :=
  { s with m_Log := s.m_Log ++ text }

/-- Lines 1145-1150: `skipCurrentDecl(bool skip)`. -/
def skipCurrentDecl (s : ForwardDeclPrinter) (skip : Bool) : ForwardDeclPrinter :=
  { s with
    m_SkipFlag := skip
    m_SkipCounter := if skip then s.m_SkipCounter + 1 else s.m_SkipCounter
    m_TotalDecls := s.m_TotalDecls + 1 }

/-- The assignment `m_Visited[key] = emittable`. -/
def setVisited (s : ForwardDeclPrinter) (key : DeclId) (emittable : Bool) :
    ForwardDeclPrinter :=
  { s with m_Visited := s.m_Visited.assign key emittable }

/-- The ghost step that records the dispatch of `D` by `DeclVisitor::Visit`. -/
def traceDispatched (s : ForwardDeclPrinter) (D : DeclId) : ForwardDeclPrinter :=
  { s with traceDispatch := s.traceDispatch ++ [D] }

/-- The ghost step that records that the constructor's loop passes `D` to
`Visit`. -/
def traceDriven (s : ForwardDeclPrinter) (D : DeclId) : ForwardDeclPrinter :=
  { s with traceDriver := s.traceDriver ++ [D] }

/-- Modelled from the spec: the default argument of `skipCurrentDecl`, declared
in the absent header, is `true` (a routine that returns after a failed
dependency "propagates the skip signal to its own caller", §4.2). -/
def skipCurrentDecl_default (s : ForwardDeclPrinter) : ForwardDeclPrinter :=
  s.skipCurrentDecl true

/-- Modelled from the spec: `StreamRAII` is declared in the absent header.  Its
constructor is `push()` of §4.4: it "begins a new nested buffer and redirects
subsequent writes to it"; with a policy argument it also installs that policy. -/
def StreamRAII_push (s : ForwardDeclPrinter) (pol : Option PrintingPolicy := none) :
    ForwardDeclPrinter :=
  { s with
    streamTop := ""
    streamRest := s.streamTop :: s.streamRest
    m_Policy := pol.getD s.m_Policy }

/-- The pop of `m_StreamStack`: the stream below becomes the target again. -/
def popStream (s : ForwardDeclPrinter) : ForwardDeclPrinter :=
  { s with streamTop := s.streamRest.headD s.streamTop, streamRest := s.streamRest.tail }

/-- Modelled from the spec: `StreamRAII::take(pop)` is `pop(handle, ..)` of §4.4:
it "restores the previous buffer as the write target and returns the nested
buffer's accumulated text"; without `pop` it only returns the text. -/
def StreamRAII_take (s : ForwardDeclPrinter) (pop : Bool := false) :
    String × ForwardDeclPrinter :=
  (s.streamTop, if pop then s.popStream else s)

/-- Modelled from the spec: the end of the scope of a `StreamRAII` (§4.4: "scoped
acquisition guarantees the previous target is restored on every exit path of
the routine that pushed it"; §3: the text goes to "the caller, who decides
whether to keep or discard it").  The stream is popped unless `take(true)` has
popped it already, text that was not taken is dropped, and the policy saved by
the constructor is restored. -/
def StreamRAII_exit (s : ForwardDeclPrinter) (havePopped : Bool)
    (oldPol : PrintingPolicy) : ForwardDeclPrinter :=
  { (if havePopped then s else s.popStream) with m_Policy := oldPol }

end ForwardDeclPrinter

/-- The recursive call `Visit(clang::Decl*)` as seen by the other methods. -/
abbrev DeclVisit := DeclId → ForwardDeclPrinter → Option ForwardDeclPrinter

mutual
/-- Lines 937-1013: `Visit(const Type* typ)`. -/
def VisitType (V : DeclVisit) : Ty → ForwardDeclPrinter → Option ForwardDeclPrinter
  | .Sugar _ inner, s => VisitType V inner s
  | .DependentName q, s => VisitNestedNameSpecifier V q s
  | .MemberPointer pointee cls, s =>
    (VisitType V pointee s).bind fun s => VisitType V cls s
  | .Enum d, s => V d s
  | .Record d, s => V d s
  | .TemplateSpecialization args name, s =>
    (VisitTemplateArguments V args s).bind fun s => VisitTemplateName V name s
  | .Typedef d, s => V d s
  | .TemplateTypeParm d, s => V d s
  | .Builtin _, s => some s
  | .TypeOfExpr, s => some s
  | .Other cls, s =>
    some (s.Log ("addDeclsToTransactionForType: Unexpected " ++ cls ++ "\n"))
/-- Lines 1015-1040: `VisitTemplateArgument`. -/
def VisitTemplateArgument (V : DeclVisit) :
    TemplateArgument → ForwardDeclPrinter → Option ForwardDeclPrinter
  | .Type t, s => VisitType V t s
  | .Declaration d, s => V d s
  | .Template n, s => VisitTemplateName V n s
  | .Pack n, s => VisitTemplateName V n s
  | .ExpressionDeclRef d, s => V d s
  | .Expression, s => some s
  | .Other kind, s =>
    some (s.Log ("Visit(Type*): Unexpected TemplateSpecializationType "
      ++ toString kind ++ "\n"))
/-- Lines 986-988: the loop over the arguments of a specialization. -/
def VisitTemplateArguments (V : DeclVisit) :
    TemplateArguments → ForwardDeclPrinter → Option ForwardDeclPrinter
  | .nil, s => some s
  | .cons a rest, s =>
    (VisitTemplateArgument V a s).bind fun s => VisitTemplateArguments V rest s
/-- Lines 1042-1063: `VisitTemplateName`. -/
def VisitTemplateName (V : DeclVisit) :
    TemplateName → ForwardDeclPrinter → Option ForwardDeclPrinter
  | .Template d, s => V d s
  | .QualifiedTemplate d, s => V d s
  | .DependentTemplate q, s => VisitNestedNameSpecifier V q s
  | .SubstTemplateTemplateParm r, s => VisitTemplateName V r s
  | .SubstTemplateTemplateParmPack a, s => VisitTemplateArgument V a s
  | .Other kind, s =>
    some (s.Log ("VisitTemplateName: Unexpected kind " ++ toString kind ++ "\n"))
/-- Lines 1065-1084: `VisitNestedNameSpecifier`. -/
def VisitNestedNameSpecifier (V : DeclVisit) :
    NestedNameSpecifier → ForwardDeclPrinter → Option ForwardDeclPrinter
  | .Namespace pre d, s => (VisitNestedNameSpecifierOpt V pre s).bind fun s => V d s
  | .TypeSpec pre t, s =>
    (VisitNestedNameSpecifierOpt V pre s).bind fun s => VisitType V t s
  | .TypeSpecWithTemplate pre t, s =>
    (VisitNestedNameSpecifierOpt V pre s).bind fun s => VisitType V t s
  | .Other pre kind, s =>
    (VisitNestedNameSpecifierOpt V pre s).bind fun s =>
      some (s.Log ("VisitNestedNameSpecifier: Unexpected kind "
        ++ toString kind ++ "\n"))
/-- Lines 1067-1068: the prefix of a nested name specifier is visited first. -/
def VisitNestedNameSpecifierOpt (V : DeclVisit) :
    NestedNameSpecifierOpt → ForwardDeclPrinter → Option ForwardDeclPrinter
  | .none, s => some s
  | .some q, s => VisitNestedNameSpecifier V q s
end

/-! ## The declarations (`clang::Decl` and its subclasses) -/

/-- A `clang::Attr` as `prettyPrintAttributes` looks at it. -/
structure Attr where
  isImplicit : Bool := false
  isInherited : Bool := false
  isFinal : Bool := false
  isAnnotateAttr : Bool := false
  text : String := ""

inductive ExceptionSpecificationType
  | EST_None
  | EST_DynamicNone
  | EST_Dynamic
  | EST_MSAny
  | EST_BasicNoexcept
  | EST_ComputedNoexcept
  | EST_Unevaluated
  | EST_Uninstantiated
  | EST_Unparsed
deriving DecidableEq, Repr

/-- The `clang::FunctionProtoType` of a function declaration. -/
structure FunctionProtoType where
  isVariadic : Bool := false
  isConst : Bool := false
  isVolatile : Bool := false
  isRestrict : Bool := false
  getRefQualifier : RefQualifierKind := .RQ_None
  getExceptionSpecType : ExceptionSpecificationType := .EST_None
  exceptions : List QualType := []
  getNoexceptExpr : Expr := ""
  hasTrailingReturn : Bool := false

/-- The result of `Ty->getAs<FunctionType>()`: the return type, and the prototype
when the function type is a `FunctionProtoType`. -/
structure FunctionType where
  getReturnType : QualType := default
  proto : Option FunctionProtoType := some {}

/-- An argument of a constructor initializer. -/
structure InitArg where
  isCXXDefaultArgExpr : Bool := false
  expr : Expr := ""

/-- The initializer expression of a `CXXCtorInitializer`, after the cleanups
and parentheses are stripped (lines 435-452). -/
inductive CtorInitExpr
  | ParenList (args : List InitArg)
  | Construct (args : List InitArg)
  | Simple (e : Expr)

structure CXXCtorInitializer where
  isInClassMemberInitializer : Bool := false
  isAnyMemberInitializer : Bool := true
  getAnyMember : String := ""
  getBaseClass : QualType := default
  getInit : Option CtorInitExpr := none
  isPackExpansion : Bool := false

structure FunctionDecl where
  isCXXConstructorDecl : Bool := false
  isExplicitSpecified : Bool := false
  isCXXConversionDecl : Bool := false
  conversionIsExplicit : Bool := false
  isCXXDestructorDecl : Bool := false
  getReturnType : QualType := default
  getStorageClass : StorageClass := .SC_None
  isInlineSpecified : Bool := false
  isVirtualAsWritten : Bool := false
  isConstexpr : Bool := false
  isExplicitlyDefaulted : Bool := false
  getNameInfo : String := ""
  getType : QualType := default
  parenDepth : Nat := 0
  getAsFunctionType : Option FunctionType := some {}
  hasWrittenPrototype : Bool := true
  params : List DeclId := []
  doesThisDeclarationHaveABody : Bool := false
  hasPrototype : Bool := true
  inits : List CXXCtorInitializer := []
  isPure : Bool := false
  isDeletedAsWritten : Bool := false
  isDeleted : Bool := false
  isCXXClassMember : Bool := false

inductive InitializationStyle
  | CInit
  | CallInit
  | ListInit
deriving DecidableEq, Repr

/-- The result of `dyn_cast<CXXConstructExpr>(Init->IgnoreImplicit())`. -/
structure CXXConstructExpr where
  isListInitialization : Bool := false
  getNumArgs : Nat := 0
  arg0IsDefaultArgument : Bool := false

/-- The initializer of a variable as `VisitVarDecl` looks at it. -/
structure VarInit where
  expr : Expr := ""
  isParenListExpr : Bool := false
  construct : Option CXXConstructExpr := none
  enumConstantInitVal : Option Int := none

structure VarDecl where
  getTypeSourceInfoType : Option QualType := some default
  getType : QualType := default
  isDefinedOutsideFunctionOrMethod : Bool := true
  getStorageClass : StorageClass := .SC_None
  getTSCSpec : ThreadStorageClassSpecifier := .TSCS_unspecified
  getInit : Option VarInit := none
  getInitStyle : InitializationStyle := .CInit

/-- An enumeration.  `enumerators` are the names of its enumerators; no method
of the printer reads them. -/
structure EnumDecl where
  isFixed : Bool := false
  isScoped : Bool := false
  isScopedUsingClassTag : Bool := false
  getIntegerType : QualType := default
  enumerators : List String := []

structure FieldDecl where
  isMutable : Bool := false
  getType : QualType := default
  getBitWidth : Option Expr := none
  getInClassInitializer : Option Expr := none
  isListInit : Bool := false

/-- A namespace redeclaration.  `representative` is the key under which the
Visit State Table files it (see `getCanonicalOrNamespace`). -/
structure NamespaceDecl where
  decls : List DeclId := []
  isInline : Bool := false
  representative : DeclId := 0

structure UsingDirectiveDecl where
  getNominatedNamespace : DeclId := 0
  getQualifier : Option NestedNameSpecifier := none
  getNominatedNamespaceAsWritten : String := ""

structure NamespaceAliasDecl where
  getQualifier : Option NestedNameSpecifier := none
  getAliasedNamespace : String := ""

structure LinkageSpecDecl where
  isLangC : Bool := true
  hasBraces : Bool := false
  decls : List DeclId := []

/-- A template parameter, by the cases of `PrintTemplateParameters`. -/
inductive TemplateParam
  | TemplateTypeParm (wasDeclaredWithTypename isParameterPack : Bool) (name : String)
      (defaultArgument : Option QualType)
  | NonTypeTemplateParm (identifier : Option String) (type : QualType)
      (isParameterPack : Bool) (defaultArgument : Option Expr)
  | TemplateTemplateParm (decl : DeclId)
  | Other

structure TemplateParameterList where
  params : List TemplateParam := []
  getMinRequiredArguments : Nat := 0

/-- A specialization listed by `spec_begin()..spec_end()`: the declaration and
its template arguments (each as a type, when it is one, and as printed text). -/
structure TemplateSpec where
  decl : DeclId := 0
  args : List (QualType × String) := []

/-- A `RedeclarableTemplateDecl` (class, function or variable template). -/
structure RedeclarableTemplateDecl where
  redecls : List DeclId := []
  getTemplateParameters : TemplateParameterList := {}
  getTemplatedDecl : DeclId := 0
  specializations : List TemplateSpec := []

structure ClassTemplateSpecializationDecl where
  isClassTemplatePartialSpecializationDecl : Bool := false
  getSpecializedTemplate : DeclId := 0

/-- The dynamic kind of a declaration with the data of that kind. -/
inductive DeclKind
  | TranslationUnit (decls : List DeclId)
  | Typedef (type : QualType)
  | TypeAlias (type : QualType)
  | Enum (d : EnumDecl)
  | Record (getKindName : String)
  | Function (d : FunctionDecl)
  | Friend
  | Field (d : FieldDecl)
  | Label
  | Var (d : VarDecl)
  | ParmVar (d : VarDecl)
  | FileScopeAsm (getAsmString : Expr)
  | Import (getFullModuleName : String)
  | StaticAssert (getAssertExpr getMessage : Expr)
  | Namespace (d : NamespaceDecl)
  | UsingDirective (d : UsingDirectiveDecl)
  | Using (shadows : List DeclId)
  | UsingShadow (getTargetDecl : DeclId)
  | TypeAliasTemplate
  | NamespaceAlias (d : NamespaceAliasDecl)
  | Empty
  | LinkageSpec (d : LinkageSpecDecl)
  | FunctionTemplate (d : RedeclarableTemplateDecl)
  | ClassTemplate (d : RedeclarableTemplateDecl)
  | VarTemplate (d : RedeclarableTemplateDecl)
  | ClassTemplateSpecialization (d : ClassTemplateSpecializationDecl)
  | Other

/-- A declaration: what every `clang::Decl` (and `NamedDecl`) offers, and its
kind.  `includeText` is the header name that `prettyPrintAttributes` recovers
from the source manager. -/
structure Decl where
  kind : DeclKind := .Other
  getCanonicalDecl : DeclId := 0
  isInTranslationUnit : Bool := true
  getIdentifier : Option String := none
  getNameAsString : String := ""
  isModulePrivate : Bool := false
  sourceRangeIsInvalid : Bool := false
  attrs : List Attr := []
  includeText : String := ""

instance : Inhabited Decl := ⟨{}⟩

/-- The name `D->getName()`: the identifier, empty when there is none. -/
def Decl.getName (D : Decl) : String := D.getIdentifier.getD ""

/-- The front end: the declarations of the unit and clang's printers. -/
structure Env where
  decls : List Decl := []
  printQualType : PrintingPolicy → QualType → String → String := fun _ _ n => n
  printPretty : PrintingPolicy → Nat → Expr → String := fun _ _ e => e
  printNestedNameSpecifier : PrintingPolicy → NestedNameSpecifier → String := fun _ _ => ""
  printDecl : PrintingPolicy → DeclId → String := fun _ _ => ""
  GetFullyQualifiedType : QualType → QualType := id
  getUnqualifiedObjCPointerType : QualType → QualType := id
  getPackExpansionPattern : QualType → Option QualType := fun _ => none

/-- The declaration behind a `clang::Decl*`. -/
def Env.decl (E : Env) (D : DeclId) : Decl := E.decls.getD D default

namespace ForwardDeclPrinter

/-! ## Helpers of the printer

A method that only writes is given by the text it writes (a function named
`..._text`, with one `++` per `Out() << ...` of the source, in the same order)
and by the single write of that text. -/

/-- Modelled from the spec: `getCanonicalOrNamespace` is declared in the absent
header.  §3: "every declaration maps to exactly one canonical key; a namespace
additionally maps to a distinguished representative redeclaration key". -/
def getCanonicalOrNamespace (E : Env) (D : DeclId) : DeclId :=
  match (E.decl D).kind with
  | .Namespace N => N.representative
  | _ => (E.decl D).getCanonicalDecl

/-- Modelled from the spec: `Visit(QualType)` is declared in the absent header.
§4.2: "visiting a raw type funnels to the declaration it ultimately names or to
its referenced sub-types"; it visits the type node of the qualified type. -/
def VisitQualType (V : DeclVisit) (q : QualType) (s : ForwardDeclPrinter) :
    Option ForwardDeclPrinter :=
  VisitType V q.ty s

/-- Lines 133-142: the text written by `printDeclType`. -/
def printDeclType_text (E : Env) (m_Policy : PrintingPolicy) (T : QualType)
    (DeclName : String) (Pack : Bool) : String :=
  match E.getPackExpansionPattern T with
  | some pattern => E.printQualType m_Policy pattern ("..." ++ DeclName)
  | none => E.printQualType m_Policy T ((if Pack then "..." else "") ++ DeclName)

/-- Lines 133-142: `printDeclType`. -/
def printDeclType (E : Env) (s : ForwardDeclPrinter) (T : QualType) (DeclName : String)
    (Pack : Bool) : ForwardDeclPrinter :=
  s.Out (printDeclType_text E s.m_Policy T DeclName Pack)

/-- Lines 144-148: `Indent(unsigned Indentation)`. -/
def Indent (s : ForwardDeclPrinter) (Indentation : Nat) : ForwardDeclPrinter :=
  s.Out (String.join (List.replicate Indentation "  "))

/-- Lines 155-165: the text written by the loop over the attributes. -/
def prettyPrintAttributes_attrs : List Attr → String
  | [] => ""
  | A :: rest =>
    if A.isImplicit || A.isInherited || A.isFinal then prettyPrintAttributes_attrs rest
    else if !A.isAnnotateAttr then prettyPrintAttributes_attrs rest
    else A.text ++ prettyPrintAttributes_attrs rest

/-- The test `isa<FunctionDecl>(D)`. -/
def isFunctionDecl (D : Decl) : Bool :=
  match D.kind with
  | .Function _ => true
  | _ => false

/-- Lines 150-200: the text that `prettyPrintAttributes(D, extra)` writes
(nothing when the source range is invalid, line 151). -/
def prettyPrintAttributes_text (D : Decl) (extra : String) : String :=
  if D.sourceRangeIsInvalid then ""
  else
    (if !D.attrs.isEmpty && !isFunctionDecl D then prettyPrintAttributes_attrs D.attrs
      else "")
    ++ " __attribute__((annotate(\"$clingAutoload$" ++ D.includeText
    ++ (if extra ≠ "" then " " ++ extra else "")
    ++ "\"))) "

/-- Lines 150-200: `prettyPrintAttributes(D, extra)`. -/
def prettyPrintAttributes (s : ForwardDeclPrinter) (D : Decl) (extra : String) :
    ForwardDeclPrinter :=
  s.Out (prettyPrintAttributes_text D extra)

/-- The loop `for (auto it : decls) Visit(it);`. -/
def VisitEach (V : DeclVisit) : List DeclId → ForwardDeclPrinter → Option ForwardDeclPrinter
  | [], s => some s
  | D :: rest, s => (V D s).bind fun s => VisitEach V rest s

/-! ## Common C declarations -/

/-- Lines 208-214: `VisitTranslationUnitDecl` (the assertion is compiled out). -/
def VisitTranslationUnitDecl (V : DeclVisit) (decls : List DeclId) (s : ForwardDeclPrinter) :
    Option ForwardDeclPrinter :=
  VisitEach V decls s

/-- Lines 224-238: the text of a typedef. -/
def VisitTypedefDecl_text (E : Env) (m_Policy : PrintingPolicy) (D : Decl) (q : QualType) :
    String :=
  (if !m_Policy.SuppressSpecifiers then "typedef " else "")
  ++ (if D.isModulePrivate then "__module_private__ " else "")
  ++ (if q.isRestrictQualified then
      E.printQualType m_Policy { q with isRestrictQualified := false } ""
        ++ " __restrict " ++ D.getName
    else E.printQualType m_Policy q D.getName)
  ++ prettyPrintAttributes_text D ""
  ++ ";\n"

/-- Lines 216-239: `VisitTypedefDecl`. -/
def VisitTypedefDecl (E : Env) (V : DeclVisit) (D : Decl) (q : QualType)
    (s : ForwardDeclPrinter) : Option ForwardDeclPrinter :=
  (VisitQualType V q s).bind fun s =>
  if s.m_SkipFlag then some (s.skipCurrentDecl true)
  else some (s.Out (VisitTypedefDecl_text E s.m_Policy D q))

/-- Lines 246-249: the text of a type alias. -/
def VisitTypeAliasDecl_text (E : Env) (m_Policy : PrintingPolicy) (D : Decl) (q : QualType) :
    String :=
  "using " ++ D.getNameAsString
  ++ prettyPrintAttributes_text D ""
  ++ " = " ++ E.printQualType m_Policy q "" ++ ";\n"

/-- Lines 241-250: `VisitTypeAliasDecl`. -/
def VisitTypeAliasDecl (E : Env) (D : Decl) (q : QualType) (s : ForwardDeclPrinter) :
    ForwardDeclPrinter :=
  s.Out (VisitTypeAliasDecl_text E s.m_Policy D q)

/-- Lines 253-266: the text of an enumeration. -/
def VisitEnumDecl_text (E : Env) (m_Policy : PrintingPolicy) (D : Decl) (N : EnumDecl) :
    String :=
  (if !m_Policy.SuppressSpecifiers && D.isModulePrivate then "__module_private__ " else "")
  ++ "enum "
  ++ prettyPrintAttributes_text D (if N.isFixed then "1" else "0")
  ++ (if N.isScoped then (if N.isScopedUsingClassTag then "class " else "struct ") else "")
  ++ D.getNameAsString
  ++ " : " ++ E.printQualType m_Policy N.getIntegerType "" ++ ";\n"

/-- Lines 252-267: `VisitEnumDecl`. -/
def VisitEnumDecl (E : Env) (D : Decl) (N : EnumDecl) (s : ForwardDeclPrinter) :
    ForwardDeclPrinter :=
  s.Out (VisitEnumDecl_text E s.m_Policy D N)

/-- Lines 270-275: the text of a record. -/
def VisitRecordDecl_text (m_Policy : PrintingPolicy) (D : Decl) (getKindName : String) :
    String :=
  (if !m_Policy.SuppressSpecifiers && D.isModulePrivate then "__module_private__ " else "")
  ++ getKindName
  ++ prettyPrintAttributes_text D ""
  ++ (if D.getIdentifier.isSome then " " ++ D.getNameAsString ++ ";\n" else "")

/-- Lines 269-282: `VisitRecordDecl`. -/
def VisitRecordDecl (D : Decl) (getKindName : String) (s : ForwardDeclPrinter) :
    ForwardDeclPrinter :=
  s.Out (VisitRecordDecl_text s.m_Policy D getKindName)

/-- Lines 520-521: `VisitFriendDecl`. -/
def VisitFriendDecl (s : ForwardDeclPrinter) : ForwardDeclPrinter := s

/-- Lines 524-545: the text of a field. -/
def VisitFieldDecl_text (E : Env) (m_Policy : PrintingPolicy) (m_Indentation : Nat)
    (D : Decl) (F : FieldDecl) : String :=
  (if !m_Policy.SuppressSpecifiers && F.isMutable then "mutable " else "")
  ++ (if !m_Policy.SuppressSpecifiers && D.isModulePrivate then "__module_private__ " else "")
  ++ E.printQualType m_Policy (E.getUnqualifiedObjCPointerType F.getType) D.getName
  ++ (match F.getBitWidth with
    | some w => " : " ++ E.printPretty m_Policy m_Indentation w
    | none => "")
  ++ (match F.getInClassInitializer with
    | some Init =>
      if !m_Policy.SuppressInitializers then
        (if F.isListInit then " " else " = ") ++ E.printPretty m_Policy m_Indentation Init
      else ""
    | none => "")
  ++ prettyPrintAttributes_text D ""
  ++ ";\n"

/-- Lines 523-546: `VisitFieldDecl`. -/
def VisitFieldDecl (E : Env) (D : Decl) (F : FieldDecl) (s : ForwardDeclPrinter) :
    ForwardDeclPrinter :=
  s.Out (VisitFieldDecl_text E s.m_Policy s.m_Indentation D F)

/-- Lines 548-550: `VisitLabelDecl`. -/
def VisitLabelDecl (D : Decl) (s : ForwardDeclPrinter) : ForwardDeclPrinter :=
  s.Out (D.getNameAsString ++ ":")

/-- The clang helper `VarDecl::getStorageClassSpecifierString`. -/
def getStorageClassSpecifierString : StorageClass → String
  | .SC_None => ""
  | .SC_Auto => "auto"
  | .SC_Extern => "extern"
  | .SC_OpenCLWorkGroupLocal => "<<work-group-local>>"
  | .SC_PrivateExtern => "__private_extern__"
  | .SC_Register => "register"
  | .SC_Static => "static"

/-- Lines 607-645: the text written for the initializer `Init` of a variable. -/
def VisitVarDecl_initializer (E : Env) (m_Policy : PrintingPolicy) (m_Indentation : Nat)
    (D : Decl) (VD : VarDecl) (Init : VarInit) : String :=
  let ImplicitInit : Bool := match Init.construct with
    | some Construct =>
      if VD.getInitStyle = .CallInit && !Construct.isListInitialization then
        Construct.getNumArgs == 0 || Construct.arg0IsDefaultArgument
      else false
    | none => false
  (if VD.isDefinedOutsideFunctionOrMethod then prettyPrintAttributes_text D "" else "")
  ++ (if !ImplicitInit then
      (if VD.getInitStyle = .CallInit && !Init.isParenListExpr then "("
        else if VD.getInitStyle = .CInit then
          (if !VD.isDefinedOutsideFunctionOrMethod then " = " else "")
        else "")
      ++ (if !VD.isDefinedOutsideFunctionOrMethod then
          match Init.enumConstantInitVal with
          | some val =>
            printDeclType_text E m_Policy VD.getType "" false ++ "(" ++ toString val ++ ")"
          | none => E.printPretty m_Policy m_Indentation Init.expr
        else "")
      ++ (if VD.getInitStyle = .CallInit && !Init.isParenListExpr then ")" else "")
    else "")

/-- Lines 564-648: the text of a variable, written once its type has been
visited; `m_Policy` is the policy after the assignment of line 567. -/
def VisitVarDecl_text (E : Env) (m_Policy : PrintingPolicy) (m_Indentation : Nat)
    (D : Decl) (VD : VarDecl) (T : QualType) : String :=
  (if VD.isDefinedOutsideFunctionOrMethod && VD.getStorageClass ≠ .SC_Extern then "extern "
    else "")
  ++ (if !m_Policy.SuppressSpecifiers then
      (if VD.getStorageClass ≠ .SC_None then
          getStorageClassSpecifierString VD.getStorageClass ++ " " else "")
      ++ (match VD.getTSCSpec with
        | .TSCS_unspecified => ""
        | .TSCS___thread => "__thread "
        | .TSCS__Thread_local => "_Thread_local "
        | .TSCS_thread_local => "thread_local ")
      ++ (if D.isModulePrivate then "__module_private__ " else "")
    else "")
  ++ printDeclType_text E m_Policy { T with isRestrictQualified := false } D.getName false
  ++ (match VD.getInit with
    | some Init =>
      if !m_Policy.SuppressInitializers then
        VisitVarDecl_initializer E m_Policy m_Indentation D VD Init
      else ""
    | none => "")
  ++ ";\n"

/-- Lines 553-649: `VisitVarDecl`. -/
def VisitVarDecl (E : Env) (V : DeclVisit) (D : Decl) (VD : VarDecl)
    (s : ForwardDeclPrinter) : Option ForwardDeclPrinter :=
  let T : QualType := match VD.getTypeSourceInfoType with
    | some t => t
    | none => E.getUnqualifiedObjCPointerType VD.getType
  (VisitQualType V T s).bind fun s =>
  if s.m_SkipFlag then some s.skipCurrentDecl_default
  else
    let s := { s with m_Policy := { s.m_Policy with UseBool := true } }
    some (s.Out (VisitVarDecl_text E s.m_Policy s.m_Indentation D VD T))

/-- Lines 651-653: `VisitParmVarDecl`. -/
def VisitParmVarDecl (E : Env) (V : DeclVisit) (D : Decl) (VD : VarDecl)
    (s : ForwardDeclPrinter) : Option ForwardDeclPrinter :=
  VisitVarDecl E V D VD s

/-- Lines 655-659: `VisitFileScopeAsmDecl`. -/
def VisitFileScopeAsmDecl (E : Env) (getAsmString : Expr) (s : ForwardDeclPrinter) :
    ForwardDeclPrinter :=
  s.Out ("__asm (" ++ E.printPretty s.m_Policy s.m_Indentation getAsmString ++ ");\n")

/-- Lines 661-664: `VisitImportDecl`. -/
def VisitImportDecl (getFullModuleName : String) (s : ForwardDeclPrinter) :
    ForwardDeclPrinter :=
  s.Out ("@import " ++ getFullModuleName ++ ";\n")

/-- Lines 666-672: `VisitStaticAssertDecl`. -/
def VisitStaticAssertDecl (E : Env) (getAssertExpr getMessage : Expr)
    (s : ForwardDeclPrinter) : ForwardDeclPrinter :=
  s.Out ("static_assert(" ++ E.printPretty s.m_Policy s.m_Indentation getAssertExpr
    ++ ", " ++ E.printPretty s.m_Policy s.m_Indentation getMessage ++ ");\n")

/-! ## Functions -/

/-- Lines 322-325: one pair of parentheses per `ParenType` around the type. -/
def parenthesize : Nat → String → String
  | 0, Proto => Proto
  | n + 1, Proto => parenthesize n ("(" ++ Proto ++ ")")

/-- Lines 298-316: the specifiers of a function. -/
def VisitFunctionDecl_specifiers (m_Policy : PrintingPolicy) (D : Decl) (F : FunctionDecl) :
    String :=
  if !m_Policy.SuppressSpecifiers then
    (match F.getStorageClass with
      | .SC_None => ""
      | .SC_Extern => "extern "
      | .SC_Static => "static "
      | .SC_PrivateExtern => "__private_extern__ "
      | _ => "")
    ++ (if F.isInlineSpecified then "inline " else "")
    ++ (if F.isVirtualAsWritten then "virtual " else "")
    ++ (if D.isModulePrivate then "__module_private__ " else "")
    ++ (if F.isConstexpr && !F.isExplicitlyDefaulted then "constexpr " else "")
    ++ (if (F.isCXXConstructorDecl && F.isExplicitSpecified) ||
        (F.isCXXConversionDecl && F.conversionIsExplicit) then "explicit " else "")
  else ""

/-- Lines 335-341: the loop over the parameters of a prototype.  The result
says whether the function has returned.  The `return` of line 340 is not
governed by the `if` of line 338 (which governs `skipCurrentDecl(true)` alone),
so the first iteration returns and the other parameters are never reached. -/
def VisitFunctionDecl_params (V : DeclVisit) (i : Nat) :
    List DeclId → ForwardDeclPrinter → Option (Bool × ForwardDeclPrinter)
  | [], s => some (false, s)
  | P :: _, s =>
    let s := s.Out (if i ≠ 0 then ", " else "")
    (V P s).bind fun s =>
    let s := if s.m_SkipFlag then s.skipCurrentDecl true else s
    some (true, s)

/-- Lines 360-376: the qualifiers after the parameter list. -/
def VisitFunctionDecl_qualifiers (FT : FunctionProtoType) (Proto : String) : String :=
  let Proto := if FT.isConst then Proto ++ " const" else Proto
  let Proto := if FT.isVolatile then Proto ++ " volatile" else Proto
  let Proto := if FT.isRestrict then Proto ++ " __restrict" else Proto
  match FT.getRefQualifier with
  | .RQ_None => Proto
  | .RQ_LValue => Proto ++ " &"
  | .RQ_RValue => Proto ++ " &&"

/-- The clang helper `FunctionProtoType::hasDynamicExceptionSpec`. -/
def hasDynamicExceptionSpec (FT : FunctionProtoType) : Bool :=
  match FT.getExceptionSpecType with
  | .EST_DynamicNone => true
  | .EST_Dynamic => true
  | .EST_MSAny => true
  | _ => false

/-- The clang helper `isNoexceptExceptionSpec`. -/
def isNoexceptExceptionSpec : ExceptionSpecificationType → Bool
  | .EST_BasicNoexcept => true
  | .EST_ComputedNoexcept => true
  | _ => false

/-- Lines 379-404: the exception specification. -/
def VisitFunctionDecl_exceptionSpec (E : Env) (SubPolicy : PrintingPolicy)
    (m_Indentation : Nat) (FT : FunctionProtoType) (Proto : String) : String :=
  if hasDynamicExceptionSpec FT then
    let Proto := Proto ++ " throw("
    let Proto := if FT.getExceptionSpecType = .EST_MSAny then Proto ++ "..."
      else Proto ++ String.intercalate ", "
        (FT.exceptions.map fun q => E.printQualType SubPolicy q "")
    Proto ++ ")"
  else if isNoexceptExceptionSpec FT.getExceptionSpecType then
    let Proto := Proto ++ " noexcept"
    if FT.getExceptionSpecType = .EST_ComputedNoexcept then
      Proto ++ "(" ++ E.printPretty SubPolicy m_Indentation FT.getNoexceptExpr ++ ")"
    else Proto
  else Proto

/-- Lines 457-464: the text written for the arguments of a constructor
initializer (the loop stops at the first default argument). -/
def VisitFunctionDecl_initArgs (E : Env) (m_Policy : PrintingPolicy) (m_Indentation : Nat) :
    Nat → List InitArg → String
  | _, [] => ""
  | I, a :: rest =>
    if a.isCXXDefaultArgExpr then ""
    else
      (if I ≠ 0 then ", " else "") ++ E.printPretty m_Policy m_Indentation a.expr
        ++ VisitFunctionDecl_initArgs E m_Policy m_Indentation (I + 1) rest

/-- Lines 408-470: the loop over the constructor initializers; the result is
`Proto` after the loop and the text that the loop has written to `Out()`. -/
def VisitFunctionDecl_inits (E : Env) (m_Policy : PrintingPolicy) (m_Indentation : Nat) :
    List CXXCtorInitializer → Bool → String → String → String × String
  | [], _, Proto, out => (Proto, out)
  | B :: rest, HasInitializerList, Proto, out =>
    if B.isInClassMemberInitializer then
      VisitFunctionDecl_inits E m_Policy m_Indentation rest HasInitializerList Proto out
    else
      let out := if !HasInitializerList then out ++ (Proto ++ " : ") else out ++ ", "
      let Proto := if !HasInitializerList then "" else Proto
      let out := out ++ (if B.isAnyMemberInitializer then B.getAnyMember
        else E.printQualType m_Policy B.getBaseClass "")
      let out := out ++ "("
      let out := out ++ (match B.getInit with
        | none => ""
        | some (.Simple e) => E.printPretty m_Policy m_Indentation e
        | some (.ParenList args) => VisitFunctionDecl_initArgs E m_Policy m_Indentation 0 args
        | some (.Construct args) => VisitFunctionDecl_initArgs E m_Policy m_Indentation 0 args)
      let out := out ++ ")"
      let out := out ++ (if B.isPackExpansion then "..." else "")
      VisitFunctionDecl_inits E m_Policy m_Indentation rest true Proto out

/-- Lines 502-506: the loop over the parameters of a K&R definition. -/
def VisitFunctionDecl_KRparams (V : DeclVisit) :
    List DeclId → ForwardDeclPrinter → Option ForwardDeclPrinter
  | [], s => some s
  | P :: rest, s =>
    (V P (s.Indent s.m_Indentation)).bind fun s =>
    VisitFunctionDecl_KRparams V rest (s.Out ";\n")

/-- Lines 357-485: the declarator after the parameter list: the value of
`hasTrailingReturn` and the text written to `Out()`. -/
def VisitFunctionDecl_declarator (E : Env) (m_Policy : PrintingPolicy) (m_Indentation : Nat)
    (F : FunctionDecl) (FT : Option FunctionProtoType) (Proto : String)
    (SubPolicy : PrintingPolicy) : Bool × String :=
  match F.getAsFunctionType with
  | some AFT =>
    let Proto := Proto ++ ")"
    let Proto := match FT with
      | some FT => VisitFunctionDecl_exceptionSpec E SubPolicy m_Indentation FT
          (VisitFunctionDecl_qualifiers FT Proto)
      | none => Proto
    if F.isCXXConstructorDecl then
      let r := VisitFunctionDecl_inits E m_Policy m_Indentation F.inits false Proto ""
      (false, r.2 ++ r.1)
    else if !F.isCXXConversionDecl && !F.isCXXDestructorDecl then
      let trailing : Bool := match FT with
        | some FT => FT.hasTrailingReturn
        | none => false
      if trailing then
        (true, "auto " ++ Proto ++ " -> " ++ E.printQualType m_Policy AFT.getReturnType "")
      else (false, E.printQualType m_Policy AFT.getReturnType Proto)
    else (false, Proto)
  | none => (false, E.printQualType m_Policy F.getType Proto)

/-- Lines 499-509: the parameters of a K&R definition, rendered in a nested
stream with the policy `SubPolicy`. -/
def VisitFunctionDecl_KRbody (V : DeclVisit) (F : FunctionDecl) (SubPolicy : PrintingPolicy)
    (s : ForwardDeclPrinter) : Option ForwardDeclPrinter :=
  let s := s.Out "\n"
  let subPol := s.m_Policy
  let s := s.StreamRAII_push (some SubPolicy)
  let s := { s with m_Indentation := s.m_Indentation + s.m_Policy.Indentation }
  (VisitFunctionDecl_KRparams V F.params s).bind fun s =>
  let s := { s with m_Indentation := s.m_Indentation - s.m_Policy.Indentation }
  let output := (s.StreamRAII_take true).1
  let s := (s.StreamRAII_take true).2
  let s := s.Out output
  some (s.StreamRAII_exit true subPol)

/-- Lines 489-515: what follows the declarator of a function. -/
def VisitFunctionDecl_body (V : DeclVisit) (F : FunctionDecl) (SubPolicy : PrintingPolicy)
    (s : ForwardDeclPrinter) : Option ForwardDeclPrinter :=
  if F.isPure then some (s.Out " = 0")
  else if F.isDeletedAsWritten then some (s.Out " = delete")
  else if F.isExplicitlyDefaulted then some (s.Out " = default")
  else if F.doesThisDeclarationHaveABody && !s.m_Policy.TerseOutput then
    if !F.hasPrototype && F.params.length ≠ 0 then VisitFunctionDecl_KRbody V F SubPolicy s
    else some (s.Out " ")
  else some s

/-- Lines 357-517: `VisitFunctionDecl` from the closing parenthesis of the
parameter list on.  `streamPol` is the policy saved by `StreamRAII stream`. -/
def VisitFunctionDecl_rest (E : Env) (V : DeclVisit) (D : Decl) (F : FunctionDecl)
    (FT : Option FunctionProtoType) (Proto : String) (SubPolicy streamPol : PrintingPolicy)
    (s : ForwardDeclPrinter) : Option ForwardDeclPrinter :=
  let declarator :=
    VisitFunctionDecl_declarator E s.m_Policy s.m_Indentation F FT Proto SubPolicy
  let s := s.Out declarator.2
  let s := s.Out (if !declarator.1 then prettyPrintAttributes_text D "" else "")
  (VisitFunctionDecl_body V F SubPolicy s).bind fun s =>
  let output := (s.StreamRAII_take true).1
  let s := (s.StreamRAII_take true).2
  let s := s.Out (output ++ ";\n")
  some (s.StreamRAII_exit true streamPol)

/-- Lines 333-355: the parameter list of a function whose type is a function
type; `FT` is the prototype (null without a written prototype). -/
def VisitFunctionDecl_prototype (E : Env) (V : DeclVisit) (D : Decl) (F : FunctionDecl)
    (FT : Option FunctionProtoType) (Proto : String) (SubPolicy streamPol : PrintingPolicy)
    (s : ForwardDeclPrinter) : Option ForwardDeclPrinter :=
  match FT with
  | some FTy =>
    let subPol := s.m_Policy
    let s := s.StreamRAII_push (some SubPolicy)
    (VisitFunctionDecl_params V 0 F.params s).bind fun r =>
    if r.1 then
      some ((r.2.StreamRAII_exit false subPol).StreamRAII_exit false streamPol)
    else
      let s := r.2
      let s := s.Out (if FTy.isVariadic then
          (if F.params.length ≠ 0 then ", " else "") ++ "..." else "")
      let Proto := Proto ++ (s.StreamRAII_take).1
      let s := s.StreamRAII_exit false subPol
      VisitFunctionDecl_rest E V D F FT Proto SubPolicy streamPol s
  | none =>
    let Proto := if F.doesThisDeclarationHaveABody && !F.hasPrototype then
        Proto ++ String.intercalate ", " (F.params.map fun P => (E.decl P).getNameAsString)
      else Proto
    VisitFunctionDecl_rest E V D F FT Proto SubPolicy streamPol s

/-- Lines 284-518: `VisitFunctionDecl`. -/
def VisitFunctionDecl (E : Env) (V : DeclVisit) (D : Decl) (F : FunctionDecl)
    (s : ForwardDeclPrinter) : Option ForwardDeclPrinter :=
  (VisitQualType V F.getReturnType s).bind fun s =>
  if s.m_SkipFlag then some (s.skipCurrentDecl true)
  else
    let streamPol := s.m_Policy
    let s := s.StreamRAII_push
    let s := s.Out (VisitFunctionDecl_specifiers s.m_Policy D F)
    let SubPolicy : PrintingPolicy := { s.m_Policy with SuppressSpecifiers := false }
    let Proto := parenthesize F.parenDepth F.getNameInfo
    match F.getAsFunctionType with
    | some AFT =>
      VisitFunctionDecl_prototype E V D F (if F.hasWrittenPrototype then AFT.proto else none)
        (Proto ++ "(") SubPolicy streamPol s
    | none => VisitFunctionDecl_rest E V D F none Proto SubPolicy streamPol s

/-! ## C++ declarations -/

/-- Lines 683-687: the loop over the members of a namespace. -/
def VisitNamespaceDecl_decls (V : DeclVisit) :
    List DeclId → Bool → ForwardDeclPrinter → Option (Bool × ForwardDeclPrinter)
  | [], haveAnyDecl, s => some (haveAnyDecl, s)
  | dit :: rest, haveAnyDecl, s =>
    (V dit s).bind fun s =>
    VisitNamespaceDecl_decls V rest (haveAnyDecl || !s.m_SkipFlag) (s.skipCurrentDecl false)

/-- Lines 677-699: `VisitNamespaceDecl`; `Did` is the pointer `D` itself. -/
def VisitNamespaceDecl (V : DeclVisit) (Did : DeclId) (D : Decl) (N : NamespaceDecl)
    (s : ForwardDeclPrinter) : Option ForwardDeclPrinter :=
  let streamPol := s.m_Policy
  let s := s.StreamRAII_push
  (VisitNamespaceDecl_decls V N.decls false s).bind fun r =>
  let haveAnyDecl : Bool := r.1 || (Did == D.getCanonicalDecl)
  let s := r.2
  if haveAnyDecl then
    let output := (s.StreamRAII_take true).1
    let s := (s.StreamRAII_take true).2
    let s := s.Out (if N.isInline then "inline " else "")
    let s := s.Out ("namespace " ++ D.getNameAsString ++ " \x7b\n" ++ output ++ "\x7d\n")
    some (s.StreamRAII_exit true streamPol)
  else some (s.StreamRAII_exit false streamPol)

/-- Lines 701-712: `VisitUsingDirectiveDecl`. -/
def VisitUsingDirectiveDecl (E : Env) (V : DeclVisit) (U : UsingDirectiveDecl)
    (s : ForwardDeclPrinter) : Option ForwardDeclPrinter :=
  (V U.getNominatedNamespace s).bind fun s =>
  if s.m_SkipFlag then some (s.skipCurrentDecl true)
  else
    some (s.Out ("using namespace "
      ++ (match U.getQualifier with
        | some q => E.printNestedNameSpecifier s.m_Policy q
        | none => "")
      ++ U.getNominatedNamespaceAsWritten ++ ";\n"))

/-- Lines 714-725: `VisitUsingDecl`. -/
def VisitUsingDecl (E : Env) (V : DeclVisit) (Did : DeclId) (shadows : List DeclId)
    (s : ForwardDeclPrinter) : Option ForwardDeclPrinter :=
  (VisitEach V shadows s).bind fun s =>
  if s.m_SkipFlag then some (s.skipCurrentDecl true)
  else some (s.Out (E.printDecl s.m_Policy Did ++ ";\n"))

/-- Lines 726-730: `VisitUsingShadowDecl`. -/
def VisitUsingShadowDecl (V : DeclVisit) (getTargetDecl : DeclId) (s : ForwardDeclPrinter) :
    Option ForwardDeclPrinter :=
  (V getTargetDecl s).bind fun s =>
  if s.m_SkipFlag then some (s.skipCurrentDecl true) else some s

/-- Lines 732-733: `VisitTypeAliasTemplateDecl`. -/
def VisitTypeAliasTemplateDecl (s : ForwardDeclPrinter) : ForwardDeclPrinter := s

/-- Lines 735-740: `VisitNamespaceAliasDecl`. -/
def VisitNamespaceAliasDecl (E : Env) (D : Decl) (N : NamespaceAliasDecl)
    (s : ForwardDeclPrinter) : ForwardDeclPrinter :=
  s.Out ("namespace " ++ D.getNameAsString ++ " = "
    ++ (match N.getQualifier with
      | some q => E.printNestedNameSpecifier s.m_Policy q
      | none => "")
    ++ N.getAliasedNamespace ++ ";\n")

/-- Lines 742-744: `VisitEmptyDecl`. -/
def VisitEmptyDecl (s : ForwardDeclPrinter) : ForwardDeclPrinter := s

/-- Lines 746-755: `VisitTagDecl(CXXRecordDecl*)`; `DeclVisitor` never calls it
(a `CXXRecordDecl` is dispatched to `VisitRecordDecl`). -/
def VisitTagDecl (D : Decl) (getKindName : String) (s : ForwardDeclPrinter) :
    ForwardDeclPrinter :=
  s.Out (VisitRecordDecl_text s.m_Policy D getKindName)

/-- Lines 757-780: `VisitLinkageSpecDecl`.  A linkage specification without
braces has exactly one member (`*D->decls_begin()`). -/
def VisitLinkageSpecDecl (V : DeclVisit) (L : LinkageSpecDecl) (s : ForwardDeclPrinter) :
    Option ForwardDeclPrinter :=
  let l := if L.isLangC then "C" else "C++"
  let s := s.Out ("extern \"" ++ l ++ "\" ")
  if L.hasBraces then
    (VisitEach V L.decls (s.Out "\x7b\n")).bind fun s => some (s.Out "\x7d")
  else
    let s := s.Out "\x7b\n"
    (match L.decls with
      | first :: _ => V first s
      | [] => some s).bind fun s => some (s.Out ";\x7d\n")

/-- Lines 794-838: the text written for a type or non-type parameter of a
template (`Args` holds, per argument, its type and its printed form). -/
def PrintTemplateParameters_text (E : Env) (m_Policy : PrintingPolicy) (m_Indentation : Nat)
    (Args : Option (List (QualType × String))) (i : Nat) : TemplateParam → String
  | .TemplateTypeParm wasDeclaredWithTypename isParameterPack name defaultArgument =>
    let ArgQT : Option QualType := match Args with
      | some args => some (args.getD i default).1
      | none => defaultArgument
    (if wasDeclaredWithTypename then "typename " else "class ")
    ++ (if isParameterPack then "..." else "")
    ++ name
    ++ (match ArgQT with
      | some q => " = " ++ E.printQualType m_Policy (E.GetFullyQualifiedType q) ""
      | none => "")
  | .NonTypeTemplateParm identifier type isParameterPack defaultArgument =>
    printDeclType_text E m_Policy type (identifier.getD "") isParameterPack
    ++ (match Args with
      | some args => " = " ++ (args.getD i default).2
      | none =>
        match defaultArgument with
        | some e => " = " ++ E.printPretty m_Policy m_Indentation e
        | none => "")
  | .TemplateTemplateParm _ => ""
  | .Other => ""

/-- Lines 789-844: the loop of `PrintTemplateParameters` over the parameters;
a template template parameter is visited (line 841). -/
def PrintTemplateParameters_params (E : Env) (V : DeclVisit)
    (Args : Option (List (QualType × String))) :
    Nat → List TemplateParam → ForwardDeclPrinter → Option ForwardDeclPrinter
  | _, [], s => some s
  | i, Param :: rest, s =>
    let s := s.Out (if i ≠ 0 then ", " else "")
    let text := PrintTemplateParameters_text E s.m_Policy s.m_Indentation Args i Param
    let r : Option ForwardDeclPrinter :=
      match Param with
      | .TemplateTypeParm _ _ _ _ => some (s.Out text)
      | .NonTypeTemplateParm _ _ _ _ => some (s.Out text)
      | .TemplateTemplateParm TTPD => V TTPD s
      | .Other => some (s.Out text)
    r.bind fun s => PrintTemplateParameters_params E V Args (i + 1) rest s

/-- Lines 782-847: `PrintTemplateParameters(Params, Args)`. -/
def PrintTemplateParameters (E : Env) (V : DeclVisit) (Params : TemplateParameterList)
    (Args : Option (List (QualType × String))) (s : ForwardDeclPrinter) :
    Option ForwardDeclPrinter :=
  (PrintTemplateParameters_params E V Args 0 Params.params (s.Out "template <")).bind
    fun s => some (s.Out "> ")

/-- The cast of a declaration to `RedeclarableTemplateDecl`. -/
def asRedeclarableTemplateDecl : DeclKind → Option RedeclarableTemplateDecl
  | .FunctionTemplate T => some T
  | .ClassTemplate T => some T
  | .VarTemplate T => some T
  | _ => none

/-- Lines 853-857: the loop over `D->redecls()`: `D` becomes each
redeclaration whose parameter list has more parameters than required
arguments (so the last such one is kept). -/
def VisitRedeclarableTemplateDecl_redecls (E : Env) :
    List DeclId → DeclId × RedeclarableTemplateDecl → DeclId × RedeclarableTemplateDecl
  | [], D => D
  | RD :: rest, D =>
    match asRedeclarableTemplateDecl (E.decl RD).kind with
    | some R =>
      let TPL := R.getTemplateParameters
      VisitRedeclarableTemplateDecl_redecls E rest
        (if TPL.getMinRequiredArguments < TPL.params.length then (RD, R) else D)
    | none => VisitRedeclarableTemplateDecl_redecls E rest D

/-- Lines 849-877: `VisitRedeclarableTemplateDecl`.  The cast of line 863 to
`TemplateTemplateParmDecl` never succeeds on a `RedeclarableTemplateDecl`, so
the templated declaration is always visited (line 871). -/
def VisitRedeclarableTemplateDecl (E : Env) (V : DeclVisit) (Did : DeclId)
    (T : RedeclarableTemplateDecl) (s : ForwardDeclPrinter) : Option ForwardDeclPrinter :=
  let D := (VisitRedeclarableTemplateDecl_redecls E T.redecls (Did, T)).2
  let streamPol := s.m_Policy
  let s := s.StreamRAII_push
  (PrintTemplateParameters E V D.getTemplateParameters none s).bind fun s =>
  (V D.getTemplatedDecl s).bind fun s =>
  if !s.m_SkipFlag then
    let output := (s.StreamRAII_take true).1
    let s := (s.StreamRAII_take true).2
    let s := s.Out output
    some (s.StreamRAII_exit true streamPol)
  else some (s.StreamRAII_exit false streamPol)

/-- Lines 882-886 and 896-901: the loop over the specializations, entered only
when `m_PrintInstantiation` is set. -/
def VisitTemplateDecl_specs (E : Env) (V : DeclVisit) (Params : TemplateParameterList)
    (newline : Bool) : List TemplateSpec → ForwardDeclPrinter → Option ForwardDeclPrinter
  | [], s => some s
  | I :: rest, s =>
    (PrintTemplateParameters E V Params (some I.args) s).bind fun s =>
    (V I.decl s).bind fun s =>
    VisitTemplateDecl_specs E V Params newline rest (s.Out (if newline then "\n" else ""))

/-- Lines 879-891: `VisitFunctionTemplateDecl`. -/
def VisitFunctionTemplateDecl (E : Env) (V : DeclVisit) (Did : DeclId)
    (T : RedeclarableTemplateDecl) (s : ForwardDeclPrinter) : Option ForwardDeclPrinter :=
  (if s.m_PrintInstantiation then
      VisitTemplateDecl_specs E V T.getTemplateParameters false T.specializations s
    else some s).bind fun s =>
  VisitRedeclarableTemplateDecl E V Did T s

/-- Lines 893-904: `VisitClassTemplateDecl`. -/
def VisitClassTemplateDecl (E : Env) (V : DeclVisit) (Did : DeclId)
    (T : RedeclarableTemplateDecl) (s : ForwardDeclPrinter) : Option ForwardDeclPrinter :=
  (if s.m_PrintInstantiation then
      VisitTemplateDecl_specs E V T.getTemplateParameters true T.specializations s
    else some s).bind fun s =>
  VisitRedeclarableTemplateDecl E V Did T s

/-- Lines 906-934: `VisitClassTemplateSpecializationDecl`. -/
def VisitClassTemplateSpecializationDecl (V : DeclVisit) (D : Decl)
    (C : ClassTemplateSpecializationDecl) (s : ForwardDeclPrinter) :
    Option ForwardDeclPrinter :=
  let s := s.Log D.getNameAsString
  let s := s.Log " ClassTemplateSpecialization : Skipped by default\n"
  V C.getSpecializedTemplate s

/-- The dispatch `clang::DeclVisitor<ForwardDeclPrinter>::Visit(D)` on the
dynamic kind of `D`; a kind without a method of its own does nothing. -/
def DeclVisitor_Visit (E : Env) (V : DeclVisit) (Did : DeclId) (s : ForwardDeclPrinter) :
    Option ForwardDeclPrinter :=
  let D := E.decl Did
  match D.kind with
  | .TranslationUnit decls => VisitTranslationUnitDecl V decls s
  | .Typedef q => VisitTypedefDecl E V D q s
  | .TypeAlias q => some (VisitTypeAliasDecl E D q s)
  | .Enum N => some (VisitEnumDecl E D N s)
  | .Record getKindName => some (VisitRecordDecl D getKindName s)
  | .Function F => VisitFunctionDecl E V D F s
  | .Friend => some (VisitFriendDecl s)
  | .Field F => some (VisitFieldDecl E D F s)
  | .Label => some (VisitLabelDecl D s)
  | .Var VD => VisitVarDecl E V D VD s
  | .ParmVar VD => VisitParmVarDecl E V D VD s
  | .FileScopeAsm a => some (VisitFileScopeAsmDecl E a s)
  | .Import m => some (VisitImportDecl m s)
  | .StaticAssert a m => some (VisitStaticAssertDecl E a m s)
  | .Namespace N => VisitNamespaceDecl V Did D N s
  | .UsingDirective U => VisitUsingDirectiveDecl E V U s
  | .Using shadows => VisitUsingDecl E V Did shadows s
  | .UsingShadow target => VisitUsingShadowDecl V target s
  | .TypeAliasTemplate => some (VisitTypeAliasTemplateDecl s)
  | .NamespaceAlias N => some (VisitNamespaceAliasDecl E D N s)
  | .Empty => some (VisitEmptyDecl s)
  | .LinkageSpec L => VisitLinkageSpecDecl V L s
  | .FunctionTemplate T => VisitFunctionTemplateDecl E V Did T s
  | .ClassTemplate T => VisitClassTemplateDecl E V Did T s
  | .VarTemplate T => VisitRedeclarableTemplateDecl E V Did T s
  | .ClassTemplateSpecialization C => VisitClassTemplateSpecializationDecl V D C s
  | .Other => some s

/-! ## The skip policy -/

/-- Lines 1086-1089: `isOperator`: `getNameAsString().find("operator") == 0`. -/
def isOperator (D : Decl) : Bool :=
  "operator".toList.isPrefixOf D.getNameAsString.toList

/-- Lines 1100-1117: `shouldSkipImpl(FunctionDecl*)`. -/
def shouldSkipImpl_FunctionDecl (D : Decl) (F : FunctionDecl) : Bool :=
  D.getIdentifier.isNone
    || D.getNameAsString.toList.head? == some '_'
    || F.getStorageClass == .SC_Static
    || F.isCXXClassMember
    || isOperator D
    || F.isDeleted
    || F.isDeletedAsWritten

/-- Lines 1119-1121: `shouldSkipImpl(FunctionTemplateDecl*)`. -/
def shouldSkipImpl_FunctionTemplateDecl (E : Env) (T : RedeclarableTemplateDecl) : Bool :=
  match (E.decl T.getTemplatedDecl).kind with
  | .Function F => shouldSkipImpl_FunctionDecl (E.decl T.getTemplatedDecl) F
  | _ => false

/-- Lines 1123-1125: `shouldSkipImpl(TagDecl*)`. -/
def shouldSkipImpl_TagDecl (D : Decl) : Bool :=
  D.getIdentifier.isNone

/-- Lines 1127-1134: `shouldSkipImpl(VarDecl*)`. -/
def shouldSkipImpl_VarDecl (D : Decl) (VD : VarDecl) (s : ForwardDeclPrinter) :
    Bool × ForwardDeclPrinter :=
  if VD.getStorageClass = .SC_Static then
    let s := s.Log (D.getName ++ " Var : Static\n")
    (true, s.setVisited D.getCanonicalDecl false)
  else (false, s)

/-- Lines 1136-1143: `shouldSkipImpl(EnumDecl*)`. -/
def shouldSkipImpl_EnumDecl (D : Decl) (s : ForwardDeclPrinter) :
    Bool × ForwardDeclPrinter :=
  if D.getIdentifier.isNone then
    (true, (s.Log D.getNameAsString).Log "Enum: Empty name\n")
  else (false, s)

/-- Lines 1152-1158: `shouldSkipImpl(ClassTemplateSpecializationDecl*)`. -/
def shouldSkipImpl_ClassTemplateSpecializationDecl
    (C : ClassTemplateSpecializationDecl) : Bool :=
  C.isClassTemplatePartialSpecializationDecl

/-- Modelled from the spec: the overload of `shouldSkipImpl` chosen for a
declaration without a predicate of its own is declared in the absent header.
§4.1: "declarations not covered by an explicit predicate are eligible by
default". -/
def shouldSkipImpl_default : Bool := false

/-- Lines 1160-1166: `shouldSkipImpl(UsingDirectiveDecl*)`; the nominated
declaration is a `NamespaceDecl`, which has no predicate of its own. -/
def shouldSkipImpl_UsingDirectiveDecl (D : Decl) (s : ForwardDeclPrinter) :
    Bool × ForwardDeclPrinter :=
  if shouldSkipImpl_default then
    (true, s.Log (D.getNameAsString ++ " Using Directive : Incompatible Type\n"))
  else (false, s)

/-- Lines 1168-1172: `shouldSkipImpl(TypeAliasTemplateDecl*)`. -/
def shouldSkipImpl_TypeAliasTemplateDecl (D : Decl) (s : ForwardDeclPrinter) :
    Bool × ForwardDeclPrinter :=
  (true, (s.Log D.getNameAsString).Log " TypeAliasTemplateDecl: Always Skipped\n")

/-- Modelled from the spec: the log line of a declaration that is skipped by
policy, for the predicates that write no line of their own; the dispatcher
that writes it is declared in the absent header.  §6: the log stream receives
"one line per skipped or unusual declaration, stating the declaration's name
and the reason"; §7: a declaration that is ineligible by policy is "always a
silent skip plus a log line"; §8, example 2: for `static int hidden();` the
"log records the name". -/
def shouldSkip_logged (D : Decl) (skip : Bool) (s : ForwardDeclPrinter) :
    Bool × ForwardDeclPrinter :=
  (skip, if skip then s.Log (D.getNameAsString ++ " : Ineligible by policy\n") else s)

/-- Modelled from the spec: `shouldSkip(D)` is declared in the absent header.
§4.1: a "per-kind eligibility predicate, evaluated before dependency traversal
on the current declaration"; it applies the predicate `shouldSkipImpl` of the
kind of `D` (function, function template, tag - record, enum, class template -,
variable, class template specialization, using-directive, type alias
template), and every other kind is eligible.  §6, §7: the log receives one
line for a declaration that is rejected; the predicates of enumerations,
variables, using-directives and type alias templates write it themselves. -/
def shouldSkip (E : Env) (Did : DeclId) (s : ForwardDeclPrinter) :
    Bool × ForwardDeclPrinter :=
  let D := E.decl Did
  match D.kind with
  | .Function F => shouldSkip_logged D (shouldSkipImpl_FunctionDecl D F) s
  | .FunctionTemplate T => shouldSkip_logged D (shouldSkipImpl_FunctionTemplateDecl E T) s
  | .Record _ => shouldSkip_logged D (shouldSkipImpl_TagDecl D) s
  | .ClassTemplate _ => shouldSkip_logged D (shouldSkipImpl_TagDecl D) s
  | .Enum _ => shouldSkipImpl_EnumDecl D s
  | .Var VD => shouldSkipImpl_VarDecl D VD s
  | .ParmVar VD => shouldSkipImpl_VarDecl D VD s
  | .ClassTemplateSpecialization C =>
    shouldSkip_logged D (shouldSkipImpl_ClassTemplateSpecializationDecl C) s
  | .UsingDirective _ => shouldSkipImpl_UsingDirectiveDecl D s
  | .TypeAliasTemplate => shouldSkipImpl_TypeAliasTemplateDecl D s
  | _ => (shouldSkipImpl_default, s)

/-! ## The visitation protocol -/

/-- Lines 109-131: `Visit(clang::Decl* D)`.  The ghost field `traceDispatch`
receives `D` right before the dispatch of line 124. -/
def Visit (E : Env) (V : DeclVisit) (D : DeclId) (s : ForwardDeclPrinter) :
    Option ForwardDeclPrinter :=
  match s.m_Visited.find (getCanonicalOrNamespace E D) with
  | some emittable =>
    if !emittable then some (s.skipCurrentDecl true) else some s
  | none =>
    let s := s.setVisited (getCanonicalOrNamespace E D) true
    let r := shouldSkip E D s
    if r.1 then
      let s := r.2.skipCurrentDecl true
      some (s.setVisited (getCanonicalOrNamespace E D) false)
    else
      (DeclVisitor_Visit E V D (r.2.traceDispatched D)).bind fun s =>
      if s.m_SkipFlag then
        let s := s.skipCurrentDecl true
        some (s.setVisited (getCanonicalOrNamespace E D) false)
      else some s

/-- The recursion of `Visit(clang::Decl*)` through the methods, with a bound on
the depth of nested calls: `exec E n D s` is `Visit(D)` in state `s` when no
chain of nested `Visit(Decl*)` calls is longer than `n`, and `none` otherwise. -/
def exec (E : Env) : Nat → DeclVisit
  | 0 => fun _ _ => none
  | n + 1 => fun D s => Visit E (exec E n) D s

/-! ## The transaction and the constructor -/

inductive MacroDirectiveKind
  | MD_Define
  | MD_Undefine
  | MD_Visibility
deriving DecidableEq, Repr

/-- A replacement token of a definition (`Tok.getName()`). -/
structure Token where
  getName : String := ""

/-- The `clang::MacroInfo` of a directive.  `isFunctionLike` is what clang
records for `#define F(x) ...`; the constructor never reads it. -/
structure MacroInfo where
  tokens : List Token := []
  isFunctionLike : Bool := false

/-- The `Transaction::MacroDirectiveInfo` entries: the name `m_II->getName()`,
and the kind and the `MacroInfo` of the directive `m_MD`. -/
structure MacroDirectiveInfo where
  m_II : String := ""
  getKind : MacroDirectiveKind := .MD_Define
  getMacroInfo : MacroInfo := {}

inductive ConsumerCallInfo
  | kCCINone
  | kCCIHandleTopLevelDecl
  | kCCIHandleInterestingDecl
  | kCCIHandleTagDeclDefinition
  | kCCIHandleVTable
  | kCCIHandleCXXImplicitFunctionInstantiation
  | kCCIHandleCXXStaticMemberVarInstantiation
  | kCCICompleteTentativeDefinition
deriving DecidableEq, Repr

/-- The `Transaction::DelayCallInfo` entries: the declaration group `m_DGR`
(`none` when `m_DGR.isNull()`) and the call `m_Call` it was delivered with. -/
structure DelayCallInfo where
  m_DGR : Option (List DeclId) := some []
  m_Call : ConsumerCallInfo := .kCCIHandleTopLevelDecl

/-- The part of `cling::Transaction` that the constructor iterates over. -/
structure Transaction where
  macros : List MacroDirectiveInfo := []
  decls : List DelayCallInfo := []

/-- Lines 65-69: the loop over the replacement tokens of a definition. -/
def ctor_tokens (name : String) :
    List Token → ForwardDeclPrinter × List String → ForwardDeclPrinter × List String
  | [], r => r
  | Tok :: rest, (s, macrodefs) =>
    ctor_tokens name rest (s.Out (Tok.getName ++ " "), macrodefs ++ [name])

/-- Lines 57-72: the loop over the directives of the transaction. -/
def ctor_macros :
    List MacroDirectiveInfo → ForwardDeclPrinter × List String →
      ForwardDeclPrinter × List String
  | [], r => r
  | m :: rest, (s, macrodefs) =>
    if m.getKind = .MD_Define then
      let MI := m.getMacroInfo
      if MI.tokens.length > 1 then ctor_macros rest (s, macrodefs)
      else
        let s := s.Out ("#define " ++ m.m_II ++ " ")
        let r := ctor_tokens m.m_II MI.tokens (s, macrodefs)
        ctor_macros rest (r.1.Out "\n", r.2)
    else ctor_macros rest (s, macrodefs)

/-- Lines 81-98: the loop over the declarations of one group.  The ghost field
`traceDriver` receives each declaration that the loop passes to `Visit`. -/
def ctor_group (E : Env) (V : DeclVisit) :
    List DeclId → ForwardDeclPrinter → Option ForwardDeclPrinter
  | [], s => some s
  | dit :: rest, s =>
    if !(E.decl dit).isInTranslationUnit then ctor_group E V rest s
    else
      (V dit (s.traceDriven dit)).bind fun s =>
      ctor_group E V rest (s.skipCurrentDecl false)

/-- Lines 75-101: the loop over the declaration groups of the transaction; it
stops at the first null group (`break`, line 78). -/
def ctor_decls (E : Env) (V : DeclVisit) :
    List DelayCallInfo → ForwardDeclPrinter → Option ForwardDeclPrinter
  | [], s => some s
  | dci :: rest, s =>
    match dci.m_DGR with
    | none => some s
    | some group =>
      if dci.m_Call = .kCCIHandleTopLevelDecl then
        (ctor_group E V group s).bind fun s => ctor_decls E V rest s
      else ctor_decls E V rest s

/-- Lines 103-105: the loop over `macrodefs`. -/
def ctor_undefs : List String → ForwardDeclPrinter → ForwardDeclPrinter
  | [], s => s
  | m :: rest, s => ctor_undefs rest (s.Out ("#undef " ++ m ++ "\n"))

/-- Lines 29-53: the member initializers and the first lines of the output.
The policy is `clang::PrintingPolicy(clang::LangOptions())` with
`SuppressTagKeyword` and `Bool` set; the output stream starts empty. -/
def ctor_init (Indentation : Nat) : ForwardDeclPrinter :=
  let s : ForwardDeclPrinter :=
    { m_Policy := { SuppressTagKeyword := true, UseBool := true }
      m_Log := ""
      m_Indentation := Indentation
      m_SkipFlag := false
      m_PrintInstantiation := false
      streamTop := ""
      streamRest := []
      m_SkipCounter := 0
      m_TotalDecls := 0 }
  let s := s.Out "#pragma clang diagnostic ignored \"-Wkeyword-compat\"\n"
  let s := s.Out "#pragma clang diagnostic ignored \"-Wignored-attributes\"\n"
  let s := s.Out "#pragma clang diagnostic ignored \"-Wreturn-type-c-linkage\"\n"
  s.Out "extern int __Cling_Autoloading_Map;\n"

/-- Lines 23-107: the constructor `ForwardDeclPrinter(OutS, LogS, S, T,
Indentation, printMacros)`, which performs the whole run; `fuel` bounds the
depth of nested `Visit(Decl*)` calls (see `exec`). -/
def ctor (E : Env) (fuel : Nat) (T : Transaction) (Indentation : Nat)
    (printMacros : Bool) : Option ForwardDeclPrinter :=
  let s := ctor_init Indentation
  let r : ForwardDeclPrinter × List String :=
    if printMacros then ctor_macros T.macros (s, []) else (s, [])
  (ctor_decls E (exec E fuel) T.decls r.1).bind fun s =>
  some (if printMacros then ctor_undefs r.2 s else s)

end ForwardDeclPrinter

end cling

namespace cling

namespace ForwardDeclPrinter

/-! ## Reasoning about the methods

Every method other than `Visit(Decl*)` touches the Visit State Table, the
ghost traces and the streams below the top of `m_StreamStack` only through its
recursive calls.  `core` collects these parts of the state; `Frame` lists what
a relation between the state before and after a method needs in order to be
carried through every method. -/

/-- The parts of the printer that only `Visit(Decl*)`, `shouldSkip`, the
constructor's loop and `StreamRAII` change. -/
structure Core where
  m_Visited : VisitedMap
  traceDispatch : List DeclId
  traceDriver : List DeclId
  streamRest : List String
  m_PrintInstantiation : Bool

/-- The core of a state. -/
def core (s : ForwardDeclPrinter) : Core :=
  ⟨s.m_Visited, s.traceDispatch, s.traceDriver, s.streamRest, s.m_PrintInstantiation⟩

/-- The outcome of a method started in `s`: on return the states are related
by `R` and the result satisfies `A`; `N` is what holds when the bound on the
depth of the recursion was reached. -/
def Post (N : Prop) (A : ForwardDeclPrinter → Prop)
    (R : ForwardDeclPrinter → ForwardDeclPrinter → Prop) (s : ForwardDeclPrinter) :
    Option ForwardDeclPrinter → Prop
  | some s' => R s s' ∧ A s'
  | none => N

/-- A method keeps `A` and relates its states by `R`. -/
def Triple (N : Prop) (A : ForwardDeclPrinter → Prop)
    (R : ForwardDeclPrinter → ForwardDeclPrinter → Prop)
    (f : ForwardDeclPrinter → Option ForwardDeclPrinter) : Prop :=
  ∀ s, A s → Post N A R s (f s)

/-- What the relation `R` and the predicate `A` must satisfy. -/
structure Frame (A : ForwardDeclPrinter → Prop)
    (R : ForwardDeclPrinter → ForwardDeclPrinter → Prop) : Prop where
  refl : ∀ s, R s s
  trans : ∀ {a b c}, R a b → R b c → R a c
  pres : ∀ {s s'}, A s → R s s' → A s'
  core : ∀ {s s'}, core s' = core s → R s s'
  push_pop : ∀ {s s1} (pol : Option PrintingPolicy),
    R (s.StreamRAII_push pol) s1 → R s s1.popStream
  push_A : ∀ {s} (pol : Option PrintingPolicy), A s → A (s.StreamRAII_push pol)
  pop_A : ∀ {s}, A s → A s.popStream

/-- What the visits of a type need of the relation `R` and the predicate `A`:
besides its nested `Visit(Decl*)` calls, the visit of a type only writes to
the log. -/
structure LogFrame (A : ForwardDeclPrinter → Prop)
    (R : ForwardDeclPrinter → ForwardDeclPrinter → Prop) : Prop where
  refl : ∀ s, R s s
  trans : ∀ {a b c}, R a b → R b c → R a c
  pres : ∀ {s s'}, A s → R s s' → A s'
  log : ∀ s t, R s (s.Log t)

/-- The keys that the Visit State Table of a run over `E` can hold: the keys
of the declarations of `E` and of the declaration behind a dangling pointer. -/
def allKeys (E : Env) : List DeclId :=
  (List.range (E.decls.length + 1)).map (getCanonicalOrNamespace E)

/-- The number of keys of `E` that the table of `s` does not hold yet. -/
def unvisited (E : Env) (s : ForwardDeclPrinter) : Nat :=
  ((allKeys E).filter fun k => (s.m_Visited.find k).isNone).length

/-- The invariant of the dispatch trace: no key was dispatched twice, and every
dispatched declaration has its key in the table. -/
def Inv (E : Env) (s : ForwardDeclPrinter) : Prop :=
  (s.traceDispatch.map (getCanonicalOrNamespace E)).Nodup ∧
    ∀ d ∈ s.traceDispatch, (s.m_Visited.find (getCanonicalOrNamespace E d)).isSome

/-- What every method guarantees between the state at its call and the state at
its return: the table only gains keys, the streams below the top of the stack,
the driver trace and `m_PrintInstantiation` are as before, the dispatch trace
is only extended, and the invariant of the dispatch trace is kept. -/
structure Step (E : Env) (s s' : ForwardDeclPrinter) : Prop where
  keys : ∀ k, (s.m_Visited.find k).isSome → (s'.m_Visited.find k).isSome
  rest : s'.streamRest = s.streamRest
  driver : s'.traceDriver = s.traceDriver
  printInst : s'.m_PrintInstantiation = s.m_PrintInstantiation
  trace : ∃ l, s'.traceDispatch = s.traceDispatch ++ l
  inv : Inv E s → Inv E s'

/-- The declarations that the loop over the groups `l` passes to `Visit`: those
in the translation unit, of the top-level groups that come before the first
null group. -/
def driverDeclsOf (E : Env) (l : List DelayCallInfo) : List DeclId :=
  (((l.takeWhile fun dci => dci.m_DGR.isSome).filter
      fun dci => dci.m_Call = .kCCIHandleTopLevelDecl).map
      fun dci => (dci.m_DGR.getD []).filter fun D => (E.decl D).isInTranslationUnit).flatten

/-- The declarations that the constructor's loop passes to `Visit`, read off
the transaction. -/
def driverDecls (E : Env) (T : Transaction) : List DeclId :=
  driverDeclsOf E T.decls

/-- The declarations in the translation unit of every top-level group of the
transaction, null groups or not in between. -/
def topLevelDecls (E : Env) (T : Transaction) : List DeclId :=
  ((T.decls.filter fun dci => dci.m_Call = .kCCIHandleTopLevelDecl).map
      fun dci => (dci.m_DGR.getD []).filter fun D => (E.decl D).isInTranslationUnit).flatten

/-- The text of the replacement tokens of a definition (lines 65-67). -/
def tokensText : List Token → String
  | [] => ""
  | Tok :: rest => Tok.getName ++ " " ++ tokensText rest

/-- The line written for a definition (lines 64-70). -/
def defineLine (m : MacroDirectiveInfo) : String :=
  "#define " ++ m.m_II ++ " " ++ tokensText m.getMacroInfo.tokens ++ "\n"

/-- A directive for which the macro pass writes a line: a definition with at
most one replacement token. -/
def isEmitted (m : MacroDirectiveInfo) : Bool :=
  m.getKind = .MD_Define && m.getMacroInfo.tokens.length ≤ 1

/-- The concatenation of the lines of a text. -/
def concatLines : List String → String
  | [] => ""
  | line :: rest => line ++ concatLines rest

/-- The lines of the emitted definitions of a macro table, in table order. -/
def definesText (macros : List MacroDirectiveInfo) : String :=
  concatLines ((macros.filter isEmitted).map defineLine)

/-- The names recorded in `macrodefs`: the name of each emitted definition,
once per replacement token. -/
def undefNames (macros : List MacroDirectiveInfo) : List String :=
  ((macros.filter isEmitted).map fun m => m.getMacroInfo.tokens.map fun _ => m.m_II).flatten

/-- The line that undefines a name (line 104). -/
def undefLine (m : String) : String := "#undef " ++ m ++ "\n"

/-- The lines that undefine the names of `macrodefs` (lines 103-105). -/
def undefsText (macrodefs : List String) : String :=
  concatLines (macrodefs.map undefLine)

/-- What the constructor's loops guarantee between two of their states. -/
structure Run (E : Env) (s s' : ForwardDeclPrinter) (driven : List DeclId) : Prop where
  keys : ∀ k, (s.m_Visited.find k).isSome → (s'.m_Visited.find k).isSome
  inv : Inv E s → Inv E s'
  driver : s'.traceDriver = s.traceDriver ++ driven
  visited : ∀ D ∈ driven, (s'.m_Visited.find (getCanonicalOrNamespace E D)).isSome
  flag : driven ≠ [] → s'.m_SkipFlag = false
  rest : s'.streamRest = s.streamRest
  same : driven = [] → s' = s

/-- The outcome of each member visit of the loop of `VisitNamespaceDecl` (lines
683-687), in order: `true` when the visit of the member succeeded, that is
when `m_SkipFlag` was clear after it (line 685). -/
def VisitNamespaceDecl_outcomes (V : DeclVisit) :
    List DeclId → ForwardDeclPrinter → List Bool
  | [], _ => []
  | dit :: rest, s =>
    match V dit s with
    | none => []
    | some s1 => (!s1.m_SkipFlag) :: VisitNamespaceDecl_outcomes V rest (s1.skipCurrentDecl false)

/-- A step that leaves the text of every buffer of the stack as it was. -/
def Quiet (s s' : ForwardDeclPrinter) : Prop :=
  s'.streamTop = s.streamTop ∧ s'.streamRest = s.streamRest

/-- A step that leaves the buffers below the top of the stack as they were. -/
def SameRest (s s' : ForwardDeclPrinter) : Prop :=
  s'.streamRest = s.streamRest

/-- Whether the function is a definition in K&R style with parameters: the only
functions whose parameters are visited after the declarator has been written
(lines 499-509). -/
def isKRDefinition (F : FunctionDecl) : Bool :=
  F.doesThisDeclarationHaveABody && !F.hasPrototype && F.params.length ≠ 0

/-- The text of its own that the render routine of a declaration of the given
kind has left in the enclosing buffer when it returns with the skip signal set:
none for a typedef, a variable or parameter, a function that is not a K&R
definition with parameters, a using-directive, a using-declaration and its
shadows, and a template or a class template specialization; the wrapper
written at lines 767-778 for a linkage specification.  The result is `none`
for the other kinds. -/
def ownTextOnSkip : DeclKind → Option String
  | .Typedef _ => some ""
  | .Var _ => some ""
  | .ParmVar _ => some ""
  | .Function F => if isKRDefinition F then none else some ""
  | .UsingDirective _ => some ""
  | .Using _ => some ""
  | .UsingShadow _ => some ""
  | .FunctionTemplate _ => some ""
  | .ClassTemplate _ => some ""
  | .VarTemplate _ => some ""
  | .ClassTemplateSpecialization _ => some ""
  | .LinkageSpec L =>
    some ("extern \"" ++ (if L.isLangC then "C" else "C++") ++ "\" " ++ "\x7b\n" ++
      (if L.hasBraces then "\x7d" else ";\x7d\n"))
  | _ => none

/-- The visits of its dependencies with which the render routine of a
declaration begins, up to its first test of the skip signal: the visit of the
declared type of a typedef (line 218) and of a variable or parameter (line
558), of the return type of a function (line 290), of the nominated namespace
of a using-directive (line 702), of the shadows of a using-declaration (lines
716-717) and of the target of a shadow (line 727).  For a template these are
the visits of the template parameters and of the templated declaration (lines
861 and 871), made in the nested buffer of line 859, which is left at the end
of the scope when the test of line 873 finds the signal set.  The result is
`none` for the other kinds. -/
def VisitDependencies (E : Env) (V : DeclVisit) (Did : DeclId) (s : ForwardDeclPrinter) :
    Option ForwardDeclPrinter :=
  match (E.decl Did).kind with
  | .Typedef q => VisitQualType V q s
  | .Var VD =>
    VisitQualType V (match VD.getTypeSourceInfoType with
      | some t => t
      | none => E.getUnqualifiedObjCPointerType VD.getType) s
  | .ParmVar VD =>
    VisitQualType V (match VD.getTypeSourceInfoType with
      | some t => t
      | none => E.getUnqualifiedObjCPointerType VD.getType) s
  | .Function F => VisitQualType V F.getReturnType s
  | .UsingDirective U => V U.getNominatedNamespace s
  | .Using shadows => VisitEach V shadows s
  | .UsingShadow target => V target s
  | k =>
    match asRedeclarableTemplateDecl k with
    | some T =>
      let R := (VisitRedeclarableTemplateDecl_redecls E T.redecls (Did, T)).2
      ((PrintTemplateParameters E V R.getTemplateParameters none s.StreamRAII_push).bind
        fun s1 => V R.getTemplatedDecl s1).map fun s2 => s2.StreamRAII_exit false s.m_Policy
    | none => none

/-- The test of line 856 on a redeclaration: its parameter list has more
parameters than required arguments, that is at least one defaulted parameter. -/
def hasDefaultedParameter (R : RedeclarableTemplateDecl) : Bool :=
  R.getTemplateParameters.getMinRequiredArguments < R.getTemplateParameters.params.length

/-- The number of defaulted parameters of a redeclaration: the size of its
parameter list minus its minimum number of required arguments. -/
def defaultedParameters (R : RedeclarableTemplateDecl) : Nat :=
  R.getTemplateParameters.params.length - R.getTemplateParameters.getMinRequiredArguments

/-- The redeclarations of the chain `l` that have a defaulted parameter, in the
order of the chain. -/
def redeclsWithDefault (E : Env) (l : List DeclId) :
    List (DeclId × RedeclarableTemplateDecl) :=
  l.filterMap fun RD =>
    match asRedeclarableTemplateDecl (E.decl RD).kind with
    | some R => if hasDefaultedParameter R then some (RD, R) else none
    | none => none

/-- The name by which the log line of a policy skip states the declaration:
`getName()` for a variable (line 1129), the printed name for the other kinds
(lines 1138, 1162, 1169 and `shouldSkip_logged`). -/
def loggedName (D : Decl) : String :=
  match D.kind with
  | .Var _ => D.getName
  | .ParmVar _ => D.getName
  | _ => D.getNameAsString

/-- The reason that follows the name in the log line of a policy skip: the text
of the predicate of the kind (lines 1129, 1139, 1162 and 1170), and the text
of `shouldSkip_logged` for the kinds whose predicate writes no line. -/
def skipReason : DeclKind → String
  | .Var _ => " Var : Static\n"
  | .ParmVar _ => " Var : Static\n"
  | .Enum _ => "Enum: Empty name\n"
  | .UsingDirective _ => " Using Directive : Incompatible Type\n"
  | .TypeAliasTemplate => " TypeAliasTemplateDecl: Always Skipped\n"
  | _ => " : Ineligible by policy\n"

/-- A step that leaves every entry that the Visit State Table holds as it is. -/
def Keeps (s s' : ForwardDeclPrinter) : Prop :=
  ∀ k b, s.m_Visited.find k = some b → s'.m_Visited.find k = some b

/-- Whether the declaration is a namespace, the one kind whose render routine
clears the skip signal (line 686). -/
def isNamespace : DeclKind → Bool
  | .Namespace _ => true
  | _ => false

/-- A step that extends the dispatch trace and that, when it has dispatched to
no namespace routine, keeps a skip signal that was set. -/
def Sticky (E : Env) (s s' : ForwardDeclPrinter) : Prop :=
  ∃ l, s'.traceDispatch = s.traceDispatch ++ l ∧
    ((∀ d ∈ l, isNamespace (E.decl d).kind = false) →
      s.m_SkipFlag = true → s'.m_SkipFlag = true)

/-- The outcome of a method for the relation `Sticky`. -/
def StickyPost (E : Env) (s : ForwardDeclPrinter) (x : Option ForwardDeclPrinter) : Prop :=
  Post True (fun _ => True) (Sticky E) s x

/-- The skip signal after each visit of the loop `for (auto it : decls)
Visit(it);`, in order. -/
def VisitEach_flags (V : DeclVisit) : List DeclId → ForwardDeclPrinter → List Bool
  | [], _ => []
  | D :: rest, s =>
    match V D s with
    | none => []
    | some s1 => s1.m_SkipFlag :: VisitEach_flags V rest s1

end ForwardDeclPrinter

end cling

namespace cling

namespace ForwardDeclPrinter

/-! ## Concrete translation units -/

/-- Two typedefs that name each other: `A` is a pointer to `B` and `B` a
pointer to `A`. -/
def cyclicUnit : Env :=
  { decls :=
      [ { kind := .Typedef { ty := .Sugar .Pointer (.Typedef 1) }, getCanonicalDecl := 0,
          getIdentifier := some "A", getNameAsString := "A", includeText := "a.h" },
        { kind := .Typedef { ty := .Sugar .Pointer (.Typedef 0) }, getCanonicalDecl := 1,
          getIdentifier := some "B", getNameAsString := "B", includeText := "a.h" } ]
    printQualType := fun _ _ n => "T *" ++ n }

/-- The transaction that delivers `A` and `B` in one top-level group. -/
def cyclicTransaction : Transaction :=
  { decls := [{ m_DGR := some [0, 1] }] }

/-- A transaction whose first entry is a null group; the typedef `A` of
`cyclicUnit` follows in a top-level group. -/
def nullGroupTransaction : Transaction :=
  { decls := [{ m_DGR := none }, { m_DGR := some [0] }] }

/-- A transaction whose first entry is a null group; the typedefs `A` and `B`
of `cyclicUnit` follow in one top-level group. -/
def cycleBehindNullGroup : Transaction :=
  { decls := [{ m_DGR := none }, { m_DGR := some [0, 1] }] }

/-- The unit of `static int hidden();`. -/
def hiddenUnit : Env :=
  { decls :=
      [ { kind := .Function { getStorageClass := .SC_Static, getNameInfo := "hidden" },
          getCanonicalDecl := 0, getIdentifier := some "hidden", getNameAsString := "hidden",
          includeText := "a.h" } ]
    printQualType := fun _ _ n => "int " ++ n }

/-- The transaction that delivers `hidden` twice. -/
def hiddenTwice : Transaction :=
  { decls := [{ m_DGR := some [0] }, { m_DGR := some [0] }] }

/-- The definition `#define EMPTY`: object-like, without a replacement token. -/
def emptyMacro : MacroDirectiveInfo :=
  { m_II := "EMPTY", getKind := .MD_Define, getMacroInfo := { tokens := [] } }

/-- The definition `#define ONE 1`: object-like, one replacement token. -/
def oneTokenMacro : MacroDirectiveInfo :=
  { m_II := "ONE", getKind := .MD_Define,
    getMacroInfo := { tokens := [{ getName := "numeric_constant" }] } }

/-- The definition `#define SUM a + b`: three replacement tokens. -/
def threeTokenMacro : MacroDirectiveInfo :=
  { m_II := "SUM", getKind := .MD_Define,
    getMacroInfo := { tokens := [{ getName := "identifier" }, { getName := "plus" },
      { getName := "identifier" }] } }

/-- The definition `#define ID(x) x`: function-like, one replacement token. -/
def identityMacro : MacroDirectiveInfo :=
  { m_II := "ID", getKind := .MD_Define,
    getMacroInfo := { tokens := [{ getName := "identifier" }], isFunctionLike := true } }

/-- The function `f` of `void f(int a, int b);`. -/
def twoParamFunction : FunctionDecl :=
  { getNameInfo := "f", hasWrittenPrototype := true, params := [1, 2] }

/-- The unit of `void f(int a, int b);`: the function and its two parameters. -/
def twoParamUnit : Env :=
  { decls :=
      [ { kind := .Function twoParamFunction, getCanonicalDecl := 0,
          getIdentifier := some "f", getNameAsString := "f", includeText := "a.h" },
        { kind := .ParmVar { isDefinedOutsideFunctionOrMethod := false },
          getCanonicalDecl := 1, isInTranslationUnit := false,
          getIdentifier := some "a", getNameAsString := "a" },
        { kind := .ParmVar { isDefinedOutsideFunctionOrMethod := false },
          getCanonicalDecl := 2, isInTranslationUnit := false,
          getIdentifier := some "b", getNameAsString := "b" } ]
    printQualType := fun _ _ n => "int " ++ n }

/-- The namespace `N` of `namespace N { static int hidden(); }`. -/
def hiddenNamespace : NamespaceDecl :=
  { decls := [0], representative := 1 }

/-- The unit of `namespace N { static int hidden(); }`. -/
def namespaceUnit : Env :=
  { decls :=
      [ { kind := .Function { getStorageClass := .SC_Static, getNameInfo := "hidden" },
          getCanonicalDecl := 0, isInTranslationUnit := false,
          getIdentifier := some "hidden", getNameAsString := "hidden" },
        { kind := .Namespace hiddenNamespace, getCanonicalDecl := 1,
          getIdentifier := some "N", getNameAsString := "N" } ]
    printQualType := fun _ _ n => "int " ++ n }

/-- The unit of `extern "C" int _hidden();`: a function whose name begins with
an underscore, in a linkage specification without braces. -/
def linkageUnit : Env :=
  { decls :=
      [ { kind := .Function { getNameInfo := "_hidden" },
          getCanonicalDecl := 0, isInTranslationUnit := false,
          getIdentifier := some "_hidden", getNameAsString := "_hidden" },
        { kind := .LinkageSpec { isLangC := true, hasBraces := false, decls := [0] },
          getCanonicalDecl := 1 } ]
    printQualType := fun _ _ n => "int " ++ n }

/-- The unit of an unnamed record, `using A = ` that record and
`typedef ` that record ` B;`. -/
def aliasUnit : Env :=
  { decls :=
      [ { kind := .Record "struct", getCanonicalDecl := 0, getIdentifier := none },
        { kind := .TypeAlias { ty := .Record 0 }, getCanonicalDecl := 1,
          getIdentifier := some "A", getNameAsString := "A", includeText := "a.h" },
        { kind := .Typedef { ty := .Record 0 }, getCanonicalDecl := 2,
          getIdentifier := some "B", getNameAsString := "B", includeText := "a.h" } ]
    printQualType := fun _ _ n => "struct (unnamed) " ++ n }

/-- The unit of `int operatorCount();`: an ordinary function whose identifier
begins with `operator`. -/
def operatorCountUnit : Env :=
  { decls :=
      [ { kind := .Function { getNameInfo := "operatorCount" }, getCanonicalDecl := 0,
          getIdentifier := some "operatorCount", getNameAsString := "operatorCount",
          includeText := "a.h" } ]
    printQualType := fun _ _ n => "int " ++ n }

/-- The enumeration of `enum Color { Red, Green };`: unscoped, without a fixed
underlying type; its integer type is `unsigned int`. -/
def colorEnum : EnumDecl :=
  { isFixed := false, isScoped := false,
    getIntegerType := { ty := .Builtin "unsigned int" }, enumerators := ["Red", "Green"] }

/-- The unit of `enum Color { Red, Green };`. -/
def colorUnit : Env :=
  { decls :=
      [ { kind := .Enum colorEnum, getCanonicalDecl := 0,
          getIdentifier := some "Color", getNameAsString := "Color", includeText := "a.h" } ]
    printQualType := fun _ _ n => "unsigned int" ++ n }

/-- The unit of `typedef int MyInt;` followed by a parameter `int p` that the
front end has attached to the top level: its context is a function, not the
translation unit. -/
def strayUnit : Env :=
  { decls :=
      [ { kind := .Typedef { ty := .Builtin "int" }, getCanonicalDecl := 0,
          getIdentifier := some "MyInt", getNameAsString := "MyInt", includeText := "a.h" },
        { kind := .ParmVar { isDefinedOutsideFunctionOrMethod := false },
          getCanonicalDecl := 1, isInTranslationUnit := false,
          getIdentifier := some "p", getNameAsString := "p", includeText := "a.h" } ]
    printQualType := fun _ _ n => "int " ++ n }

/-- The first declaration `template <class A, class B> class X;`; its chain of
redeclarations, as `redecls()` walks it from here, is this declaration, the
latest one and then the one before the latest. -/
def boxFirst : RedeclarableTemplateDecl :=
  { redecls := [0, 2, 1]
    getTemplateParameters :=
      { params := [.TemplateTypeParm false false "A" none, .TemplateTypeParm false false "B" none]
        getMinRequiredArguments := 2 }
    getTemplatedDecl := 3 }

/-- The redeclaration `template <class A, class B = int> class X;`. -/
def boxSecond : RedeclarableTemplateDecl :=
  { redecls := [1, 0, 2]
    getTemplateParameters :=
      { params := [.TemplateTypeParm false false "A" none,
          .TemplateTypeParm false false "B" (some { ty := .Builtin "int" })]
        getMinRequiredArguments := 1 }
    getTemplatedDecl := 3 }

/-- The redeclaration `template <class A = char, class B> class X;`, in which
`B` inherits its default argument. -/
def boxThird : RedeclarableTemplateDecl :=
  { redecls := [2, 1, 0]
    getTemplateParameters :=
      { params := [.TemplateTypeParm false false "A" (some { ty := .Builtin "char" }),
          .TemplateTypeParm false false "B" (some { ty := .Builtin "int" })]
        getMinRequiredArguments := 0 }
    getTemplatedDecl := 3 }

/-- The unit of the three declarations of the class template `X`. -/
def boxUnit : Env :=
  { decls :=
      [ { kind := .ClassTemplate boxFirst, getCanonicalDecl := 0,
          getIdentifier := some "X", getNameAsString := "X", includeText := "a.h" },
        { kind := .ClassTemplate boxSecond, getCanonicalDecl := 0,
          getIdentifier := some "X", getNameAsString := "X", includeText := "a.h" },
        { kind := .ClassTemplate boxThird, getCanonicalDecl := 0,
          getIdentifier := some "X", getNameAsString := "X", includeText := "a.h" },
        { kind := .Record "class", getCanonicalDecl := 3, isInTranslationUnit := false,
          getIdentifier := some "X", getNameAsString := "X", includeText := "a.h" } ]
    printQualType := fun _ q _ =>
      match q.ty with
      | .Builtin name => name
      | _ => "" }

/-- The function template `g` of `template <class T> Hidden g();`. -/
def hiddenResultTemplate : RedeclarableTemplateDecl :=
  { redecls := [3]
    getTemplateParameters :=
      { params := [.TemplateTypeParm false false "T" none], getMinRequiredArguments := 1 }
    getTemplatedDecl := 2 }

/-- The unit of an unnamed record, `typedef ` that record ` Hidden;` and
`template <class T> Hidden g();`. -/
def hiddenResultUnit : Env :=
  { decls :=
      [ { kind := .Record "struct", getCanonicalDecl := 0, getIdentifier := none },
        { kind := .Typedef { ty := .Record 0 }, getCanonicalDecl := 1,
          getIdentifier := some "Hidden", getNameAsString := "Hidden", includeText := "a.h" },
        { kind := .Function { getNameInfo := "g", getReturnType := { ty := .Typedef 1 } },
          getCanonicalDecl := 2, isInTranslationUnit := false,
          getIdentifier := some "g", getNameAsString := "g", includeText := "a.h" },
        { kind := .FunctionTemplate hiddenResultTemplate, getCanonicalDecl := 3,
          getIdentifier := some "g", getNameAsString := "g", includeText := "a.h" } ]
    printQualType := fun _ _ n => "Hidden " ++ n }

/-- The unit of `static int counter;`. -/
def staticVarUnit : Env :=
  { decls :=
      [ { kind := .Var { getStorageClass := .SC_Static }, getCanonicalDecl := 0,
          getIdentifier := some "counter", getNameAsString := "counter",
          includeText := "a.h" } ]
    printQualType := fun _ _ n => "int " ++ n }

/-- The second declaration `namespace N { static int hidden(); }` of a
namespace `N`; its key is the first declaration. -/
def reopenedNamespace : NamespaceDecl :=
  { decls := [2], representative := 0 }

/-- The unit of `namespace N { }`, then `namespace N { static int hidden(); }`
and `using namespace N;`. -/
def reopenedUnit : Env :=
  { decls :=
      [ { kind := .Namespace { decls := [], representative := 0 }, getCanonicalDecl := 0,
          getIdentifier := some "N", getNameAsString := "N" },
        { kind := .Namespace reopenedNamespace, getCanonicalDecl := 0,
          getIdentifier := some "N", getNameAsString := "N" },
        { kind := .Function { getStorageClass := .SC_Static, getNameInfo := "hidden" },
          getCanonicalDecl := 2, isInTranslationUnit := false,
          getIdentifier := some "hidden", getNameAsString := "hidden" },
        { kind := .UsingDirective
            { getNominatedNamespace := 1, getNominatedNamespaceAsWritten := "N" },
          getCanonicalDecl := 3 } ]
    printQualType := fun _ _ n => "int " ++ n }

/-- The unit of `extern "C" { int _hidden(); int visible(); }`. -/
def bracedUnit : Env :=
  { decls :=
      [ { kind := .Function { getNameInfo := "_hidden" },
          getCanonicalDecl := 0, isInTranslationUnit := false,
          getIdentifier := some "_hidden", getNameAsString := "_hidden", includeText := "a.h" },
        { kind := .Function { getNameInfo := "visible" },
          getCanonicalDecl := 1, isInTranslationUnit := false,
          getIdentifier := some "visible", getNameAsString := "visible", includeText := "a.h" },
        { kind := .LinkageSpec { isLangC := true, hasBraces := true, decls := [0, 1] },
          getCanonicalDecl := 2 } ]
    printQualType := fun _ _ n => "int " ++ n }

/-- The unit of `namespace A { static void f(); struct f; }` and `using A::f;`:
the using-declaration has one shadow for the function and one for the record. -/
def plainUsingUnit : Env :=
  { decls :=
      [ { kind := .Function { getStorageClass := .SC_Static, getNameInfo := "f" },
          getCanonicalDecl := 0, isInTranslationUnit := false,
          getIdentifier := some "f", getNameAsString := "f", includeText := "a.h" },
        { kind := .Record "struct", getCanonicalDecl := 1, isInTranslationUnit := false,
          getIdentifier := some "f", getNameAsString := "f", includeText := "a.h" },
        { kind := .UsingShadow 0, getCanonicalDecl := 2 },
        { kind := .UsingShadow 1, getCanonicalDecl := 3 },
        { kind := .Using [2, 3], getCanonicalDecl := 4,
          getIdentifier := some "f", getNameAsString := "f" } ]
    printQualType := fun _ _ n => "void " ++ n
    printDecl := fun _ _ => "using A::f" }

/-- The result type `typename N::Tr<T>::type` of the function template `f`
below: a dependent name whose qualifier is the type `Tr<T>` with the
namespace `N` as its prefix. -/
def dependentResult : QualType :=
  { ty := .DependentName
      (.TypeSpec (.some (.Namespace .none 1))
        (.TemplateSpecialization (.cons (.Type (.TemplateTypeParm 8)) .nil) (.Template 4))) }

/-- The unit of
`namespace A { static void f(); }`,
`namespace N { int dummy; }`, `namespace N { template <class T> struct Tr; }`,
`namespace A { template <class T> typename N::Tr<T>::type f(); }` and
`using A::f;`. -/
def dependentUsingUnit : Env :=
  { decls :=
      [ { kind := .Function { getStorageClass := .SC_Static, getNameInfo := "f" },
          getCanonicalDecl := 0, isInTranslationUnit := false,
          getIdentifier := some "f", getNameAsString := "f", includeText := "a.h" },
        { kind := .Namespace { decls := [2], representative := 1 }, getCanonicalDecl := 1,
          getIdentifier := some "N", getNameAsString := "N" },
        { kind := .Var {}, getCanonicalDecl := 2, isInTranslationUnit := false,
          getIdentifier := some "dummy", getNameAsString := "dummy", includeText := "a.h" },
        { kind := .Namespace { decls := [4], representative := 1 }, getCanonicalDecl := 1,
          getIdentifier := some "N", getNameAsString := "N" },
        { kind := .ClassTemplate
            { redecls := [4]
              getTemplateParameters :=
                { params := [.TemplateTypeParm false false "T" none],
                  getMinRequiredArguments := 1 }
              getTemplatedDecl := 5 },
          getCanonicalDecl := 4, isInTranslationUnit := false,
          getIdentifier := some "Tr", getNameAsString := "Tr", includeText := "a.h" },
        { kind := .Record "struct", getCanonicalDecl := 5, isInTranslationUnit := false,
          getIdentifier := some "Tr", getNameAsString := "Tr", includeText := "a.h" },
        { kind := .Function { getNameInfo := "f", getReturnType := dependentResult },
          getCanonicalDecl := 6, isInTranslationUnit := false,
          getIdentifier := some "f", getNameAsString := "f", includeText := "a.h" },
        { kind := .FunctionTemplate
            { redecls := [7]
              getTemplateParameters :=
                { params := [.TemplateTypeParm false false "T" none],
                  getMinRequiredArguments := 1 }
              getTemplatedDecl := 6 },
          getCanonicalDecl := 7, isInTranslationUnit := false,
          getIdentifier := some "f", getNameAsString := "f", includeText := "a.h" },
        { kind := .Other, getCanonicalDecl := 8, isInTranslationUnit := false,
          getIdentifier := some "T", getNameAsString := "T" },
        { kind := .UsingShadow 0, getCanonicalDecl := 9 },
        { kind := .UsingShadow 7, getCanonicalDecl := 10 },
        { kind := .Using [9, 10], getCanonicalDecl := 11,
          getIdentifier := some "f", getNameAsString := "f" } ]
    printQualType := fun _ _ n => "typename N::Tr<T>::type " ++ n
    printDecl := fun _ _ => "using A::f" }

/-- The unit of `namespace A { struct f; }` and `using A::f;`: the
using-declaration has one shadow, for the record. -/
def recordUsingUnit : Env :=
  { decls :=
      [ { kind := .Record "struct", getCanonicalDecl := 0, isInTranslationUnit := false,
          getIdentifier := some "f", getNameAsString := "f", includeText := "a.h" },
        { kind := .UsingShadow 0, getCanonicalDecl := 1 },
        { kind := .Using [1], getCanonicalDecl := 2,
          getIdentifier := some "f", getNameAsString := "f" } ]
    printQualType := fun _ _ n => "struct f " ++ n
    printDecl := fun _ _ => "using A::f" }

end ForwardDeclPrinter

end cling

namespace cling

namespace ForwardDeclPrinter

/-! ## The methods carry every framed relation -/

section framework

variable {N : Prop} {A : ForwardDeclPrinter → Prop}
  {R : ForwardDeclPrinter → ForwardDeclPrinter → Prop}

@[simp] theorem core_Out (s : ForwardDeclPrinter) (t : String) : core (s.Out t) = core s := rfl

@[simp] theorem core_Log (s : ForwardDeclPrinter) (t : String) : core (s.Log t) = core s := rfl

@[simp] theorem core_skipCurrentDecl (s : ForwardDeclPrinter) (b : Bool) :
    core (s.skipCurrentDecl b) = core s := rfl

@[simp] theorem core_skipCurrentDecl_default (s : ForwardDeclPrinter) :
    core s.skipCurrentDecl_default = core s := rfl

@[simp] theorem core_set_policy (s : ForwardDeclPrinter) (p : PrintingPolicy) :
    core { s with m_Policy := p } = core s := rfl

@[simp] theorem core_set_indentation (s : ForwardDeclPrinter) (n : Nat) :
    core { s with m_Indentation := n } = core s := rfl

@[simp] theorem core_ite (c : Prop) [Decidable c] (a b : ForwardDeclPrinter) :
    core (if c then a else b) = if c then core a else core b := by
  split <;> rfl

@[simp] theorem core_Indent (s : ForwardDeclPrinter) (n : Nat) : core (s.Indent n) = core s := rfl

@[simp] theorem core_printDeclType (E : Env) (s : ForwardDeclPrinter) (T : QualType)
    (n : String) (b : Bool) : core (printDeclType E s T n b) = core s := rfl

@[simp] theorem core_prettyPrintAttributes (s : ForwardDeclPrinter) (D : Decl) (x : String) :
    core (s.prettyPrintAttributes D x) = core s := rfl

theorem Post_of_core (hF : Frame A R) {s s' : ForwardDeclPrinter} (hA : A s)
    (h : core s' = core s) : Post N A R s (some s') :=
  ⟨hF.core h, hF.pres hA (hF.core h)⟩

theorem Post_bind (hF : Frame A R) {s : ForwardDeclPrinter} {x : Option ForwardDeclPrinter}
    {g : ForwardDeclPrinter → Option ForwardDeclPrinter} (hx : Post N A R s x)
    (hg : ∀ s1, A s1 → Post N A R s1 (g s1)) : Post N A R s (x.bind g) := by
  cases x with
  | none => exact hx
  | some s1 =>
    have h1 := hg s1 hx.2
    simp only [Option.bind]
    cases hg1 : g s1 with
    | none => rw [hg1] at h1; exact h1
    | some s2 => rw [hg1] at h1; exact ⟨hF.trans hx.1 h1.1, h1.2⟩

theorem Post_trans_left (hF : Frame A R) {s s1 : ForwardDeclPrinter}
    {x : Option ForwardDeclPrinter} (h : R s s1) (hx : Post N A R s1 x) : Post N A R s x := by
  cases x with
  | none => exact hx
  | some s2 => exact ⟨hF.trans h hx.1, hx.2⟩

theorem Post_map_core (hF : Frame A R) {s : ForwardDeclPrinter} {x : Option ForwardDeclPrinter}
    {g : ForwardDeclPrinter → ForwardDeclPrinter} (hx : Post N A R s x)
    (hg : ∀ s1, core (g s1) = core s1) : Post N A R s (x.bind fun s1 => some (g s1)) :=
  Post_bind hF hx fun s1 h1 => Post_of_core hF h1 (hg s1)

theorem Frame_toLogFrame (hF : Frame A R) : LogFrame A R :=
  ⟨hF.refl, fun h1 h2 => hF.trans h1 h2, fun hA h => hF.pres hA h, fun _ _ => hF.core rfl⟩

/-- A method that does nothing. -/
theorem Post_same (hF : LogFrame A R) {s : ForwardDeclPrinter} (hA : A s) :
    Post N A R s (some s) :=
  ⟨hF.refl _, hA⟩

/-- A method that writes a line to the log. -/
theorem Post_logged (hF : LogFrame A R) {s : ForwardDeclPrinter} (hA : A s) (t : String) :
    Post N A R s (some (s.Log t)) :=
  ⟨hF.log _ t, hF.pres hA (hF.log _ t)⟩

theorem Post_bind_log (hF : LogFrame A R) {s : ForwardDeclPrinter}
    {x : Option ForwardDeclPrinter}
    {g : ForwardDeclPrinter → Option ForwardDeclPrinter} (hx : Post N A R s x)
    (hg : ∀ s1, A s1 → Post N A R s1 (g s1)) : Post N A R s (x.bind g) := by
  cases x with
  | none => exact hx
  | some s1 =>
    have h1 := hg s1 hx.2
    simp only [Option.bind]
    cases hg1 : g s1 with
    | none => rw [hg1] at h1; exact h1
    | some s2 => rw [hg1] at h1; exact ⟨hF.trans hx.1 h1.1, h1.2⟩

mutual
theorem VisitType_post (hF : LogFrame A R) {V : DeclVisit} (hV : ∀ d, Triple N A R (V d)) :
    ∀ (t : Ty) (s : ForwardDeclPrinter), A s → Post N A R s (VisitType V t s)
  | .Sugar _ inner, s, hA => by
    rw [VisitType]; exact VisitType_post hF hV inner s hA
  | .DependentName q, s, hA => by
    rw [VisitType]; exact VisitNestedNameSpecifier_post hF hV q s hA
  | .MemberPointer pointee cls, s, hA => by
    rw [VisitType]
    exact Post_bind_log hF (VisitType_post hF hV pointee s hA)
      fun s1 h1 => VisitType_post hF hV cls s1 h1
  | .Enum d, s, hA => by rw [VisitType]; exact hV d s hA
  | .Record d, s, hA => by rw [VisitType]; exact hV d s hA
  | .TemplateSpecialization args name, s, hA => by
    rw [VisitType]
    exact Post_bind_log hF (VisitTemplateArguments_post hF hV args s hA)
      fun s1 h1 => VisitTemplateName_post hF hV name s1 h1
  | .Typedef d, s, hA => by rw [VisitType]; exact hV d s hA
  | .TemplateTypeParm d, s, hA => by rw [VisitType]; exact hV d s hA
  | .Builtin _, s, hA => by rw [VisitType]; exact Post_same hF hA
  | .TypeOfExpr, s, hA => by rw [VisitType]; exact Post_same hF hA
  | .Other _, s, hA => by rw [VisitType]; exact Post_logged hF hA _
theorem VisitTemplateArgument_post (hF : LogFrame A R) {V : DeclVisit}
    (hV : ∀ d, Triple N A R (V d)) :
    ∀ (a : TemplateArgument) (s : ForwardDeclPrinter), A s →
      Post N A R s (VisitTemplateArgument V a s)
  | .Type t, s, hA => by rw [VisitTemplateArgument]; exact VisitType_post hF hV t s hA
  | .Declaration d, s, hA => by rw [VisitTemplateArgument]; exact hV d s hA
  | .Template n, s, hA => by
    rw [VisitTemplateArgument]; exact VisitTemplateName_post hF hV n s hA
  | .Pack n, s, hA => by
    rw [VisitTemplateArgument]; exact VisitTemplateName_post hF hV n s hA
  | .ExpressionDeclRef d, s, hA => by rw [VisitTemplateArgument]; exact hV d s hA
  | .Expression, s, hA => by rw [VisitTemplateArgument]; exact Post_same hF hA
  | .Other _, s, hA => by rw [VisitTemplateArgument]; exact Post_logged hF hA _
theorem VisitTemplateArguments_post (hF : LogFrame A R) {V : DeclVisit}
    (hV : ∀ d, Triple N A R (V d)) :
    ∀ (l : TemplateArguments) (s : ForwardDeclPrinter), A s →
      Post N A R s (VisitTemplateArguments V l s)
  | .nil, s, hA => by rw [VisitTemplateArguments]; exact Post_same hF hA
  | .cons a rest, s, hA => by
    rw [VisitTemplateArguments]
    exact Post_bind_log hF (VisitTemplateArgument_post hF hV a s hA)
      fun s1 h1 => VisitTemplateArguments_post hF hV rest s1 h1
theorem VisitTemplateName_post (hF : LogFrame A R) {V : DeclVisit}
    (hV : ∀ d, Triple N A R (V d)) :
    ∀ (n : TemplateName) (s : ForwardDeclPrinter), A s →
      Post N A R s (VisitTemplateName V n s)
  | .Template d, s, hA => by rw [VisitTemplateName]; exact hV d s hA
  | .QualifiedTemplate d, s, hA => by rw [VisitTemplateName]; exact hV d s hA
  | .DependentTemplate q, s, hA => by
    rw [VisitTemplateName]; exact VisitNestedNameSpecifier_post hF hV q s hA
  | .SubstTemplateTemplateParm r, s, hA => by
    rw [VisitTemplateName]; exact VisitTemplateName_post hF hV r s hA
  | .SubstTemplateTemplateParmPack a, s, hA => by
    rw [VisitTemplateName]; exact VisitTemplateArgument_post hF hV a s hA
  | .Other _, s, hA => by rw [VisitTemplateName]; exact Post_logged hF hA _
theorem VisitNestedNameSpecifier_post (hF : LogFrame A R) {V : DeclVisit}
    (hV : ∀ d, Triple N A R (V d)) :
    ∀ (q : NestedNameSpecifier) (s : ForwardDeclPrinter), A s →
      Post N A R s (VisitNestedNameSpecifier V q s)
  | .Namespace pre d, s, hA => by
    rw [VisitNestedNameSpecifier]
    exact Post_bind_log hF (VisitNestedNameSpecifierOpt_post hF hV pre s hA)
      fun s1 h1 => hV d s1 h1
  | .TypeSpec pre t, s, hA => by
    rw [VisitNestedNameSpecifier]
    exact Post_bind_log hF (VisitNestedNameSpecifierOpt_post hF hV pre s hA)
      fun s1 h1 => VisitType_post hF hV t s1 h1
  | .TypeSpecWithTemplate pre t, s, hA => by
    rw [VisitNestedNameSpecifier]
    exact Post_bind_log hF (VisitNestedNameSpecifierOpt_post hF hV pre s hA)
      fun s1 h1 => VisitType_post hF hV t s1 h1
  | .Other pre _, s, hA => by
    rw [VisitNestedNameSpecifier]
    exact Post_bind_log hF (VisitNestedNameSpecifierOpt_post hF hV pre s hA)
      fun s1 h1 => Post_logged hF h1 _
theorem VisitNestedNameSpecifierOpt_post (hF : LogFrame A R) {V : DeclVisit}
    (hV : ∀ d, Triple N A R (V d)) :
    ∀ (q : NestedNameSpecifierOpt) (s : ForwardDeclPrinter), A s →
      Post N A R s (VisitNestedNameSpecifierOpt V q s)
  | .none, s, hA => by rw [VisitNestedNameSpecifierOpt]; exact Post_same hF hA
  | .some q, s, hA => by
    rw [VisitNestedNameSpecifierOpt]; exact VisitNestedNameSpecifier_post hF hV q s hA
end

@[simp] theorem core_exit_true (s : ForwardDeclPrinter) (p : PrintingPolicy) :
    core (s.StreamRAII_exit true p) = core s := rfl

@[simp] theorem core_exit_false (s : ForwardDeclPrinter) (p : PrintingPolicy) :
    core (s.StreamRAII_exit false p) = core s.popStream := rfl

@[simp] theorem take_true_snd (s : ForwardDeclPrinter) :
    (s.StreamRAII_take true).2 = s.popStream := rfl

@[simp] theorem take_false_snd (s : ForwardDeclPrinter) :
    (s.StreamRAII_take false).2 = s := rfl

theorem Post_bind_from {b s : ForwardDeclPrinter} {x : Option ForwardDeclPrinter}
    {g : ForwardDeclPrinter → Option ForwardDeclPrinter} (hx : Post N A R b x)
    (hg : ∀ s1, R b s1 → A s1 → Post N A R s (g s1)) : Post N A R s (x.bind g) := by
  cases x with
  | none => exact hx
  | some s1 => exact hg s1 hx.1 hx.2

theorem Post_exit (hF : Frame A R) {s s1 s2 : ForwardDeclPrinter}
    (pol : Option PrintingPolicy) (h : R (s.StreamRAII_push pol) s1) (hA1 : A s1)
    (hc : core s2 = core s1.popStream) : Post N A R s (some s2) :=
  ⟨hF.trans (hF.push_pop pol h) (hF.core hc), hF.pres (hF.pop_A hA1) (hF.core hc)⟩

theorem Post_start (hF : Frame A R) {s t : ForwardDeclPrinter} (hA : A s)
    (hc : core t = core s) : R s t ∧ A t :=
  ⟨hF.core hc, hF.pres hA (hF.core hc)⟩

theorem VisitQualType_post (hF : Frame A R) {V : DeclVisit} (hV : ∀ d, Triple N A R (V d))
    (q : QualType) (s : ForwardDeclPrinter) (hA : A s) :
    Post N A R s (VisitQualType V q s) :=
  VisitType_post (Frame_toLogFrame hF) hV q.ty s hA

theorem VisitEach_post (hF : Frame A R) {V : DeclVisit} (hV : ∀ d, Triple N A R (V d))
    (l : List DeclId) (s : ForwardDeclPrinter) (hA : A s) :
    Post N A R s (VisitEach V l s) := by
  induction l generalizing s with
  | nil => exact Post_of_core hF hA rfl
  | cons d l ih =>
    rw [VisitEach]
    exact Post_bind hF (hV d s hA) fun s1 h1 => ih s1 h1

theorem VisitTypedefDecl_post (hF : Frame A R) (E : Env) {V : DeclVisit}
    (hV : ∀ d, Triple N A R (V d)) (D : Decl) (q : QualType) (s : ForwardDeclPrinter)
    (hA : A s) : Post N A R s (VisitTypedefDecl E V D q s) := by
  unfold VisitTypedefDecl
  refine Post_bind hF (VisitQualType_post hF hV q s hA) fun s1 h1 => ?_
  by_cases hflag : s1.m_SkipFlag = true
  · rw [if_pos hflag]; exact Post_of_core hF h1 rfl
  · rw [if_neg hflag]; exact Post_of_core hF h1 rfl

theorem VisitVarDecl_post (hF : Frame A R) (E : Env) {V : DeclVisit}
    (hV : ∀ d, Triple N A R (V d)) (D : Decl) (VD : VarDecl) (s : ForwardDeclPrinter)
    (hA : A s) : Post N A R s (VisitVarDecl E V D VD s) := by
  unfold VisitVarDecl
  refine Post_bind hF (VisitQualType_post hF hV _ s hA) fun s1 h1 => ?_
  by_cases hflag : s1.m_SkipFlag = true
  · rw [if_pos hflag]; exact Post_of_core hF h1 rfl
  · rw [if_neg hflag]; exact Post_of_core hF h1 rfl

theorem Post_bind_pair {β : Type} (hF : Frame A R) {s : ForwardDeclPrinter}
    {x : Option ForwardDeclPrinter} {g : ForwardDeclPrinter → Option (β × ForwardDeclPrinter)}
    (hx : Post N A R s x)
    (hg : ∀ s1, A s1 → Post N A R s1 ((g s1).bind fun r => some r.2)) :
    Post N A R s ((x.bind g).bind fun r => some r.2) := by
  cases x with
  | none => exact hx
  | some s1 => exact Post_trans_left hF hx.1 (hg s1 hx.2)

theorem Post_bind_from_pair {β : Type} {b s : ForwardDeclPrinter}
    {x : Option (β × ForwardDeclPrinter)} {g : β × ForwardDeclPrinter → Option ForwardDeclPrinter}
    (hx : Post N A R b (x.bind fun r => some r.2))
    (hg : ∀ r : β × ForwardDeclPrinter, R b r.2 → A r.2 → Post N A R s (g r)) :
    Post N A R s (x.bind g) := by
  cases x with
  | none => exact hx
  | some r => exact hg r hx.1 hx.2

theorem VisitFunctionDecl_params_post (hF : Frame A R) {V : DeclVisit}
    (hV : ∀ d, Triple N A R (V d)) (i : Nat) (l : List DeclId) (s : ForwardDeclPrinter)
    (hA : A s) :
    Post N A R s ((VisitFunctionDecl_params V i l s).bind fun r => some r.2) := by
  cases l with
  | nil => exact Post_of_core hF hA rfl
  | cons P rest =>
    unfold VisitFunctionDecl_params
    have h0 := Post_start hF hA (core_Out s (if i ≠ 0 then ", " else ""))
    refine Post_trans_left hF h0.1 (Post_bind_pair hF (hV P _ h0.2) fun s1 h1 => ?_)
    by_cases hflag : s1.m_SkipFlag = true
    · simp only [hflag, if_true, Option.bind]; exact Post_of_core hF h1 rfl
    · simp only [hflag, if_false, Option.bind]; exact Post_of_core hF h1 rfl

theorem VisitFunctionDecl_KRparams_post (hF : Frame A R) {V : DeclVisit}
    (hV : ∀ d, Triple N A R (V d)) (l : List DeclId) (s : ForwardDeclPrinter) (hA : A s) :
    Post N A R s (VisitFunctionDecl_KRparams V l s) := by
  induction l generalizing s with
  | nil => exact Post_of_core hF hA rfl
  | cons P rest ih =>
    rw [VisitFunctionDecl_KRparams]
    have h0 := Post_start hF hA (core_Indent s s.m_Indentation)
    refine Post_trans_left hF h0.1 (Post_bind hF (hV P _ h0.2) fun s1 h1 => ?_)
    have h2 := Post_start hF h1 (core_Out s1 ";\n")
    exact Post_trans_left hF h2.1 (ih _ h2.2)

theorem VisitFunctionDecl_KRbody_post (hF : Frame A R) {V : DeclVisit}
    (hV : ∀ d, Triple N A R (V d)) (F : FunctionDecl) (SubPolicy : PrintingPolicy)
    (s : ForwardDeclPrinter) (hA : A s) :
    Post N A R s (VisitFunctionDecl_KRbody V F SubPolicy s) := by
  unfold VisitFunctionDecl_KRbody
  have h0 := Post_start hF hA (core_Out s "\n")
  have hAp := hF.push_A (some SubPolicy) h0.2
  refine Post_trans_left hF h0.1 (Post_bind_from
    (b := (s.Out "\n").StreamRAII_push (some SubPolicy)) ?_
    fun s1 hR1 hA1 => Post_exit hF (some SubPolicy) hR1 hA1 rfl)
  have h1 := Post_start hF hAp (t := { (s.Out "\n").StreamRAII_push (some SubPolicy) with
    m_Indentation := ((s.Out "\n").StreamRAII_push (some SubPolicy)).m_Indentation
      + ((s.Out "\n").StreamRAII_push (some SubPolicy)).m_Policy.Indentation }) rfl
  exact Post_trans_left hF h1.1 (VisitFunctionDecl_KRparams_post hF hV F.params _ h1.2)

theorem VisitFunctionDecl_body_post (hF : Frame A R) {V : DeclVisit}
    (hV : ∀ d, Triple N A R (V d)) (F : FunctionDecl) (SubPolicy : PrintingPolicy)
    (s : ForwardDeclPrinter) (hA : A s) :
    Post N A R s (VisitFunctionDecl_body V F SubPolicy s) := by
  unfold VisitFunctionDecl_body
  split_ifs
  · exact Post_of_core hF hA rfl
  · exact Post_of_core hF hA rfl
  · exact Post_of_core hF hA rfl
  · exact VisitFunctionDecl_KRbody_post hF hV F SubPolicy s hA
  · exact Post_of_core hF hA rfl
  · exact Post_of_core hF hA rfl

theorem VisitFunctionDecl_rest_post (hF : Frame A R) (E : Env) {V : DeclVisit}
    (hV : ∀ d, Triple N A R (V d)) (D : Decl) (F : FunctionDecl)
    (FT : Option FunctionProtoType) (Proto : String) (SubPolicy streamPol : PrintingPolicy)
    (s0 s : ForwardDeclPrinter) (pol : Option PrintingPolicy)
    (h : R (s0.StreamRAII_push pol) s) (hA : A s) :
    Post N A R s0 (VisitFunctionDecl_rest E V D F FT Proto SubPolicy streamPol s) := by
  unfold VisitFunctionDecl_rest
  refine Post_bind_from (b := s0.StreamRAII_push pol) ?_
    fun s1 hR1 hA1 => Post_exit hF pol hR1 hA1 rfl
  have h1 := Post_start hF hA (t := (s.Out (VisitFunctionDecl_declarator E s.m_Policy
    s.m_Indentation F FT Proto SubPolicy).2).Out (if !(VisitFunctionDecl_declarator E
      s.m_Policy s.m_Indentation F FT Proto SubPolicy).1 then prettyPrintAttributes_text D ""
      else "")) rfl
  exact Post_trans_left hF (hF.trans h h1.1) (VisitFunctionDecl_body_post hF hV F SubPolicy _ h1.2)

theorem VisitFunctionDecl_prototype_post (hF : Frame A R) (E : Env) {V : DeclVisit}
    (hV : ∀ d, Triple N A R (V d)) (D : Decl) (F : FunctionDecl)
    (FT : Option FunctionProtoType) (Proto : String) (SubPolicy streamPol : PrintingPolicy)
    (s0 s : ForwardDeclPrinter) (pol : Option PrintingPolicy)
    (h : R (s0.StreamRAII_push pol) s) (hA : A s) :
    Post N A R s0 (VisitFunctionDecl_prototype E V D F FT Proto SubPolicy streamPol s) := by
  unfold VisitFunctionDecl_prototype
  cases FT with
  | none => exact VisitFunctionDecl_rest_post hF E hV D F none _ SubPolicy streamPol s0 s pol h hA
  | some FTy =>
    refine Post_bind_from_pair (b := s.StreamRAII_push (some SubPolicy))
      (VisitFunctionDecl_params_post hF hV 0 F.params _ (hF.push_A (some SubPolicy) hA))
      fun r hRr hAr => ?_
    by_cases hr : r.1 = true
    · rw [if_pos hr]
      exact Post_exit hF pol (hF.trans h (hF.push_pop _ hRr)) (hF.pop_A hAr) rfl
    · rw [if_neg hr]
      have h1 := Post_start hF hAr (core_Out r.2 (if FTy.isVariadic then
          (if F.params.length ≠ 0 then ", " else "") ++ "..." else ""))
      refine VisitFunctionDecl_rest_post hF E hV D F (some FTy) _ SubPolicy streamPol s0 _ pol
        (hF.trans h (hF.trans (hF.push_pop _ (hF.trans hRr h1.1)) (hF.core ?_)))
        (hF.pres (hF.pop_A h1.2) (hF.core ?_))
      · rfl
      · rfl

theorem VisitFunctionDecl_post (hF : Frame A R) (E : Env) {V : DeclVisit}
    (hV : ∀ d, Triple N A R (V d)) (D : Decl) (F : FunctionDecl) (s : ForwardDeclPrinter)
    (hA : A s) : Post N A R s (VisitFunctionDecl E V D F s) := by
  unfold VisitFunctionDecl
  refine Post_bind hF (VisitQualType_post hF hV _ s hA) fun s1 h1 => ?_
  by_cases hflag : s1.m_SkipFlag = true
  · rw [if_pos hflag]; exact Post_of_core hF h1 rfl
  · rw [if_neg hflag]
    have h2 := Post_start hF (hF.push_A none h1)
      (core_Out (s1.StreamRAII_push none)
        (VisitFunctionDecl_specifiers (s1.StreamRAII_push none).m_Policy D F))
    cases hAFT : F.getAsFunctionType with
    | none =>
      exact VisitFunctionDecl_rest_post hF E hV D F none _ _ _ s1 _ none h2.1 h2.2
    | some AFT =>
      exact VisitFunctionDecl_prototype_post hF E hV D F _ _ _ _ s1 _ none h2.1 h2.2

theorem VisitNamespaceDecl_decls_post (hF : Frame A R) {V : DeclVisit}
    (hV : ∀ d, Triple N A R (V d)) (l : List DeclId) (b : Bool) (s : ForwardDeclPrinter)
    (hA : A s) :
    Post N A R s ((VisitNamespaceDecl_decls V l b s).bind fun r => some r.2) := by
  induction l generalizing b s with
  | nil => exact Post_of_core hF hA rfl
  | cons d rest ih =>
    rw [VisitNamespaceDecl_decls]
    refine Post_bind_pair hF (hV d s hA) fun s1 h1 => ?_
    have h2 := Post_start hF h1 (core_skipCurrentDecl s1 false)
    exact Post_trans_left hF h2.1 (ih _ _ h2.2)

theorem VisitNamespaceDecl_post (hF : Frame A R) {V : DeclVisit}
    (hV : ∀ d, Triple N A R (V d)) (Did : DeclId) (D : Decl) (NS : NamespaceDecl)
    (s : ForwardDeclPrinter) (hA : A s) :
    Post N A R s (VisitNamespaceDecl V Did D NS s) := by
  unfold VisitNamespaceDecl
  refine Post_bind_from_pair (b := s.StreamRAII_push none)
    (VisitNamespaceDecl_decls_post hF hV NS.decls false _ (hF.push_A none hA))
    fun r hRr hAr => ?_
  by_cases hb : (r.1 || (Did == D.getCanonicalDecl)) = true
  · simp only [hb, if_true]; exact Post_exit hF none hRr hAr rfl
  · simp only [hb, if_false]; exact Post_exit hF none hRr hAr rfl

theorem VisitUsingDirectiveDecl_post (hF : Frame A R) (E : Env) {V : DeclVisit}
    (hV : ∀ d, Triple N A R (V d)) (U : UsingDirectiveDecl) (s : ForwardDeclPrinter)
    (hA : A s) : Post N A R s (VisitUsingDirectiveDecl E V U s) := by
  unfold VisitUsingDirectiveDecl
  refine Post_bind hF (hV _ s hA) fun s1 h1 => ?_
  by_cases hflag : s1.m_SkipFlag = true
  · rw [if_pos hflag]; exact Post_of_core hF h1 rfl
  · rw [if_neg hflag]; exact Post_of_core hF h1 rfl

theorem VisitUsingDecl_post (hF : Frame A R) (E : Env) {V : DeclVisit}
    (hV : ∀ d, Triple N A R (V d)) (Did : DeclId) (shadows : List DeclId)
    (s : ForwardDeclPrinter) (hA : A s) : Post N A R s (VisitUsingDecl E V Did shadows s) := by
  unfold VisitUsingDecl
  refine Post_bind hF (VisitEach_post hF hV shadows s hA) fun s1 h1 => ?_
  by_cases hflag : s1.m_SkipFlag = true
  · rw [if_pos hflag]; exact Post_of_core hF h1 rfl
  · rw [if_neg hflag]; exact Post_of_core hF h1 rfl

theorem VisitUsingShadowDecl_post (hF : Frame A R) {V : DeclVisit}
    (hV : ∀ d, Triple N A R (V d)) (target : DeclId) (s : ForwardDeclPrinter) (hA : A s) :
    Post N A R s (VisitUsingShadowDecl V target s) := by
  unfold VisitUsingShadowDecl
  refine Post_bind hF (hV _ s hA) fun s1 h1 => ?_
  by_cases hflag : s1.m_SkipFlag = true
  · rw [if_pos hflag]; exact Post_of_core hF h1 rfl
  · rw [if_neg hflag]; exact Post_of_core hF h1 rfl

theorem VisitLinkageSpecDecl_post (hF : Frame A R) {V : DeclVisit}
    (hV : ∀ d, Triple N A R (V d)) (L : LinkageSpecDecl) (s : ForwardDeclPrinter) (hA : A s) :
    Post N A R s (VisitLinkageSpecDecl V L s) := by
  unfold VisitLinkageSpecDecl
  have h0 := Post_start hF hA (t := (s.Out ("extern \"" ++ (if L.isLangC then "C" else "C++")
    ++ "\" ")).Out "\x7b\n") rfl
  by_cases hb : L.hasBraces = true
  · simp only [hb, if_true]
    exact Post_trans_left hF h0.1 (Post_bind hF (VisitEach_post hF hV L.decls _ h0.2)
      fun s1 h1 => Post_of_core hF h1 rfl)
  · simp only [hb, if_false]
    refine Post_trans_left hF h0.1 (Post_bind hF ?_ fun s1 h1 => Post_of_core hF h1 rfl)
    cases L.decls with
    | nil => exact Post_of_core hF h0.2 rfl
    | cons first rest => exact hV first _ h0.2

theorem PrintTemplateParameters_params_post (hF : Frame A R) (E : Env) {V : DeclVisit}
    (hV : ∀ d, Triple N A R (V d)) (Args : Option (List (QualType × String))) (i : Nat)
    (l : List TemplateParam) (s : ForwardDeclPrinter) (hA : A s) :
    Post N A R s (PrintTemplateParameters_params E V Args i l s) := by
  induction l generalizing i s with
  | nil => exact Post_of_core hF hA rfl
  | cons P rest ih =>
    have h0 := Post_start hF hA (core_Out s (if i ≠ 0 then ", " else ""))
    cases P with
    | TemplateTemplateParm d =>
      simp only [PrintTemplateParameters_params]
      exact Post_trans_left hF h0.1 (Post_bind hF (hV d _ h0.2) fun s1 h1 => ih _ s1 h1)
    | TemplateTypeParm a b c e =>
      simp only [PrintTemplateParameters_params]
      exact Post_trans_left hF h0.1
        (Post_bind hF (Post_of_core hF h0.2 rfl) fun s1 h1 => ih _ s1 h1)
    | NonTypeTemplateParm a b c e =>
      simp only [PrintTemplateParameters_params]
      exact Post_trans_left hF h0.1
        (Post_bind hF (Post_of_core hF h0.2 rfl) fun s1 h1 => ih _ s1 h1)
    | Other =>
      simp only [PrintTemplateParameters_params]
      exact Post_trans_left hF h0.1
        (Post_bind hF (Post_of_core hF h0.2 rfl) fun s1 h1 => ih _ s1 h1)

theorem PrintTemplateParameters_post (hF : Frame A R) (E : Env) {V : DeclVisit}
    (hV : ∀ d, Triple N A R (V d)) (Params : TemplateParameterList)
    (Args : Option (List (QualType × String))) (s : ForwardDeclPrinter) (hA : A s) :
    Post N A R s (PrintTemplateParameters E V Params Args s) := by
  unfold PrintTemplateParameters
  have h0 := Post_start hF hA (core_Out s "template <")
  exact Post_trans_left hF h0.1 (Post_bind hF
    (PrintTemplateParameters_params_post hF E hV Args 0 Params.params _ h0.2)
    fun s1 h1 => Post_of_core hF h1 rfl)

theorem VisitRedeclarableTemplateDecl_post (hF : Frame A R) (E : Env) {V : DeclVisit}
    (hV : ∀ d, Triple N A R (V d)) (Did : DeclId) (T : RedeclarableTemplateDecl)
    (s : ForwardDeclPrinter) (hA : A s) :
    Post N A R s (VisitRedeclarableTemplateDecl E V Did T s) := by
  unfold VisitRedeclarableTemplateDecl
  refine Post_bind_from (b := s.StreamRAII_push none) (A := A) (R := R)
    (x := PrintTemplateParameters E V _ none (s.StreamRAII_push none))
    (PrintTemplateParameters_post hF E hV _ none _ (hF.push_A none hA))
    fun s1 hR1 hA1 => ?_
  refine Post_bind_from (b := s.StreamRAII_push none) (A := A) (R := R)
    (x := V _ s1) (Post_trans_left hF hR1 (hV _ s1 hA1)) fun s2 hR2 hA2 => ?_
  by_cases hflag : (!s2.m_SkipFlag) = true
  · rw [if_pos hflag]; exact Post_exit hF none hR2 hA2 rfl
  · rw [if_neg hflag]; exact Post_exit hF none hR2 hA2 rfl

theorem VisitTemplateDecl_specs_post (hF : Frame A R) (E : Env) {V : DeclVisit}
    (hV : ∀ d, Triple N A R (V d)) (Params : TemplateParameterList) (nl : Bool)
    (l : List TemplateSpec) (s : ForwardDeclPrinter) (hA : A s) :
    Post N A R s (VisitTemplateDecl_specs E V Params nl l s) := by
  induction l generalizing s with
  | nil => exact Post_of_core hF hA rfl
  | cons I rest ih =>
    rw [VisitTemplateDecl_specs]
    refine Post_bind hF (PrintTemplateParameters_post hF E hV Params _ s hA) fun s1 h1 => ?_
    refine Post_bind hF (hV _ s1 h1) fun s2 h2 => ?_
    have h3 := Post_start hF h2 (core_Out s2 (if nl then "\n" else ""))
    exact Post_trans_left hF h3.1 (ih _ h3.2)

theorem VisitFunctionTemplateDecl_post (hF : Frame A R) (E : Env) {V : DeclVisit}
    (hV : ∀ d, Triple N A R (V d)) (Did : DeclId) (T : RedeclarableTemplateDecl)
    (s : ForwardDeclPrinter) (hA : A s) :
    Post N A R s (VisitFunctionTemplateDecl E V Did T s) := by
  unfold VisitFunctionTemplateDecl
  refine Post_bind hF ?_ fun s1 h1 => VisitRedeclarableTemplateDecl_post hF E hV Did T s1 h1
  split_ifs
  · exact VisitTemplateDecl_specs_post hF E hV _ _ _ s hA
  · exact Post_of_core hF hA rfl

theorem VisitClassTemplateDecl_post (hF : Frame A R) (E : Env) {V : DeclVisit}
    (hV : ∀ d, Triple N A R (V d)) (Did : DeclId) (T : RedeclarableTemplateDecl)
    (s : ForwardDeclPrinter) (hA : A s) :
    Post N A R s (VisitClassTemplateDecl E V Did T s) := by
  unfold VisitClassTemplateDecl
  refine Post_bind hF ?_ fun s1 h1 => VisitRedeclarableTemplateDecl_post hF E hV Did T s1 h1
  split_ifs
  · exact VisitTemplateDecl_specs_post hF E hV _ _ _ s hA
  · exact Post_of_core hF hA rfl

theorem VisitClassTemplateSpecializationDecl_post (hF : Frame A R) {V : DeclVisit}
    (hV : ∀ d, Triple N A R (V d)) (D : Decl) (C : ClassTemplateSpecializationDecl)
    (s : ForwardDeclPrinter) (hA : A s) :
    Post N A R s (VisitClassTemplateSpecializationDecl V D C s) := by
  unfold VisitClassTemplateSpecializationDecl
  have h0 := Post_start hF hA (t := (s.Log D.getNameAsString).Log
    " ClassTemplateSpecialization : Skipped by default\n") rfl
  exact Post_trans_left hF h0.1 (hV _ _ h0.2)

/-- The dispatch carries every framed relation from the recursive calls to the
method of the declaration. -/
theorem DeclVisitor_Visit_post (hF : Frame A R) (E : Env) {V : DeclVisit}
    (hV : ∀ d, Triple N A R (V d)) (Did : DeclId) (s : ForwardDeclPrinter) (hA : A s) :
    Post N A R s (DeclVisitor_Visit E V Did s) := by
  unfold DeclVisitor_Visit
  dsimp only
  split
  · exact VisitEach_post hF hV _ s hA
  · exact VisitTypedefDecl_post hF E hV _ _ s hA
  · exact Post_of_core hF hA rfl
  · exact Post_of_core hF hA rfl
  · exact Post_of_core hF hA rfl
  · exact VisitFunctionDecl_post hF E hV _ _ s hA
  · exact Post_of_core hF hA rfl
  · exact Post_of_core hF hA rfl
  · exact Post_of_core hF hA rfl
  · exact VisitVarDecl_post hF E hV _ _ s hA
  · exact VisitVarDecl_post hF E hV _ _ s hA
  · exact Post_of_core hF hA rfl
  · exact Post_of_core hF hA rfl
  · exact Post_of_core hF hA rfl
  · exact VisitNamespaceDecl_post hF hV Did _ _ s hA
  · exact VisitUsingDirectiveDecl_post hF E hV _ s hA
  · exact VisitUsingDecl_post hF E hV Did _ s hA
  · exact VisitUsingShadowDecl_post hF hV _ s hA
  · exact Post_of_core hF hA rfl
  · exact Post_of_core hF hA rfl
  · exact Post_of_core hF hA rfl
  · exact VisitLinkageSpecDecl_post hF hV _ s hA
  · exact VisitFunctionTemplateDecl_post hF E hV Did _ s hA
  · exact VisitClassTemplateDecl_post hF E hV Did _ s hA
  · exact VisitRedeclarableTemplateDecl_post hF E hV Did _ s hA
  · exact VisitClassTemplateSpecializationDecl_post hF hV _ _ s hA
  · exact Post_of_core hF hA rfl

end framework

end ForwardDeclPrinter

end cling
namespace cling

namespace ForwardDeclPrinter

/-! ## The Visit State Table, the traces and the depth of the recursion -/

theorem VisitedMap_find_assign (t : VisitedMap) (k : DeclId) (v : Bool) (k' : DeclId) :
    (VisitedMap.assign t k v).find k' = if k = k' then some v else t.find k' := by
  induction t with
  | nil =>
    simp only [VisitedMap.assign, VisitedMap.find]
  | cons e t ih =>
    obtain ⟨a, b⟩ := e
    simp only [VisitedMap.assign]
    by_cases hak : a = k
    · subst hak
      simp only [if_true, VisitedMap.find]
      by_cases h : a = k'
      · simp [h]
      · simp [h]
    · simp only [hak, if_false, VisitedMap.find, ih]
      by_cases h : a = k'
      · subst h; simp [hak, Ne.symm hak]
      · simp [h]

theorem VisitedMap_find_assign_self (t : VisitedMap) (k : DeclId) (v : Bool) :
    (VisitedMap.assign t k v).find k = some v := by
  rw [VisitedMap_find_assign]; simp

theorem VisitedMap_find_assign_isSome (t : VisitedMap) (k : DeclId) (v : Bool) (k' : DeclId)
    (h : (t.find k').isSome) : ((VisitedMap.assign t k v).find k').isSome := by
  rw [VisitedMap_find_assign]; split_ifs <;> simp [h]

theorem decl_of_length_le (E : Env) (D : DeclId) (h : E.decls.length ≤ D) :
    E.decl D = E.decl E.decls.length := by
  unfold Env.decl
  rw [List.getD_eq_default _ _ h, List.getD_eq_default _ _ (le_refl _)]

theorem key_mem_universe (E : Env) (D : DeclId) : getCanonicalOrNamespace E D ∈ allKeys E := by
  unfold allKeys
  rw [List.mem_map]
  rcases Nat.lt_or_ge D (E.decls.length + 1) with h | h
  · exact ⟨D, List.mem_range.mpr h, rfl⟩
  · refine ⟨E.decls.length, List.mem_range.mpr (Nat.lt_succ_self _), ?_⟩
    have hle : E.decls.length ≤ D := Nat.le_of_succ_le h
    unfold getCanonicalOrNamespace
    rw [decl_of_length_le E D hle]

theorem filter_length_le {α : Type} (p q : α → Bool) (l : List α)
    (h : ∀ x, q x = true → p x = true) : (l.filter q).length ≤ (l.filter p).length := by
  induction l with
  | nil => simp
  | cons a l ih =>
    simp only [List.filter_cons]
    cases hq : q a with
    | true =>
      rw [h a hq]
      simp only [if_true, List.length_cons]
      omega
    | false =>
      cases hp : p a with
      | true =>
        simp only [if_true, List.length_cons, Bool.false_eq_true, if_false]
        omega
      | false =>
        simp only [Bool.false_eq_true, if_false]
        exact ih

theorem filter_length_lt {α : Type} (p q : α → Bool) (l : List α)
    (h : ∀ x, q x = true → p x = true) (x : α) (hx : x ∈ l) (hpx : p x = true)
    (hqx : q x = false) : (l.filter q).length < (l.filter p).length := by
  induction l with
  | nil => simp at hx
  | cons a l ih =>
    simp only [List.filter_cons]
    rcases List.mem_cons.mp hx with hxa | hxl
    · subst hxa
      rw [hpx, hqx]
      simp only [if_true, List.length_cons, Bool.false_eq_true, if_false]
      have := filter_length_le p q l h
      omega
    · have ih' := ih hxl
      cases hq : q a with
      | true =>
        rw [h a hq]
        simp only [if_true, List.length_cons]
        omega
      | false =>
        cases hp : p a with
        | true =>
          simp only [if_true, List.length_cons, Bool.false_eq_true, if_false]
          omega
        | false =>
          simp only [Bool.false_eq_true, if_false]
          exact ih'

theorem unvisited_le (E : Env) (s s' : ForwardDeclPrinter)
    (h : ∀ k, (s.m_Visited.find k).isSome → (s'.m_Visited.find k).isSome) :
    unvisited E s' ≤ unvisited E s := by
  unfold unvisited
  apply filter_length_le
  intro k hk
  cases hs : s.m_Visited.find k with
  | none => rfl
  | some b =>
    have := h k (by simp [hs])
    cases hs' : s'.m_Visited.find k with
    | none => simp [hs'] at this
    | some b' => simp [hs'] at hk

theorem unvisited_lt (E : Env) (s s' : ForwardDeclPrinter) (D : DeclId)
    (hnone : s.m_Visited.find (getCanonicalOrNamespace E D) = none)
    (h : ∀ k, (s.m_Visited.find k).isSome ∨ k = getCanonicalOrNamespace E D →
      (s'.m_Visited.find k).isSome) :
    unvisited E s' < unvisited E s := by
  unfold unvisited
  apply filter_length_lt _ _ _ _ (getCanonicalOrNamespace E D) (key_mem_universe E D)
  · simp [hnone]
  · have := h _ (Or.inr rfl)
    cases hs' : s'.m_Visited.find (getCanonicalOrNamespace E D) with
    | none => simp [hs'] at this
    | some b' => simp
  · intro k hk
    cases hs : s.m_Visited.find k with
    | none => rfl
    | some b =>
      have := h k (Or.inl (by simp [hs]))
      cases hs' : s'.m_Visited.find k with
      | none => simp [hs'] at this
      | some b' => simp [hs'] at hk

theorem Step_refl (E : Env) (s : ForwardDeclPrinter) : Step E s s :=
  ⟨fun _ h => h, rfl, rfl, rfl, ⟨[], by simp⟩, fun h => h⟩

theorem Step_trans {E : Env} {a b c : ForwardDeclPrinter} (h1 : Step E a b)
    (h2 : Step E b c) : Step E a c :=
  ⟨fun k h => h2.keys k (h1.keys k h), h2.rest.trans h1.rest, h2.driver.trans h1.driver,
    h2.printInst.trans h1.printInst,
    by
      obtain ⟨l1, e1⟩ := h1.trace
      obtain ⟨l2, e2⟩ := h2.trace
      exact ⟨l1 ++ l2, by rw [e2, e1, List.append_assoc]⟩,
    fun h => h2.inv (h1.inv h)⟩

/-- A step that changes neither the dispatch trace nor anything but the table,
which only gains keys. -/
theorem Step_of_grow {E : Env} {s s' : ForwardDeclPrinter}
    (hk : ∀ k, (s.m_Visited.find k).isSome → (s'.m_Visited.find k).isSome)
    (ht : s'.traceDispatch = s.traceDispatch) (hr : s'.streamRest = s.streamRest)
    (hd : s'.traceDriver = s.traceDriver)
    (hp : s'.m_PrintInstantiation = s.m_PrintInstantiation) : Step E s s' :=
  ⟨hk, hr, hd, hp, ⟨[], by simp [ht]⟩, fun h => by
    refine ⟨by rw [ht]; exact h.1, fun d hd' => ?_⟩
    rw [ht] at hd'
    exact hk _ (h.2 d hd')⟩

theorem Step_of_core {E : Env} {s s' : ForwardDeclPrinter} (h : core s' = core s) :
    Step E s s' := by
  have h1 : s'.m_Visited = s.m_Visited := congrArg Core.m_Visited h
  have h2 : s'.traceDispatch = s.traceDispatch := congrArg Core.traceDispatch h
  have h3 : s'.traceDriver = s.traceDriver := congrArg Core.traceDriver h
  have h4 : s'.streamRest = s.streamRest := congrArg Core.streamRest h
  have h5 : s'.m_PrintInstantiation = s.m_PrintInstantiation :=
    congrArg Core.m_PrintInstantiation h
  exact Step_of_grow (fun k hk => by rw [h1]; exact hk) h2 h4 h3 h5

theorem Step_push_pop {E : Env} {s s1 : ForwardDeclPrinter} (pol : Option PrintingPolicy)
    (h : Step E (s.StreamRAII_push pol) s1) : Step E s s1.popStream :=
  ⟨h.keys, by
      show s1.streamRest.tail = s.streamRest
      rw [h.rest]; rfl,
    h.driver, h.printInst, h.trace, h.inv⟩

/-- The relation `Step` can be carried through every method, together with any
predicate that `Step` preserves and that does not look at the streams. -/
theorem Step_frame (E : Env) (A : ForwardDeclPrinter → Prop)
    (hpres : ∀ s s', A s → Step E s s' → A s')
    (hpush : ∀ s pol, A s → A (s.StreamRAII_push pol))
    (hpop : ∀ s, A s → A s.popStream) : Frame A (Step E) :=
  { refl := Step_refl E
    trans := Step_trans
    pres := fun hA hS => hpres _ _ hA hS
    core := Step_of_core
    push_pop := Step_push_pop
    push_A := fun pol hA => hpush _ pol hA
    pop_A := fun hA => hpop _ hA }

theorem shouldSkip_core (E : Env) (D : DeclId) (s : ForwardDeclPrinter) :
    (shouldSkip E D s).2.traceDispatch = s.traceDispatch ∧
    (shouldSkip E D s).2.streamRest = s.streamRest ∧
    (shouldSkip E D s).2.traceDriver = s.traceDriver ∧
    (shouldSkip E D s).2.m_PrintInstantiation = s.m_PrintInstantiation ∧
    (shouldSkip E D s).2.streamTop = s.streamTop ∧
    (shouldSkip E D s).2.m_SkipFlag = s.m_SkipFlag ∧
    (shouldSkip E D s).2.m_SkipCounter = s.m_SkipCounter ∧
    (shouldSkip E D s).2.m_TotalDecls = s.m_TotalDecls ∧
    (shouldSkip E D s).2.m_Policy = s.m_Policy := by
  unfold shouldSkip
  dsimp only
  split <;>
    simp only [shouldSkipImpl_EnumDecl, shouldSkipImpl_VarDecl,
      shouldSkipImpl_UsingDirectiveDecl, shouldSkipImpl_TypeAliasTemplateDecl,
      shouldSkipImpl_default, shouldSkip_logged] <;>
    (try split_ifs) <;> simp [ForwardDeclPrinter.Log, ForwardDeclPrinter.setVisited]

theorem shouldSkip_keys (E : Env) (D : DeclId) (s : ForwardDeclPrinter) (k : DeclId)
    (h : (s.m_Visited.find k).isSome) : ((shouldSkip E D s).2.m_Visited.find k).isSome := by
  unfold shouldSkip
  dsimp only
  split <;>
    simp only [shouldSkipImpl_EnumDecl, shouldSkipImpl_VarDecl,
      shouldSkipImpl_UsingDirectiveDecl, shouldSkipImpl_TypeAliasTemplateDecl,
      shouldSkipImpl_default, shouldSkip_logged] <;>
    (try split_ifs) <;>
    first
      | exact h
      | exact VisitedMap_find_assign_isSome _ _ _ _ h

/-- The eligibility test on a function that its predicate rejects: the log
receives the line of the skip. -/
theorem shouldSkip_function (E : Env) (D : DeclId) (F : FunctionDecl) (s : ForwardDeclPrinter)
    (hkind : (E.decl D).kind = .Function F)
    (hskip : shouldSkipImpl_FunctionDecl (E.decl D) F = true) :
    shouldSkip E D s =
      (true, s.Log ((E.decl D).getNameAsString ++ " : Ineligible by policy\n")) := by
  unfold shouldSkip
  simp only [hkind, hskip, shouldSkip_logged, if_true]

theorem find_setVisited (s : ForwardDeclPrinter) (k : DeclId) (v : Bool) (k' : DeclId) :
    ((s.setVisited k v).m_Visited.find k') = if k = k' then some v else s.m_Visited.find k' :=
  VisitedMap_find_assign _ _ _ _

theorem setVisited_keys (s : ForwardDeclPrinter) (k : DeclId) (v : Bool) (k' : DeclId)
    (h : (s.m_Visited.find k').isSome) : ((s.setVisited k v).m_Visited.find k').isSome :=
  VisitedMap_find_assign_isSome _ _ _ _ h

/-- The outcome of `Visit(D)`, given the outcome of the recursive calls: `A` is
needed only of the states whose table holds the key of `D`. -/
theorem Visit_post (E : Env) {N : Prop} {A : ForwardDeclPrinter → Prop}
    (hF : Frame A (Step E)) {V : DeclVisit} (hV : ∀ d, Triple N A (Step E) (V d))
    (D : DeclId) (s : ForwardDeclPrinter)
    (hA : s.m_Visited.find (getCanonicalOrNamespace E D) = none →
      ∀ s2 : ForwardDeclPrinter,
        (∀ k, (s.m_Visited.find k).isSome ∨ k = getCanonicalOrNamespace E D →
          (s2.m_Visited.find k).isSome) → A s2) :
    Post N (fun _ => True) (Step E) s (Visit E V D s) := by
  unfold Visit
  cases hfind : s.m_Visited.find (getCanonicalOrNamespace E D) with
  | some b =>
    dsimp only
    split_ifs
    · exact ⟨Step_of_core rfl, trivial⟩
    · exact ⟨Step_refl E s, trivial⟩
  | none =>
    dsimp only
    generalize hs1 : s.setVisited (getCanonicalOrNamespace E D) true = s1
    have hc := shouldSkip_core E D s1
    generalize hr : shouldSkip E D s1 = r at hc
    have hk : ∀ k, (s.m_Visited.find k).isSome ∨ k = getCanonicalOrNamespace E D →
        (r.2.m_Visited.find k).isSome := by
      intro k hk
      rw [← hr]
      apply shouldSkip_keys
      rw [← hs1]
      rcases hk with hk | hk
      · exact setVisited_keys _ _ _ _ hk
      · subst hk; simp [find_setVisited]
    have e1 : s1.traceDispatch = s.traceDispatch := by rw [← hs1]; rfl
    have e2 : s1.streamRest = s.streamRest := by rw [← hs1]; rfl
    have e3 : s1.traceDriver = s.traceDriver := by rw [← hs1]; rfl
    have e4 : s1.m_PrintInstantiation = s.m_PrintInstantiation := by rw [← hs1]; rfl
    by_cases hskip : r.1 = true
    · rw [if_pos hskip]
      refine ⟨Step_of_grow (fun k h => ?_) (hc.1.trans e1) (hc.2.1.trans e2)
        (hc.2.2.1.trans e3) (hc.2.2.2.1.trans e4), trivial⟩
      exact setVisited_keys _ _ _ _ (hk k (Or.inl h))
    · rw [if_neg hskip]
      have hstep : Step E s (r.2.traceDispatched D) := by
        refine ⟨fun k h => hk k (Or.inl h), hc.2.1.trans e2, hc.2.2.1.trans e3,
          hc.2.2.2.1.trans e4, ⟨[D], ?_⟩, ?_⟩
        · show r.2.traceDispatch ++ [D] = _
          rw [hc.1, e1]
        · intro hinv
          have htr : (r.2.traceDispatched D).traceDispatch = s.traceDispatch ++ [D] := by
            show r.2.traceDispatch ++ [D] = _
            rw [hc.1, e1]
          refine ⟨?_, ?_⟩
          · rw [htr, List.map_append, List.nodup_append]
            refine ⟨hinv.1, by simp, ?_⟩
            intro k hk1 hk2
            simp only [List.map_cons, List.map_nil, List.mem_singleton] at hk2
            subst hk2
            obtain ⟨d, hd, hdk⟩ := List.mem_map.mp hk1
            have := hinv.2 d hd
            rw [hdk, hfind] at this
            simp at this
          · intro d hd
            rw [htr] at hd
            rcases List.mem_append.mp hd with h1 | h1
            · exact hk _ (Or.inl (hinv.2 d h1))
            · simp only [List.mem_singleton] at h1
              subst h1
              exact hk _ (Or.inr rfl)
      have hA2 : A (r.2.traceDispatched D) := hA hfind _ hk
      have hpost := DeclVisitor_Visit_post hF E hV D _ hA2
      cases hdisp : DeclVisitor_Visit E V D (r.2.traceDispatched D) with
      | none => rw [hdisp] at hpost; exact hpost
      | some s3 =>
        rw [hdisp] at hpost
        simp only [Option.bind]
        split_ifs
        · refine ⟨Step_trans (Step_trans hstep hpost.1) (Step_of_grow (fun k h => ?_) rfl rfl
            rfl rfl), trivial⟩
          exact setVisited_keys _ _ _ _ h
        · exact ⟨Step_trans hstep hpost.1, trivial⟩

/-- Whenever `Visit(D)` returns, its two states are related by `Step`. -/
theorem exec_step (E : Env) :
    ∀ (n : Nat) (D : DeclId) (s s' : ForwardDeclPrinter), exec E n D s = some s' → Step E s s' := by
  intro n
  induction n with
  | zero => intro D s s' h; simp [exec] at h
  | succ n ih =>
    intro D s s' h
    have hV : ∀ d, Triple True (fun _ => True) (Step E) (exec E n d) := by
      intro d s1 _
      cases h1 : exec E n d s1 with
      | none => trivial
      | some s2 => exact ⟨ih d s1 s2 h1, trivial⟩
    have hF : Frame (fun _ => True) (Step E) :=
      Step_frame E _ (fun _ _ _ _ => trivial) (fun _ _ _ => trivial) (fun _ _ => trivial)
    have := Visit_post E hF hV D s (fun _ _ _ => trivial)
    simp only [exec] at h
    rw [h] at this
    exact this.1

/-- The method `Visit(D)` returns when the bound on the depth of the recursion
exceeds the number of keys that the table does not hold yet. -/
theorem exec_total (E : Env) :
    ∀ (n m : Nat), m < n → ∀ (D : DeclId) (s : ForwardDeclPrinter), unvisited E s ≤ m →
      ∃ s', exec E n D s = some s' ∧ Step E s s' := by
  intro n
  induction n with
  | zero => intro m hm; omega
  | succ n ih =>
    intro m hm D s hs
    have key : Post False (fun _ => True) (Step E) s (Visit E (exec E n) D s) := by
      cases m with
      | zero =>
        have hF : Frame (fun _ => False) (Step E) :=
          Step_frame E _ (fun _ _ h _ => h) (fun _ _ h => h) (fun _ h => h)
        refine Visit_post E hF (fun d s1 h1 => h1.elim) D s (fun hnone s2 h2 => ?_)
        have := unvisited_lt E s s2 D hnone h2
        omega
      | succ m =>
        have hF : Frame (fun s1 => unvisited E s1 ≤ m) (Step E) :=
          Step_frame E _ (fun s1 s2 h hS => le_trans (unvisited_le E s1 s2 hS.keys) h)
            (fun _ _ h => h) (fun _ h => h)
        refine Visit_post E hF (fun d s1 h1 => ?_) D s (fun hnone s2 h2 => ?_)
        · obtain ⟨s2, h2, hS⟩ := ih m (by omega) d s1 h1
          rw [h2]
          exact ⟨hS, le_trans (unvisited_le E s1 s2 hS.keys) h1⟩
        · have := unvisited_lt E s s2 D hnone h2
          omega
    simp only [exec]
    cases hv : Visit E (exec E n) D s with
    | none => rw [hv] at key; exact key.elim
    | some s' => rw [hv] at key; exact ⟨s', rfl, key.1⟩

end ForwardDeclPrinter

end cling

namespace cling

namespace ForwardDeclPrinter

/-! ## The constructor's loops -/

theorem unvisited_le_length (E : Env) (s : ForwardDeclPrinter) :
    unvisited E s ≤ (allKeys E).length :=
  List.length_filter_le _ _

/-- After `Visit(D)` the table holds the key of `D`. -/
theorem exec_key (E : Env) (n : Nat) (D : DeclId) (s s' : ForwardDeclPrinter)
    (h : exec E n D s = some s') :
    (s'.m_Visited.find (getCanonicalOrNamespace E D)).isSome := by
  cases n with
  | zero => simp [exec] at h
  | succ n =>
    have hstep := exec_step E (n + 1) D s s' h
    simp only [exec] at h
    unfold Visit at h
    cases hfind : s.m_Visited.find (getCanonicalOrNamespace E D) with
    | some b => exact hstep.keys _ (by simp [hfind])
    | none =>
      rw [hfind] at h
      dsimp only at h
      have hc : ((shouldSkip E D (s.setVisited (getCanonicalOrNamespace E D) true)).2.m_Visited.find
          (getCanonicalOrNamespace E D)).isSome :=
        shouldSkip_keys E D _ _ (by simp [find_setVisited])
      by_cases hskip : (shouldSkip E D (s.setVisited (getCanonicalOrNamespace E D) true)).1 = true
      · rw [if_pos hskip] at h
        have := Option.some.inj h
        rw [← this]
        simp [find_setVisited]
      · rw [if_neg hskip] at h
        cases hdisp : DeclVisitor_Visit E (exec E n) D
            ((shouldSkip E D (s.setVisited (getCanonicalOrNamespace E D) true)).2.traceDispatched
              D) with
        | none => rw [hdisp] at h; simp at h
        | some s3 =>
          rw [hdisp] at h
          simp only [Option.bind] at h
          have hV : ∀ d, Triple True (fun _ => True) (Step E) (exec E n d) := by
            intro d s1 _
            cases h1 : exec E n d s1 with
            | none => trivial
            | some s2 => exact ⟨exec_step E n d s1 s2 h1, trivial⟩
          have hF : Frame (fun _ => True) (Step E) :=
            Step_frame E _ (fun _ _ _ _ => trivial) (fun _ _ _ => trivial) (fun _ _ => trivial)
          have hpost := DeclVisitor_Visit_post hF E hV D
            ((shouldSkip E D (s.setVisited (getCanonicalOrNamespace E D) true)).2.traceDispatched
              D) trivial
          rw [hdisp] at hpost
          have h3 : (s3.m_Visited.find (getCanonicalOrNamespace E D)).isSome :=
            hpost.1.keys _ hc
          split_ifs at h
          · have := Option.some.inj h
            rw [← this]
            simp [find_setVisited]
          · have := Option.some.inj h
            rw [← this]
            exact h3

theorem Run_nil (E : Env) (s : ForwardDeclPrinter) : Run E s s [] :=
  ⟨fun _ h => h, fun h => h, by simp, by simp, by simp, rfl, fun _ => rfl⟩

theorem Run_append {E : Env} {a b c : ForwardDeclPrinter} {l1 l2 : List DeclId}
    (h1 : Run E a b l1) (h2 : Run E b c l2) : Run E a c (l1 ++ l2) := by
  refine ⟨fun k h => h2.keys k (h1.keys k h), fun h => h2.inv (h1.inv h), ?_, ?_, ?_,
    h2.rest.trans h1.rest, ?_⟩
  · rw [h2.driver, h1.driver, List.append_assoc]
  · intro D hD
    rcases List.mem_append.mp hD with h | h
    · exact h2.keys _ (h1.visited D h)
    · exact h2.visited D h
  · intro hne
    by_cases hl2 : l2 = []
    · rw [h2.same hl2]
      subst hl2
      simp only [List.append_nil] at hne
      exact h1.flag hne
    · exact h2.flag hl2
  · intro hnil
    have h12 := List.append_eq_nil.mp hnil
    rw [h2.same h12.2, h1.same h12.1]

/-- One iteration of the loop over a group: `Visit(D)`, then `skipCurrentDecl(false)`. -/
theorem Run_visit (E : Env) (n : Nat) (D : DeclId) (s s1 : ForwardDeclPrinter)
    (h : exec E n D (s.traceDriven D) = some s1) : Run E s (s1.skipCurrentDecl false) [D] := by
  have hstep := exec_step E n D _ s1 h
  refine ⟨hstep.keys, hstep.inv, ?_, ?_, fun _ => rfl, hstep.rest, fun hnil => ?_⟩
  · show s1.traceDriver = _
    rw [hstep.driver]; rfl
  · intro D' hD'
    simp only [List.mem_singleton] at hD'
    subst hD'
    exact exec_key E n D' _ s1 h
  · simp at hnil

theorem ctor_group_run (E : Env) (n : Nat) (l : List DeclId) :
    ∀ (s s' : ForwardDeclPrinter), ctor_group E (exec E n) l s = some s' →
      Run E s s' (l.filter fun D => (E.decl D).isInTranslationUnit) := by
  induction l with
  | nil =>
    intro s s' h
    simp only [ctor_group, Option.some.injEq] at h
    subst h
    exact Run_nil E s
  | cons D rest ih =>
    intro s s' h
    rw [ctor_group] at h
    by_cases hTU : (E.decl D).isInTranslationUnit = true
    · simp only [hTU, Bool.not_true, Bool.false_eq_true, if_false] at h
      cases hv : exec E n D (s.traceDriven D) with
      | none => rw [hv] at h; simp at h
      | some s1 =>
        rw [hv] at h
        simp only [Option.bind] at h
        have h1 := Run_visit E n D s s1 hv
        have h2 := ih _ _ h
        have := Run_append h1 h2
        simpa [List.filter_cons, hTU] using this
    · simp only [Bool.not_eq_true] at hTU
      simp only [hTU, Bool.not_false, if_true] at h
      have := ih _ _ h
      simpa [List.filter_cons, hTU] using this

theorem ctor_group_total (E : Env) (n : Nat) (hn : (allKeys E).length < n) (l : List DeclId) :
    ∀ (s : ForwardDeclPrinter), ∃ s', ctor_group E (exec E n) l s = some s' := by
  induction l with
  | nil => intro s; exact ⟨s, rfl⟩
  | cons D rest ih =>
    intro s
    rw [ctor_group]
    split_ifs
    · exact ih s
    · obtain ⟨s1, h1, _⟩ := exec_total E n (allKeys E).length hn D (s.traceDriven D)
        (unvisited_le_length E _)
      rw [h1]
      exact ih _

end ForwardDeclPrinter

end cling

namespace cling

namespace ForwardDeclPrinter

/-! ## The run of the constructor -/

theorem ctor_decls_run (E : Env) (n : Nat) (l : List DelayCallInfo) :
    ∀ (s s' : ForwardDeclPrinter), ctor_decls E (exec E n) l s = some s' →
      Run E s s' (driverDeclsOf E l) := by
  induction l with
  | nil =>
    intro s s' h
    simp only [ctor_decls, Option.some.injEq] at h
    subst h
    exact Run_nil E s
  | cons dci rest ih =>
    intro s s' h
    rw [ctor_decls] at h
    cases hg : dci.m_DGR with
    | none =>
      rw [hg] at h
      simp only [Option.some.injEq] at h
      subst h
      have : driverDeclsOf E (dci :: rest) = [] := by
        simp [driverDeclsOf, List.takeWhile_cons, hg]
      rw [this]
      exact Run_nil E s
    | some group =>
      rw [hg] at h
      simp only [] at h
      by_cases hcall : dci.m_Call = .kCCIHandleTopLevelDecl
      · rw [if_pos hcall] at h
        cases hgr : ctor_group E (exec E n) group s with
        | none => rw [hgr] at h; simp at h
        | some s1 =>
          rw [hgr] at h
          simp only [Option.bind] at h
          have h1 := ctor_group_run E n group s s1 hgr
          have h2 := ih s1 s' h
          have := Run_append h1 h2
          have e : driverDeclsOf E (dci :: rest) =
              (group.filter fun D => (E.decl D).isInTranslationUnit) ++ driverDeclsOf E rest := by
            simp [driverDeclsOf, List.takeWhile_cons, hg, List.filter_cons, hcall]
          rw [e]
          exact this
      · rw [if_neg hcall] at h
        have e : driverDeclsOf E (dci :: rest) = driverDeclsOf E rest := by
          simp [driverDeclsOf, List.takeWhile_cons, hg, List.filter_cons, hcall]
        rw [e]
        exact ih s s' h

theorem ctor_decls_total (E : Env) (n : Nat) (hn : (allKeys E).length < n)
    (l : List DelayCallInfo) :
    ∀ (s : ForwardDeclPrinter), ∃ s', ctor_decls E (exec E n) l s = some s' := by
  induction l with
  | nil => intro s; exact ⟨s, rfl⟩
  | cons dci rest ih =>
    intro s
    rw [ctor_decls]
    cases hg : dci.m_DGR with
    | none => exact ⟨s, rfl⟩
    | some group =>
      simp only []
      split_ifs
      · obtain ⟨s1, h1⟩ := ctor_group_total E n hn group s
        rw [h1]
        exact ih s1
      · exact ih s

theorem Out_Out (s : ForwardDeclPrinter) (a b : String) : (s.Out a).Out b = s.Out (a ++ b) := by
  simp [ForwardDeclPrinter.Out, String.append_assoc]

theorem Out_empty (s : ForwardDeclPrinter) : s.Out "" = s := by
  simp [ForwardDeclPrinter.Out]

theorem ctor_tokens_eq (name : String) (l : List Token) (s : ForwardDeclPrinter)
    (m : List String) :
    ctor_tokens name l (s, m) =
      (s.Out (tokensText l), m ++ l.map fun _ => name) := by
  induction l generalizing s m with
  | nil => simp [ctor_tokens, tokensText, Out_empty]
  | cons t rest ih =>
    rw [ctor_tokens, ih]
    simp [tokensText, Out_Out, List.append_assoc]

theorem definesText_cons (d : MacroDirectiveInfo) (rest : List MacroDirectiveInfo) :
    definesText (d :: rest) = (if isEmitted d then defineLine d else "") ++ definesText rest := by
  unfold definesText
  by_cases h : isEmitted d = true
  · simp [List.filter_cons, h, concatLines]
  · simp [List.filter_cons, h, concatLines]

theorem undefNames_cons (d : MacroDirectiveInfo) (rest : List MacroDirectiveInfo) :
    undefNames (d :: rest) =
      (if isEmitted d then d.getMacroInfo.tokens.map fun _ => d.m_II else []) ++
        undefNames rest := by
  unfold undefNames
  by_cases h : isEmitted d = true
  · simp [List.filter_cons, h]
  · simp [List.filter_cons, h]

/-- The macro pass writes one line per emitted definition, in the order of the
macro table, and records the names to undefine. -/
theorem ctor_macros_eq (l : List MacroDirectiveInfo) (s : ForwardDeclPrinter)
    (m : List String) :
    ctor_macros l (s, m) = (s.Out (definesText l), m ++ undefNames l) := by
  induction l generalizing s m with
  | nil => simp [ctor_macros, definesText, undefNames, concatLines, Out_empty]
  | cons d rest ih =>
    rw [ctor_macros, definesText_cons, undefNames_cons]
    by_cases hk : d.getKind = .MD_Define
    · by_cases ht : d.getMacroInfo.tokens.length > 1
      · have hne : ¬ d.getMacroInfo.tokens.length ≤ 1 := by omega
        simp only [hk, if_true, ht, ih]
        simp [isEmitted, hk, hne]
      · have hle : d.getMacroInfo.tokens.length ≤ 1 := by omega
        simp only [hk, if_true, ht, if_false, ctor_tokens_eq, ih]
        simp [isEmitted, hk, hle, Out_Out, defineLine, String.append_assoc,
          List.append_assoc]
    · simp only [hk, if_false, ih]
      simp [isEmitted, hk]

theorem ctor_undefs_eq (l : List String) (s : ForwardDeclPrinter) :
    ctor_undefs l s = s.Out (undefsText l) := by
  induction l generalizing s with
  | nil => simp [ctor_undefs, undefsText, concatLines, Out_empty]
  | cons m rest ih =>
    rw [ctor_undefs, ih]
    simp [undefsText, concatLines, undefLine, Out_Out, String.append_assoc]

/-- The whole run: the first lines, the definitions of the macro pass, the
declarations, and the lines that undefine the recorded names. -/
theorem ctor_eq (E : Env) (fuel : Nat) (T : Transaction) (Indentation : Nat)
    (printMacros : Bool) :
    ctor E fuel T Indentation printMacros =
      (ctor_decls E (exec E fuel) T.decls
        ((ctor_init Indentation).Out (if printMacros then definesText T.macros else ""))).bind
        fun s => some (s.Out (if printMacros then undefsText (undefNames T.macros) else "")) := by
  unfold ctor
  cases printMacros with
  | false => simp [Out_empty]
  | true => simp [ctor_macros_eq, ctor_undefs_eq]

theorem Inv_ctor_init (E : Env) (Indentation : Nat) (t : String) :
    Inv E ((ctor_init Indentation).Out t) := by
  refine ⟨?_, ?_⟩
  · show (List.map _ ([] : List DeclId)).Nodup
    simp
  · intro d hd
    have : d ∈ ([] : List DeclId) := hd
    simp at this

/-- Every run that returns: its relation to the initial state. -/
theorem ctor_run (E : Env) (fuel : Nat) (T : Transaction) (Indentation : Nat)
    (printMacros : Bool) (s : ForwardDeclPrinter)
    (h : ctor E fuel T Indentation printMacros = some s) :
    ∃ s1, Run E ((ctor_init Indentation).Out (if printMacros then definesText T.macros else ""))
        s1 (driverDecls E T) ∧
      s = s1.Out (if printMacros then undefsText (undefNames T.macros) else "") := by
  rw [ctor_eq] at h
  cases hd : ctor_decls E (exec E fuel) T.decls
      ((ctor_init Indentation).Out (if printMacros then definesText T.macros else "")) with
  | none => rw [hd] at h; simp at h
  | some s1 =>
    rw [hd] at h
    simp only [Option.bind, Option.some.injEq] at h
    exact ⟨s1, ctor_decls_run E fuel T.decls _ s1 hd, h.symm⟩

/-! ## C1 -/

/-- C1: per canonical key the render routine is dispatched at most once.  A
`Visit` of a declaration whose key is in the Visit State Table returns without
a dispatch and without a write to the output (whatever the recursive calls would
do); a key, once in the table, stays in it through every later `Visit`; and in
the dispatch trace of a whole run no key occurs twice. -/
theorem Visit_dispatches_each_key_at_most_once (E : Env) :
    (∀ (V : DeclVisit) (D : DeclId) (s : ForwardDeclPrinter),
        (s.m_Visited.find (getCanonicalOrNamespace E D)).isSome →
        ∃ s', Visit E V D s = some s' ∧ s'.traceDispatch = s.traceDispatch ∧
          s'.streamTop = s.streamTop ∧ s'.streamRest = s.streamRest) ∧
    (∀ (n : Nat) (D : DeclId) (s s' : ForwardDeclPrinter) (k : DeclId),
        exec E n D s = some s' → (s.m_Visited.find k).isSome → (s'.m_Visited.find k).isSome) ∧
    (∀ (fuel : Nat) (T : Transaction) (Indentation : Nat) (printMacros : Bool)
        (s : ForwardDeclPrinter), ctor E fuel T Indentation printMacros = some s →
        (s.traceDispatch.map (getCanonicalOrNamespace E)).Nodup) := by
  refine ⟨?_, ?_, ?_⟩
  · intro V D s hs
    unfold Visit
    cases hfind : s.m_Visited.find (getCanonicalOrNamespace E D) with
    | none => rw [hfind] at hs; simp at hs
    | some b =>
      dsimp only
      split_ifs
      · exact ⟨_, rfl, rfl, rfl, rfl⟩
      · exact ⟨_, rfl, rfl, rfl, rfl⟩
  · intro n D s s' k h hk
    exact (exec_step E n D s s' h).keys k hk
  · intro fuel T Indentation printMacros s h
    obtain ⟨s1, hrun, hs⟩ := ctor_run E fuel T Indentation printMacros s h
    have := (hrun.inv (Inv_ctor_init E Indentation _)).1
    rw [hs]
    exact this

/-- C1 at a concrete input: in the run over the two typedefs that name each
other, each of the two keys is dispatched once. -/
theorem Visit_dispatches_each_key_at_most_once_witness :
    (∃ s, ctor cyclicUnit 4 cyclicTransaction 0 false = some s ∧
      (s.traceDispatch.map (getCanonicalOrNamespace cyclicUnit)).Nodup) ∧
    (ctor cyclicUnit 4 cyclicTransaction 0 false).map (fun s => s.traceDispatch) =
      some [0, 1] :=
  ⟨(Option.isSome_iff_exists.mp
      (show (ctor cyclicUnit 4 cyclicTransaction 0 false).isSome = true by decide!)).elim
      fun s hs => ⟨s, hs,
        (Visit_dispatches_each_key_at_most_once cyclicUnit).2.2 4 cyclicTransaction 0 false s hs⟩,
    by decide!⟩

/-! ## C2 -/

/-- C2 as stated fails: the top-level list of `cycleBehindNullGroup` contains
the typedefs `A` and `B`, in the translation unit, behind a null group.  The
run returns, and the Visit State Table holds an entry neither for `A` nor for
`B`: the loop ends at the null group (line 78). -/
theorem ctor_records_nothing_behind_null_group :
    topLevelDecls cyclicUnit cycleBehindNullGroup = [0, 1] ∧
    (ctor cyclicUnit 4 cycleBehindNullGroup 0 false).map
        (fun s => (s.m_Visited.find (getCanonicalOrNamespace cyclicUnit 0),
          s.m_Visited.find (getCanonicalOrNamespace cyclicUnit 1))) = some (none, none) := by
  decide!

/-- C2, amended: a run terminates on every declaration graph, cyclic or not:
with a bound on the depth of the recursion above the number of keys of the
unit, the constructor returns, and the Visit State Table then holds an entry
for every declaration that the loop passes to `Visit`: the declarations in the
translation unit of the top-level groups before the first null group. -/
theorem ctor_terminates (E : Env) (T : Transaction) (Indentation : Nat) (printMacros : Bool)
    (fuel : Nat) (hfuel : (allKeys E).length < fuel) :
    ∃ s, ctor E fuel T Indentation printMacros = some s ∧
      ∀ D ∈ driverDecls E T,
        ∃ emittable, s.m_Visited.find (getCanonicalOrNamespace E D) = some emittable := by
  obtain ⟨s1, h1⟩ := ctor_decls_total E fuel hfuel T.decls
    ((ctor_init Indentation).Out (if printMacros then definesText T.macros else ""))
  have hc : ctor E fuel T Indentation printMacros =
      some (s1.Out (if printMacros then undefsText (undefNames T.macros) else "")) := by
    rw [ctor_eq, h1]; rfl
  refine ⟨_, hc, fun D hD => ?_⟩
  have hrun := ctor_decls_run E fuel T.decls _ s1 h1
  have := hrun.visited D hD
  exact Option.isSome_iff_exists.mp this

/-- C2, amended, at a concrete input: the run over the two typedefs that name
each other returns, and both are recorded (emittable, by the optimistic answer
given to the reference that closes the cycle). -/
theorem ctor_terminates_witness :
    (∃ s, ctor cyclicUnit 4 cyclicTransaction 0 false = some s ∧
      ∀ D ∈ driverDecls cyclicUnit cyclicTransaction,
        ∃ emittable,
          s.m_Visited.find (getCanonicalOrNamespace cyclicUnit D) = some emittable) ∧
    driverDecls cyclicUnit cyclicTransaction = [0, 1] ∧
    (ctor cyclicUnit 4 cyclicTransaction 0 false).map (fun s => s.m_Visited) =
      some [(0, true), (1, true)] :=
  ⟨ctor_terminates cyclicUnit cyclicTransaction 0 false 4 (by decide), by decide, by decide!⟩

/-! ## C7 -/

/-- C7 as stated fails: a top-level group behind a null group is left
unprocessed.  In `nullGroupTransaction` the typedef `A` is in a top-level group
and in the translation unit, and the loop never passes it to `Visit`. -/
theorem ctor_stops_at_null_group :
    topLevelDecls cyclicUnit nullGroupTransaction = [0] ∧
    (ctor cyclicUnit 4 nullGroupTransaction 0 false).map (fun s => s.traceDriver) = some [] ∧
    (ctor cyclicUnit 4 nullGroupTransaction 0 false).map (fun s => s.m_Visited) = some [] := by
  decide!

/-- C7, amended: the loop passes to `Visit`, once each and in the original
order, exactly the declarations in the translation unit of the top-level groups
that come before the first null group; the run returns, the skip signal is
clear at the end of the run, and it is clear after every group that delivered a
declaration. -/
theorem ctor_visits_driverDecls_in_order (E : Env) (T : Transaction) (Indentation : Nat)
    (printMacros : Bool) (fuel : Nat) (hfuel : (allKeys E).length < fuel) :
    (∃ s, ctor E fuel T Indentation printMacros = some s ∧
      s.traceDriver = driverDecls E T ∧ s.m_SkipFlag = false) ∧
    (∀ (group : List DeclId) (s s' : ForwardDeclPrinter),
      ctor_group E (exec E fuel) group s = some s' →
      (group.filter fun D => (E.decl D).isInTranslationUnit) ≠ [] → s'.m_SkipFlag = false) := by
  refine ⟨?_, fun group s s' h hne => (ctor_group_run E fuel group s s' h).flag hne⟩
  obtain ⟨s1, h1⟩ := ctor_decls_total E fuel hfuel T.decls
    ((ctor_init Indentation).Out (if printMacros then definesText T.macros else ""))
  have hc : ctor E fuel T Indentation printMacros =
      some (s1.Out (if printMacros then undefsText (undefNames T.macros) else "")) := by
    rw [ctor_eq, h1]; rfl
  have hrun := ctor_decls_run E fuel T.decls _ s1 h1
  refine ⟨_, hc, ?_, ?_⟩
  · show s1.traceDriver = _
    rw [hrun.driver]
    show ([] : List DeclId) ++ _ = _
    simp [driverDecls]
  · show s1.m_SkipFlag = false
    by_cases hne : driverDeclsOf E T.decls = []
    · rw [hrun.same hne]; rfl
    · exact hrun.flag hne

/-- C7, amended, at a concrete input: the run over the two typedefs passes
`A`, then `B`, to `Visit`. -/
theorem ctor_visits_driverDecls_in_order_witness :
    (∃ s, ctor cyclicUnit 4 cyclicTransaction 0 false = some s ∧
      s.traceDriver = driverDecls cyclicUnit cyclicTransaction ∧ s.m_SkipFlag = false) ∧
    driverDecls cyclicUnit cyclicTransaction = [0, 1] :=
  ⟨(ctor_visits_driverDecls_in_order cyclicUnit cyclicTransaction 0 false 4 (by decide)).1,
    by decide⟩

/-! ## C4 -/

/-- C4: the first `Visit` of a function that is anonymous, or whose name begins
with an underscore, or that is static, a class member, an operator (its name
begins with `operator`, the test of `isOperator`) or deleted, dispatches to no
render routine, writes nothing to the output, records the key as not-emittable,
sets the skip signal and increments the skip counter - whatever the visits of
its types would do (`V` is arbitrary and is never called). -/
theorem Visit_skips_ineligible_function (E : Env) (V : DeclVisit) (D : DeclId)
    (F : FunctionDecl) (s : ForwardDeclPrinter)
    (hkind : (E.decl D).kind = .Function F)
    (hpolicy : (E.decl D).getIdentifier = none
      ∨ (E.decl D).getNameAsString.toList.head? = some '_'
      ∨ F.getStorageClass = .SC_Static
      ∨ F.isCXXClassMember = true
      ∨ isOperator (E.decl D) = true
      ∨ F.isDeleted = true
      ∨ F.isDeletedAsWritten = true)
    (hfirst : s.m_Visited.find (getCanonicalOrNamespace E D) = none) :
    ∃ s', Visit E V D s = some s' ∧
      s'.traceDispatch = s.traceDispatch ∧
      s'.streamTop = s.streamTop ∧ s'.streamRest = s.streamRest ∧
      s'.m_Visited.find (getCanonicalOrNamespace E D) = some false ∧
      s'.m_SkipFlag = true ∧
      s'.m_SkipCounter = s.m_SkipCounter + 1 := by
  have hpred : shouldSkipImpl_FunctionDecl (E.decl D) F = true := by
    unfold shouldSkipImpl_FunctionDecl
    rcases hpolicy with h | h | h | h | h | h | h
    · simp [h]
    · have h2 : (E.decl D).getNameAsString.data.head? = some '_' := h
      simp [h2]
    all_goals simp [h]
  have hskip := shouldSkip_function E D F (s.setVisited (getCanonicalOrNamespace E D) true)
    hkind hpred
  unfold Visit
  rw [hfirst]
  simp only [hskip, if_true]
  exact ⟨_, rfl, rfl, rfl, rfl, by simp [find_setVisited], rfl, rfl⟩

/-- C4 at a concrete input: the first visit of `static int hidden();`. -/
theorem Visit_skips_ineligible_function_witness :
    ∃ s', Visit hiddenUnit (exec hiddenUnit 0) 0 (ctor_init 0) = some s' ∧
      s'.traceDispatch = (ctor_init 0).traceDispatch ∧
      s'.streamTop = (ctor_init 0).streamTop ∧ s'.streamRest = (ctor_init 0).streamRest ∧
      s'.m_Visited.find (getCanonicalOrNamespace hiddenUnit 0) = some false ∧
      s'.m_SkipFlag = true ∧
      s'.m_SkipCounter = (ctor_init 0).m_SkipCounter + 1 :=
  Visit_skips_ineligible_function hiddenUnit (exec hiddenUnit 0) 0
    { getStorageClass := .SC_Static, getNameInfo := "hidden" } (ctor_init 0) rfl
    (Or.inr (Or.inr (Or.inl rfl))) rfl

/-! ## C5 -/

/-- C5 as stated fails: the second visit of a declaration that was skipped
increments both counters.  `static int hidden();` delivered twice: after the
first visit the counters are 1 and 2, after the second they are 2 and 4 (the
second visit and the driver's reset count once more each). -/
theorem second_visit_of_skipped_counts_again :
    (ctor hiddenUnit 2 { decls := [{ m_DGR := some [0] }] } 0 false).map
        (fun s => (s.m_SkipCounter, s.m_TotalDecls, s.m_Visited)) = some (1, 2, [(0, false)]) ∧
    (ctor hiddenUnit 2 hiddenTwice 0 false).map
        (fun s => (s.m_SkipCounter, s.m_TotalDecls, s.m_Visited)) = some (2, 4, [(0, false)]) ∧
    (Visit hiddenUnit (exec hiddenUnit 1) 0 { m_Visited := [(0, false)] }).map
        (fun s => (s.m_SkipCounter, s.m_TotalDecls)) = some (1, 1) := by
  decide!

/-- C5, amended: a visit of a declaration whose key is in the table is a
lookup: it dispatches nothing and writes nothing; when the first visit ended
emittable the state is left as it is (both counters unchanged); when it ended
skipped the skip signal is set and both counters are incremented by one. -/
theorem second_Visit_is_a_lookup (E : Env) (V : DeclVisit) (D : DeclId)
    (s : ForwardDeclPrinter) (emittable : Bool)
    (hseen : s.m_Visited.find (getCanonicalOrNamespace E D) = some emittable) :
    ∃ s', Visit E V D s = some s' ∧
      s'.traceDispatch = s.traceDispatch ∧ s'.m_Visited = s.m_Visited ∧
      s'.streamTop = s.streamTop ∧ s'.streamRest = s.streamRest ∧
      (emittable = true → s' = s) ∧
      (emittable = false → s'.m_SkipFlag = true ∧
        s'.m_SkipCounter = s.m_SkipCounter + 1 ∧ s'.m_TotalDecls = s.m_TotalDecls + 1) := by
  unfold Visit
  rw [hseen]
  cases emittable with
  | true => exact ⟨s, rfl, rfl, rfl, rfl, rfl, fun _ => rfl, fun h => by simp at h⟩
  | false =>
    exact ⟨s.skipCurrentDecl true, rfl, rfl, rfl, rfl, rfl, fun h => by simp at h,
      fun _ => ⟨rfl, rfl, rfl⟩⟩

/-- C5, amended, at a concrete input: the second visit of `hidden`. -/
theorem second_Visit_is_a_lookup_witness :
    ∃ s', Visit hiddenUnit (exec hiddenUnit 1) 0 { m_Visited := [(0, false)] } = some s' ∧
      s'.traceDispatch = [] ∧ s'.m_Visited = [(0, false)] ∧
      s'.streamTop = "" ∧ s'.streamRest = [] ∧
      (false = true → s' = { m_Visited := [(0, false)] }) ∧
      (false = false → s'.m_SkipFlag = true ∧
        s'.m_SkipCounter = 0 + 1 ∧ s'.m_TotalDecls = 0 + 1) :=
  second_Visit_is_a_lookup hiddenUnit (exec hiddenUnit 1) 0 { m_Visited := [(0, false)] }
    false rfl

/-! ## C9 -/

/-- C9, the failing input: with macro printing enabled and the macro table
`#define ID(x) x` - a function-like macro with one replacement token - the run
writes the line `#define ID identifier ` and the line `#undef ID`: the test of
line 61 counts the replacement tokens and never asks whether the macro is
function-like, although the comment under it (line 62) says that function-like
macros can not be displayed. -/
theorem ctor_defines_function_like_macro :
    identityMacro.getMacroInfo.isFunctionLike = true ∧
    identityMacro.getMacroInfo.tokens.length = 1 ∧
    (ctor_macros [identityMacro] (ctor_init 0, [])).1.streamTop =
      (ctor_init 0).streamTop ++ "#define ID identifier \n" ∧
    (ctor cyclicUnit 1 { macros := [identityMacro], decls := [] } 0 true).map
        (fun s => s.streamTop) =
      some ((ctor_init 0).streamTop ++ "#define ID identifier \n" ++ "#undef ID\n") := by
  decide!

/-! ## C10 -/

/-- C10, the failing input: with macro printing enabled and the macro table
`#define EMPTY`, the run writes the line `#define EMPTY ` and no `#undef` line:
`macrodefs` receives a name per replacement token (line 68 is inside the loop
over the tokens), and this definition has none. -/
theorem ctor_does_not_undefine_tokenless_macro :
    (ctor cyclicUnit 1 { macros := [emptyMacro], decls := [] } 0 true).map
        (fun s => s.streamTop) = some ((ctor_init 0).streamTop ++ "#define EMPTY \n") ∧
    (ctor_macros [emptyMacro] (ctor_init 0, [])).2 = [] := by
  decide!

/-! ## C8 -/

/-- C8, the failing input: `void f(int a, int b);`.  The visit of the return
type and the visits of both parameters succeed (the skip signal stays clear),
yet `VisitFunctionDecl` returns right after the visit of the first parameter
(the `return` of line 340 is not under the `if` of line 338): it commits no
text to the enclosing buffer, the second parameter is never visited, and the
run over the unit writes nothing for `f` although `f` is recorded emittable. -/
theorem VisitFunctionDecl_returns_after_first_parameter :
    (VisitQualType (exec twoParamUnit 2) twoParamFunction.getReturnType (ctor_init 0)).map
        (fun s => s.m_SkipFlag) = some false ∧
    (Visit twoParamUnit (exec twoParamUnit 2) 1 (ctor_init 0)).map
        (fun s => s.m_SkipFlag) = some false ∧
    (Visit twoParamUnit (exec twoParamUnit 2) 2 (ctor_init 0)).map
        (fun s => s.m_SkipFlag) = some false ∧
    (VisitFunctionDecl twoParamUnit (exec twoParamUnit 2) (twoParamUnit.decl 0)
        twoParamFunction (ctor_init 0)).map
        (fun s => (s.streamTop, s.streamRest, s.m_SkipFlag, s.m_Visited)) =
      some ((ctor_init 0).streamTop, [], false, [(1, true)]) ∧
    (ctor twoParamUnit 4 { decls := [{ m_DGR := some [0] }] } 0 false).map
        (fun s => (s.streamTop, s.m_Visited)) =
      some ((ctor_init 0).streamTop, [(0, true), (1, true)]) := by
  decide!

/-! ## C6 -/

/-- The loop over the members of a namespace returns; `haveAnyDecl` says whether
a member visit succeeded, and the enclosing buffers are as before. -/
theorem VisitNamespaceDecl_decls_spec (E : Env) (n : Nat) (hn : (allKeys E).length < n)
    (l : List DeclId) :
    ∀ (b : Bool) (s : ForwardDeclPrinter),
      ∃ r, VisitNamespaceDecl_decls (exec E n) l b s = some r ∧
        r.1 = (b || (VisitNamespaceDecl_outcomes (exec E n) l s).any id) ∧
        (VisitNamespaceDecl_outcomes (exec E n) l s).length = l.length ∧
        r.2.streamRest = s.streamRest := by
  induction l with
  | nil => intro b s; exact ⟨(b, s), rfl, by simp [VisitNamespaceDecl_outcomes], rfl, rfl⟩
  | cons d rest ih =>
    intro b s
    obtain ⟨s1, h1, hstep⟩ := exec_total E n (allKeys E).length hn d s
      (unvisited_le_length E _)
    obtain ⟨r, hr, hb, hlen, hrest⟩ := ih (b || !s1.m_SkipFlag) (s1.skipCurrentDecl false)
    refine ⟨r, ?_, ?_, ?_, ?_⟩
    · rw [VisitNamespaceDecl_decls, h1]; exact hr
    · rw [hb]
      simp only [VisitNamespaceDecl_outcomes, h1, List.any_cons, id, Bool.or_assoc]
    · simp only [VisitNamespaceDecl_outcomes, h1, List.length_cons, hlen]
    · rw [hrest]; exact hstep.rest

/-- C6: `VisitNamespaceDecl` renders the members of the namespace into a nested
buffer (the enclosing buffers lie untouched below it) and returns; when at
least one member visit succeeded, or when the redeclaration `D` is its own
canonical declaration, it appends `namespace <name> {\n`, the buffered member
text and `}\n`, with `inline ` in front for an inline namespace, to the
enclosing buffer; otherwise (every member visit signalled skip and `D` is not
its own canonical declaration) the enclosing buffer is exactly as before. -/
theorem VisitNamespaceDecl_wraps_members (E : Env) (n : Nat) (Did : DeclId) (D : Decl)
    (N : NamespaceDecl) (s : ForwardDeclPrinter) (hn : (allKeys E).length < n) :
    ∃ r s', VisitNamespaceDecl_decls (exec E n) N.decls false s.StreamRAII_push = some r ∧
      VisitNamespaceDecl (exec E n) Did D N s = some s' ∧
      r.1 = (VisitNamespaceDecl_outcomes (exec E n) N.decls s.StreamRAII_push).any id ∧
      (VisitNamespaceDecl_outcomes (exec E n) N.decls s.StreamRAII_push).length =
        N.decls.length ∧
      r.2.streamRest = s.streamTop :: s.streamRest ∧
      s'.streamRest = s.streamRest ∧
      s'.streamTop =
        if r.1 || Did == D.getCanonicalDecl then
          s.streamTop ++ (if N.isInline then "inline " else "") ++
            ("namespace " ++ D.getNameAsString ++ " \x7b\n" ++ r.2.streamTop ++ "\x7d\n")
        else s.streamTop := by
  obtain ⟨r, hr, hb, hlen, hrest⟩ :=
    VisitNamespaceDecl_decls_spec E n hn N.decls false s.StreamRAII_push
  have hrest2 : r.2.streamRest = s.streamTop :: s.streamRest := hrest
  by_cases hc : (r.1 || Did == D.getCanonicalDecl) = true
  · refine ⟨r, (((r.2.StreamRAII_take true).2.Out (if N.isInline then "inline " else "")).Out
        ("namespace " ++ D.getNameAsString ++ " \x7b\n" ++ (r.2.StreamRAII_take true).1 ++
          "\x7d\n")).StreamRAII_exit true s.m_Policy,
      hr, ?hv, by simpa using hb, hlen, hrest2, ?h1, ?h2⟩
    case hv =>
      unfold VisitNamespaceDecl
      simp only [hr, Option.bind, hc, if_true]
    case h1 => simp [StreamRAII_exit, StreamRAII_take, popStream, Out, hrest2]
    case h2 =>
      simp [StreamRAII_exit, StreamRAII_take, popStream, Out, hrest2, hc, String.append_assoc]
  · refine ⟨r, r.2.StreamRAII_exit false s.m_Policy,
      hr, ?hv, by simpa using hb, hlen, hrest2, ?h1, ?h2⟩
    case hv =>
      unfold VisitNamespaceDecl
      simp only [hr, Option.bind, hc, if_false]
      rfl
    case h1 => simp [StreamRAII_exit, popStream, hrest2]
    case h2 => simp [StreamRAII_exit, popStream, hrest2, hc]

/-- C6 at a concrete input: `namespace N { static int hidden(); }`, whose only
member is skipped and which is its own canonical declaration. -/
theorem VisitNamespaceDecl_wraps_members_witness :
    ∃ r s', VisitNamespaceDecl_decls (exec namespaceUnit 4) hiddenNamespace.decls false
        (ctor_init 0).StreamRAII_push = some r ∧
      VisitNamespaceDecl (exec namespaceUnit 4) 1 (namespaceUnit.decl 1) hiddenNamespace
        (ctor_init 0) = some s' ∧
      r.1 = (VisitNamespaceDecl_outcomes (exec namespaceUnit 4) hiddenNamespace.decls
        (ctor_init 0).StreamRAII_push).any id ∧
      (VisitNamespaceDecl_outcomes (exec namespaceUnit 4) hiddenNamespace.decls
        (ctor_init 0).StreamRAII_push).length = hiddenNamespace.decls.length ∧
      r.2.streamRest = (ctor_init 0).streamTop :: (ctor_init 0).streamRest ∧
      s'.streamRest = (ctor_init 0).streamRest ∧
      s'.streamTop =
        if r.1 || (1 : DeclId) == (namespaceUnit.decl 1).getCanonicalDecl then
          (ctor_init 0).streamTop ++ (if hiddenNamespace.isInline then "inline " else "") ++
            ("namespace " ++ (namespaceUnit.decl 1).getNameAsString ++ " \x7b\n" ++
              r.2.streamTop ++ "\x7d\n")
        else (ctor_init 0).streamTop :=
  VisitNamespaceDecl_wraps_members namespaceUnit 4 1 (namespaceUnit.decl 1) hiddenNamespace
    (ctor_init 0) (by decide)

end ForwardDeclPrinter

end cling

namespace cling

namespace ForwardDeclPrinter

/-! ## Nested visits that write nothing -/

theorem Quiet_logFrame : LogFrame (fun _ => True) Quiet :=
  ⟨fun _ => ⟨rfl, rfl⟩, fun h1 h2 => ⟨h2.1.trans h1.1, h2.2.trans h1.2⟩,
    fun _ _ => trivial, fun _ _ => ⟨rfl, rfl⟩⟩

theorem Quiet_triple {V : DeclVisit} (hV : ∀ d a b, V d a = some b → Quiet a b) :
    ∀ d, Triple True (fun _ => True) Quiet (V d) := by
  intro d s _
  cases h : V d s with
  | none => trivial
  | some b => exact ⟨hV d s b h, trivial⟩

theorem VisitQualType_quiet {V : DeclVisit} (hV : ∀ d a b, V d a = some b → Quiet a b)
    (q : QualType) (s s1 : ForwardDeclPrinter) (h : VisitQualType V q s = some s1) :
    Quiet s s1 := by
  have := VisitType_post Quiet_logFrame (Quiet_triple hV) q.ty s trivial
  unfold VisitQualType at h
  rw [h] at this
  exact this.1

theorem VisitEach_quiet {V : DeclVisit} (hV : ∀ d a b, V d a = some b → Quiet a b)
    (l : List DeclId) : ∀ (s s1 : ForwardDeclPrinter), VisitEach V l s = some s1 →
      Quiet s s1 := by
  induction l with
  | nil =>
    intro s s1 h
    simp only [VisitEach, Option.some.injEq] at h
    subst h
    exact ⟨rfl, rfl⟩
  | cons d rest ih =>
    intro s s1 h
    rw [VisitEach] at h
    cases hv : V d s with
    | none => rw [hv] at h; simp at h
    | some s2 =>
      rw [hv] at h
      exact Quiet_logFrame.trans (hV d s s2 hv) (ih s2 s1 h)

theorem SameRest_frame : Frame (fun _ => True) SameRest where
  refl := fun _ => rfl
  trans := fun h1 h2 => Eq.trans h2 h1
  pres := fun _ _ => trivial
  core := fun h => congrArg Core.streamRest h
  push_pop := fun {s s1} _ h => by
    have h1 : s1.streamRest = s.streamTop :: s.streamRest := h
    show s1.streamRest.tail = s.streamRest
    rw [h1]; rfl
  push_A := fun _ _ => trivial
  pop_A := fun _ => trivial

theorem SameRest_triple {V : DeclVisit} (hV : ∀ d a b, V d a = some b → Quiet a b) :
    ∀ d, Triple True (fun _ => True) SameRest (V d) := by
  intro d s _
  cases h : V d s with
  | none => trivial
  | some b => exact ⟨(hV d s b h).2, trivial⟩

theorem VisitTypedefDecl_quiet {V : DeclVisit} (hV : ∀ d a b, V d a = some b → Quiet a b)
    (E : Env) (D : Decl) (q : QualType) (s s' : ForwardDeclPrinter)
    (h : VisitTypedefDecl E V D q s = some s') (hskip : s'.m_SkipFlag = true) :
    Quiet s s' := by
  unfold VisitTypedefDecl at h
  cases hq : VisitQualType V q s with
  | none => rw [hq] at h; simp at h
  | some s1 =>
    rw [hq] at h
    simp only [Option.bind] at h
    have hQ := VisitQualType_quiet hV q s s1 hq
    by_cases hflag : s1.m_SkipFlag = true
    · rw [if_pos hflag] at h
      injection h with h
      subst h
      exact hQ
    · rw [if_neg hflag] at h
      injection h with h
      subst h
      exact absurd hskip hflag

theorem VisitVarDecl_quiet {V : DeclVisit} (hV : ∀ d a b, V d a = some b → Quiet a b)
    (E : Env) (D : Decl) (VD : VarDecl) (s s' : ForwardDeclPrinter)
    (h : VisitVarDecl E V D VD s = some s') (hskip : s'.m_SkipFlag = true) :
    Quiet s s' := by
  unfold VisitVarDecl at h
  dsimp only at h
  generalize (match VD.getTypeSourceInfoType with
    | some t => t
    | none => E.getUnqualifiedObjCPointerType VD.getType) = T at h
  cases hq : VisitQualType V T s with
  | none => rw [hq] at h; simp at h
  | some s1 =>
    rw [hq] at h
    simp only [Option.bind] at h
    have hQ := VisitQualType_quiet hV T s s1 hq
    by_cases hflag : s1.m_SkipFlag = true
    · rw [if_pos hflag] at h
      injection h with h
      subst h
      exact hQ
    · rw [if_neg hflag] at h
      injection h with h
      subst h
      exact absurd hskip hflag

theorem VisitUsingDirectiveDecl_quiet {V : DeclVisit}
    (hV : ∀ d a b, V d a = some b → Quiet a b)
    (E : Env) (U : UsingDirectiveDecl) (s s' : ForwardDeclPrinter)
    (h : VisitUsingDirectiveDecl E V U s = some s') (hskip : s'.m_SkipFlag = true) :
    Quiet s s' := by
  unfold VisitUsingDirectiveDecl at h
  cases hq : V U.getNominatedNamespace s with
  | none => rw [hq] at h; simp at h
  | some s1 =>
    rw [hq] at h
    simp only [Option.bind] at h
    have hQ := hV _ s s1 hq
    by_cases hflag : s1.m_SkipFlag = true
    · rw [if_pos hflag] at h
      injection h with h
      subst h
      exact hQ
    · rw [if_neg hflag] at h
      injection h with h
      subst h
      exact absurd hskip hflag

theorem VisitUsingDecl_quiet {V : DeclVisit} (hV : ∀ d a b, V d a = some b → Quiet a b)
    (E : Env) (Did : DeclId) (shadows : List DeclId) (s s' : ForwardDeclPrinter)
    (h : VisitUsingDecl E V Did shadows s = some s') (hskip : s'.m_SkipFlag = true) :
    Quiet s s' := by
  unfold VisitUsingDecl at h
  cases hq : VisitEach V shadows s with
  | none => rw [hq] at h; simp at h
  | some s1 =>
    rw [hq] at h
    simp only [Option.bind] at h
    have hQ := VisitEach_quiet hV shadows s s1 hq
    by_cases hflag : s1.m_SkipFlag = true
    · rw [if_pos hflag] at h
      injection h with h
      subst h
      exact hQ
    · rw [if_neg hflag] at h
      injection h with h
      subst h
      exact absurd hskip hflag

theorem VisitUsingShadowDecl_quiet {V : DeclVisit}
    (hV : ∀ d a b, V d a = some b → Quiet a b)
    (target : DeclId) (s s' : ForwardDeclPrinter)
    (h : VisitUsingShadowDecl V target s = some s') : Quiet s s' := by
  unfold VisitUsingShadowDecl at h
  cases hq : V target s with
  | none => rw [hq] at h; simp at h
  | some s1 =>
    rw [hq] at h
    simp only [Option.bind] at h
    have hQ := hV _ s s1 hq
    by_cases hflag : s1.m_SkipFlag = true
    · rw [if_pos hflag] at h
      injection h with h
      subst h
      exact hQ
    · rw [if_neg hflag] at h
      injection h with h
      subst h
      exact hQ

theorem VisitLinkageSpecDecl_text {V : DeclVisit}
    (hV : ∀ d a b, V d a = some b → Quiet a b)
    (L : LinkageSpecDecl) (s s' : ForwardDeclPrinter)
    (h : VisitLinkageSpecDecl V L s = some s') :
    s'.streamTop = s.streamTop ++
      ("extern \"" ++ (if L.isLangC then "C" else "C++") ++ "\" " ++ "\x7b\n" ++
        (if L.hasBraces then "\x7d" else ";\x7d\n")) ∧
    s'.streamRest = s.streamRest := by
  unfold VisitLinkageSpecDecl at h
  dsimp only at h
  by_cases hb : L.hasBraces = true
  · rw [if_pos hb] at h
    cases hq : VisitEach V L.decls
        ((s.Out ("extern \"" ++ (if L.isLangC then "C" else "C++") ++ "\" ")).Out "\x7b\n") with
    | none => rw [hq] at h; simp at h
    | some s1 =>
      rw [hq] at h
      simp only [Option.bind, Option.some.injEq] at h
      subst h
      have hQ := VisitEach_quiet hV _ _ _ hq
      refine ⟨?_, hQ.2⟩
      show s1.streamTop ++ "\x7d" = _
      rw [hQ.1]
      simp [Out, hb, String.append_assoc]
  · rw [if_neg hb] at h
    have key : ∀ s1, (match L.decls with
        | first :: _ => V first
            ((s.Out ("extern \"" ++ (if L.isLangC then "C" else "C++") ++ "\" ")).Out "\x7b\n")
        | [] => some
            ((s.Out ("extern \"" ++ (if L.isLangC then "C" else "C++") ++ "\" ")).Out "\x7b\n"))
          = some s1 →
        Quiet ((s.Out ("extern \"" ++ (if L.isLangC then "C" else "C++") ++ "\" ")).Out "\x7b\n")
          s1 := by
      intro s1 h1
      cases hd : L.decls with
      | nil => rw [hd] at h1; injection h1 with h1; subst h1; exact ⟨rfl, rfl⟩
      | cons first rest => rw [hd] at h1; exact hV _ _ _ h1
    cases hq : (match L.decls with
        | first :: _ => V first
            ((s.Out ("extern \"" ++ (if L.isLangC then "C" else "C++") ++ "\" ")).Out "\x7b\n")
        | [] => some
            ((s.Out ("extern \"" ++ (if L.isLangC then "C" else "C++") ++ "\" ")).Out "\x7b\n"))
        with
    | none => rw [hq] at h; simp at h
    | some s1 =>
      rw [hq] at h
      simp only [Option.bind, Option.some.injEq] at h
      subst h
      have hQ := key s1 hq
      refine ⟨?_, hQ.2⟩
      show s1.streamTop ++ ";\x7d\n" = _
      rw [hQ.1]
      simp [Out, hb, String.append_assoc]

theorem VisitRedeclarableTemplateDecl_quiet {V : DeclVisit}
    (hV : ∀ d a b, V d a = some b → Quiet a b)
    (E : Env) (Did : DeclId) (T : RedeclarableTemplateDecl) (s s' : ForwardDeclPrinter)
    (h : VisitRedeclarableTemplateDecl E V Did T s = some s') (hskip : s'.m_SkipFlag = true) :
    Quiet s s' := by
  unfold VisitRedeclarableTemplateDecl at h
  dsimp only at h
  generalize (VisitRedeclarableTemplateDecl_redecls E T.redecls (Did, T)).2 = D at h
  cases hp : PrintTemplateParameters E V D.getTemplateParameters none s.StreamRAII_push with
  | none => rw [hp] at h; simp at h
  | some s1 =>
    have hR1 : s1.streamRest = s.streamTop :: s.streamRest := by
      have := PrintTemplateParameters_post SameRest_frame E (SameRest_triple hV)
        D.getTemplateParameters none s.StreamRAII_push trivial
      rw [hp] at this
      exact this.1
    rw [hp] at h
    simp only [Option.bind] at h
    cases hv : V D.getTemplatedDecl s1 with
    | none => rw [hv] at h; simp at h
    | some s2 =>
      rw [hv] at h
      simp only at h
      have hQ := hV _ s1 s2 hv
      have hR2 : s2.streamRest = s.streamTop :: s.streamRest := hQ.2.trans hR1
      by_cases hflag : s2.m_SkipFlag = true
      · simp only [hflag, Bool.not_true, Bool.false_eq_true, if_false,
          Option.some.injEq] at h
        subst h
        constructor
        · show s2.streamRest.headD s2.streamTop = s.streamTop
          rw [hR2]; rfl
        · show s2.streamRest.tail = s.streamRest
          rw [hR2]; rfl
      · simp only [Bool.not_eq_true] at hflag
        simp only [hflag, Bool.not_false, if_true, Option.some.injEq] at h
        subst h
        have : s2.m_SkipFlag = true := hskip
        rw [hflag] at this
        exact absurd this (by simp)

theorem VisitFunctionTemplateDecl_quiet {V : DeclVisit}
    (hV : ∀ d a b, V d a = some b → Quiet a b)
    (E : Env) (Did : DeclId) (T : RedeclarableTemplateDecl) (s s' : ForwardDeclPrinter)
    (hprint : s.m_PrintInstantiation = false)
    (h : VisitFunctionTemplateDecl E V Did T s = some s') (hskip : s'.m_SkipFlag = true) :
    Quiet s s' := by
  unfold VisitFunctionTemplateDecl at h
  simp only [hprint, Bool.false_eq_true, if_false, Option.bind] at h
  exact VisitRedeclarableTemplateDecl_quiet hV E Did T s s' h hskip

theorem VisitClassTemplateDecl_quiet {V : DeclVisit}
    (hV : ∀ d a b, V d a = some b → Quiet a b)
    (E : Env) (Did : DeclId) (T : RedeclarableTemplateDecl) (s s' : ForwardDeclPrinter)
    (hprint : s.m_PrintInstantiation = false)
    (h : VisitClassTemplateDecl E V Did T s = some s') (hskip : s'.m_SkipFlag = true) :
    Quiet s s' := by
  unfold VisitClassTemplateDecl at h
  simp only [hprint, Bool.false_eq_true, if_false, Option.bind] at h
  exact VisitRedeclarableTemplateDecl_quiet hV E Did T s s' h hskip

/-- A function that is not a K&R definition with parameters visits nothing
after its parameter list; the skip signal is then as before. -/
theorem VisitFunctionDecl_body_flag (V : DeclVisit) (F : FunctionDecl)
    (SubPolicy : PrintingPolicy) (s s' : ForwardDeclPrinter)
    (hKR : isKRDefinition F = false)
    (h : VisitFunctionDecl_body V F SubPolicy s = some s') :
    s'.m_SkipFlag = s.m_SkipFlag ∧ s'.streamRest = s.streamRest := by
  unfold VisitFunctionDecl_body at h
  have hno : ¬ (F.doesThisDeclarationHaveABody = true ∧
      (!F.hasPrototype && decide (F.params.length ≠ 0)) = true) := by
    intro hc
    unfold isKRDefinition at hKR
    rw [Bool.and_assoc, hc.1, Bool.true_and, hc.2] at hKR
    exact absurd hKR (by simp)
  split_ifs at h with h1 h2 h3 h4 h5
  all_goals first
    | (injection h with h; subst h; exact ⟨rfl, rfl⟩)
    | (exfalso; apply hno; simp_all)

theorem VisitFunctionDecl_rest_flag (E : Env) (V : DeclVisit) (D : Decl) (F : FunctionDecl)
    (FT : Option FunctionProtoType) (Proto : String) (SubPolicy streamPol : PrintingPolicy)
    (s s' : ForwardDeclPrinter) (hKR : isKRDefinition F = false)
    (h : VisitFunctionDecl_rest E V D F FT Proto SubPolicy streamPol s = some s') :
    s'.m_SkipFlag = s.m_SkipFlag := by
  unfold VisitFunctionDecl_rest at h
  dsimp only at h
  cases hb : VisitFunctionDecl_body V F SubPolicy
      ((s.Out (VisitFunctionDecl_declarator E s.m_Policy s.m_Indentation F FT Proto
        SubPolicy).2).Out
        (if !(VisitFunctionDecl_declarator E s.m_Policy s.m_Indentation F FT Proto
          SubPolicy).1 then prettyPrintAttributes_text D "" else "")) with
  | none => rw [hb] at h; simp at h
  | some s1 =>
    rw [hb] at h
    simp only [Option.bind, Option.some.injEq] at h
    subst h
    exact (VisitFunctionDecl_body_flag V F SubPolicy _ s1 hKR hb).1

theorem VisitFunctionDecl_prototype_quiet {V : DeclVisit}
    (hV : ∀ d a b, V d a = some b → Quiet a b)
    (E : Env) (D : Decl) (F : FunctionDecl) (FT : Option FunctionProtoType) (Proto : String)
    (SubPolicy streamPol : PrintingPolicy) (s0 s s' : ForwardDeclPrinter)
    (hKR : isKRDefinition F = false) (hflag : s.m_SkipFlag = false)
    (hrest : s.streamRest = s0.streamTop :: s0.streamRest)
    (h : VisitFunctionDecl_prototype E V D F FT Proto SubPolicy streamPol s = some s')
    (hskip : s'.m_SkipFlag = true) : Quiet s0 s' := by
  unfold VisitFunctionDecl_prototype at h
  cases FT with
  | none =>
    dsimp only at h
    have := VisitFunctionDecl_rest_flag E V D F none _ SubPolicy streamPol s s' hKR h
    rw [hskip, hflag] at this
    exact absurd this (by simp)
  | some FTy =>
    dsimp only at h
    cases hp : F.params with
    | nil =>
      rw [hp] at h
      simp only [VisitFunctionDecl_params, Option.bind, Bool.false_eq_true, if_false] at h
      have := VisitFunctionDecl_rest_flag E V D F (some FTy) _ SubPolicy streamPol _ s' hKR h
      rw [hskip] at this
      have h2 : s.m_SkipFlag = true := this.symm
      rw [hflag] at h2
      exact absurd h2 (by simp)
    | cons P rest =>
      rw [hp] at h
      simp only [VisitFunctionDecl_params] at h
      cases hv : V P ((s.StreamRAII_push (some SubPolicy)).Out (if (0 : Nat) ≠ 0 then ", " else ""))
        with
      | none => rw [hv] at h; simp at h
      | some s1 =>
        rw [hv] at h
        simp only [Option.bind, if_true, Option.some.injEq] at h
        subst h
        have hQ := hV _ _ s1 hv
        have hR1 : s1.streamRest = s.streamTop :: s0.streamTop :: s0.streamRest := by
          rw [hQ.2]
          show s.streamTop :: s.streamRest = _
          rw [hrest]
        have hpop : ∀ t : ForwardDeclPrinter,
            t.streamRest = s.streamTop :: s0.streamTop :: s0.streamRest →
            Quiet s0 ((t.StreamRAII_exit false s.m_Policy).StreamRAII_exit false streamPol) := by
          intro t ht
          constructor
          · show (t.streamRest.tail).headD (t.streamRest.headD t.streamTop) = s0.streamTop
            rw [ht]; rfl
          · show t.streamRest.tail.tail = s0.streamRest
            rw [ht]; rfl
        by_cases hf1 : s1.m_SkipFlag = true
        · rw [if_pos hf1]; exact hpop _ hR1
        · rw [if_neg hf1]; exact hpop _ hR1

theorem VisitFunctionDecl_quiet {V : DeclVisit} (hV : ∀ d a b, V d a = some b → Quiet a b)
    (E : Env) (D : Decl) (F : FunctionDecl) (s s' : ForwardDeclPrinter)
    (hKR : isKRDefinition F = false)
    (h : VisitFunctionDecl E V D F s = some s') (hskip : s'.m_SkipFlag = true) :
    Quiet s s' := by
  unfold VisitFunctionDecl at h
  cases hq : VisitQualType V F.getReturnType s with
  | none => rw [hq] at h; simp at h
  | some s1 =>
    rw [hq] at h
    simp only [Option.bind] at h
    have hQ := VisitQualType_quiet hV _ s s1 hq
    by_cases hflag : s1.m_SkipFlag = true
    · rw [if_pos hflag] at h
      injection h with h
      subst h
      exact hQ
    · rw [if_neg hflag] at h
      simp only [Bool.not_eq_true] at hflag
      cases hAFT : F.getAsFunctionType with
      | none =>
        rw [hAFT] at h
        dsimp only at h
        have := VisitFunctionDecl_rest_flag E V D F none _ _ _ _ s' hKR h
        rw [hskip] at this
        have h2 : s1.m_SkipFlag = true := this.symm
        rw [hflag] at h2
        exact absurd h2 (by simp)
      | some AFT =>
        rw [hAFT] at h
        dsimp only at h
        exact Quiet_logFrame.trans hQ
          (VisitFunctionDecl_prototype_quiet hV E D F _ _ _ _ s1 _ s' hKR (by exact hflag)
            (by rfl) h hskip)

/-- With nested visits that write nothing, a render routine of one of the
kinds of `ownTextOnSkip` that returns with the skip signal set has left in the
enclosing buffer the text that `ownTextOnSkip` gives, and nothing else. -/
theorem DeclVisitor_Visit_quiet {V : DeclVisit} (hV : ∀ d a b, V d a = some b → Quiet a b)
    (E : Env) (Did : DeclId) (text : String) (s s' : ForwardDeclPrinter)
    (hkind : ownTextOnSkip (E.decl Did).kind = some text)
    (hprint : s.m_PrintInstantiation = false)
    (h : DeclVisitor_Visit E V Did s = some s') (hskip : s'.m_SkipFlag = true) :
    s'.streamTop = s.streamTop ++ text ∧ s'.streamRest = s.streamRest := by
  have hq : ∀ {a b : ForwardDeclPrinter}, Quiet a b → text = "" →
      b.streamTop = a.streamTop ++ text ∧ b.streamRest = a.streamRest := by
    intro a b hab ht
    subst ht
    exact ⟨by rw [hab.1, String.append_empty], hab.2⟩
  unfold DeclVisitor_Visit at h
  dsimp only at h
  cases hk : (E.decl Did).kind with
  | Typedef q =>
    rw [hk] at h hkind
    exact hq (VisitTypedefDecl_quiet hV E _ q s s' h hskip) (by simpa [ownTextOnSkip] using hkind.symm)
  | Var VD =>
    rw [hk] at h hkind
    exact hq (VisitVarDecl_quiet hV E _ VD s s' h hskip) (by simpa [ownTextOnSkip] using hkind.symm)
  | ParmVar VD =>
    rw [hk] at h hkind
    exact hq (VisitVarDecl_quiet hV E _ VD s s' h hskip) (by simpa [ownTextOnSkip] using hkind.symm)
  | Function F =>
    rw [hk] at h hkind
    have hKR : isKRDefinition F = false := by
      cases hc : isKRDefinition F with
      | false => rfl
      | true => simp [ownTextOnSkip, hc] at hkind
    exact hq (VisitFunctionDecl_quiet hV E _ F s s' hKR h hskip)
      (by simpa [ownTextOnSkip, hKR] using hkind.symm)
  | UsingDirective U =>
    rw [hk] at h hkind
    exact hq (VisitUsingDirectiveDecl_quiet hV E U s s' h hskip)
      (by simpa [ownTextOnSkip] using hkind.symm)
  | Using shadows =>
    rw [hk] at h hkind
    exact hq (VisitUsingDecl_quiet hV E Did shadows s s' h hskip)
      (by simpa [ownTextOnSkip] using hkind.symm)
  | UsingShadow target =>
    rw [hk] at h hkind
    exact hq (VisitUsingShadowDecl_quiet hV target s s' h)
      (by simpa [ownTextOnSkip] using hkind.symm)
  | FunctionTemplate T =>
    rw [hk] at h hkind
    exact hq (VisitFunctionTemplateDecl_quiet hV E Did T s s' hprint h hskip)
      (by simpa [ownTextOnSkip] using hkind.symm)
  | ClassTemplate T =>
    rw [hk] at h hkind
    exact hq (VisitClassTemplateDecl_quiet hV E Did T s s' hprint h hskip)
      (by simpa [ownTextOnSkip] using hkind.symm)
  | VarTemplate T =>
    rw [hk] at h hkind
    exact hq (VisitRedeclarableTemplateDecl_quiet hV E Did T s s' h hskip)
      (by simpa [ownTextOnSkip] using hkind.symm)
  | ClassTemplateSpecialization C =>
    rw [hk] at h hkind
    have h2 : VisitClassTemplateSpecializationDecl V (E.decl Did) C s = some s' := h
    unfold VisitClassTemplateSpecializationDecl at h2
    dsimp only at h2
    have h3 := hV _ _ _ h2
    exact hq (show Quiet s s' from h3) (by simpa [ownTextOnSkip] using hkind.symm)
  | LinkageSpec L =>
    rw [hk] at h hkind
    have ht : text = "extern \"" ++ (if L.isLangC then "C" else "C++") ++ "\" " ++ "\x7b\n" ++
        (if L.hasBraces then "\x7d" else ";\x7d\n") := by
      simpa [ownTextOnSkip] using hkind.symm
    rw [ht]
    exact VisitLinkageSpecDecl_text hV L s s' h
  | _ => rw [hk] at hkind; simp [ownTextOnSkip] at hkind

/-- A declaration that the eligibility test rejects has no text of its own in
`ownTextOnSkip`: a linkage specification is always eligible. -/
theorem ownTextOnSkip_of_shouldSkip (E : Env) (D : DeclId) (text : String)
    (s : ForwardDeclPrinter) (hkind : ownTextOnSkip (E.decl D).kind = some text)
    (hr : (shouldSkip E D s).1 = true) : text = "" := by
  unfold shouldSkip at hr
  dsimp only at hr
  cases hk : (E.decl D).kind with
  | LinkageSpec L =>
    rw [hk] at hr
    simp [shouldSkipImpl_default] at hr
  | Function F =>
    rw [hk] at hkind
    cases hc : isKRDefinition F with
    | false => simpa [ownTextOnSkip, hc] using hkind.symm
    | true => simp [ownTextOnSkip, hc] at hkind
  | _ =>
    rw [hk] at hkind
    simpa [ownTextOnSkip] using hkind.symm

/-- The render routine of a declaration whose first visits of its dependencies
return with the skip signal set: it returns with the signal set and with the
buffers as those visits left them. -/
theorem DeclVisitor_Visit_of_failed_dependencies (E : Env) (V : DeclVisit) (D : DeclId)
    (s s1 : ForwardDeclPrinter) (hprint : s.m_PrintInstantiation = false)
    (hdeps : VisitDependencies E V D s = some s1) (hskip : s1.m_SkipFlag = true) :
    ∃ x, DeclVisitor_Visit E V D s = some x ∧ x.m_SkipFlag = true ∧
      x.streamTop = s1.streamTop ∧ x.streamRest = s1.streamRest := by
  have htemplate : ∀ T : RedeclarableTemplateDecl,
      (((PrintTemplateParameters E V
          (VisitRedeclarableTemplateDecl_redecls E T.redecls (D, T)).2.getTemplateParameters none
          s.StreamRAII_push).bind fun a =>
          V (VisitRedeclarableTemplateDecl_redecls E T.redecls (D, T)).2.getTemplatedDecl a).map
        fun b => b.StreamRAII_exit false s.m_Policy) = some s1 →
      VisitRedeclarableTemplateDecl E V D T s = some s1 := by
    intro T h
    unfold VisitRedeclarableTemplateDecl
    dsimp only
    cases hp : PrintTemplateParameters E V
        (VisitRedeclarableTemplateDecl_redecls E T.redecls (D, T)).2.getTemplateParameters none
        s.StreamRAII_push with
    | none => rw [hp] at h; simp at h
    | some a =>
      rw [hp] at h
      simp only [Option.bind] at h ⊢
      cases hv : V (VisitRedeclarableTemplateDecl_redecls E T.redecls (D, T)).2.getTemplatedDecl a
        with
      | none => rw [hv] at h; simp at h
      | some b =>
        rw [hv] at h
        simp only [Option.map, Option.some.injEq] at h
        have hb : b.m_SkipFlag = true := by
          rw [← h] at hskip
          exact hskip
        simp only [hb, Bool.not_true, Bool.false_eq_true, if_false]
        rw [h]
  unfold VisitDependencies at hdeps
  unfold DeclVisitor_Visit
  dsimp only at hdeps ⊢
  cases hk : (E.decl D).kind with
  | Typedef q =>
    rw [hk] at hdeps
    simp only at hdeps ⊢
    unfold VisitTypedefDecl
    rw [hdeps]
    simp only [Option.bind, hskip, if_true]
    exact ⟨_, rfl, rfl, rfl, rfl⟩
  | Var VD =>
    rw [hk] at hdeps
    simp only at hdeps ⊢
    unfold VisitVarDecl
    dsimp only
    rw [hdeps]
    simp only [Option.bind, hskip, if_true]
    exact ⟨_, rfl, rfl, rfl, rfl⟩
  | ParmVar VD =>
    rw [hk] at hdeps
    simp only at hdeps ⊢
    unfold VisitParmVarDecl VisitVarDecl
    dsimp only
    rw [hdeps]
    simp only [Option.bind, hskip, if_true]
    exact ⟨_, rfl, rfl, rfl, rfl⟩
  | Function F =>
    rw [hk] at hdeps
    simp only at hdeps ⊢
    unfold VisitFunctionDecl
    rw [hdeps]
    simp only [Option.bind, hskip, if_true]
    exact ⟨_, rfl, rfl, rfl, rfl⟩
  | UsingDirective U =>
    rw [hk] at hdeps
    simp only at hdeps ⊢
    unfold VisitUsingDirectiveDecl
    rw [hdeps]
    simp only [Option.bind, hskip, if_true]
    exact ⟨_, rfl, rfl, rfl, rfl⟩
  | Using shadows =>
    rw [hk] at hdeps
    simp only at hdeps ⊢
    unfold VisitUsingDecl
    rw [hdeps]
    simp only [Option.bind, hskip, if_true]
    exact ⟨_, rfl, rfl, rfl, rfl⟩
  | UsingShadow target =>
    rw [hk] at hdeps
    simp only at hdeps ⊢
    unfold VisitUsingShadowDecl
    rw [hdeps]
    simp only [Option.bind, hskip, if_true]
    exact ⟨_, rfl, rfl, rfl, rfl⟩
  | FunctionTemplate T =>
    rw [hk] at hdeps
    simp only [asRedeclarableTemplateDecl] at hdeps ⊢
    unfold VisitFunctionTemplateDecl
    rw [hprint]
    simp only [Bool.false_eq_true, if_false, Option.bind]
    exact ⟨s1, htemplate T hdeps, hskip, rfl, rfl⟩
  | ClassTemplate T =>
    rw [hk] at hdeps
    simp only [asRedeclarableTemplateDecl] at hdeps ⊢
    unfold VisitClassTemplateDecl
    rw [hprint]
    simp only [Bool.false_eq_true, if_false, Option.bind]
    exact ⟨s1, htemplate T hdeps, hskip, rfl, rfl⟩
  | VarTemplate T =>
    rw [hk] at hdeps
    simp only [asRedeclarableTemplateDecl] at hdeps ⊢
    exact ⟨s1, htemplate T hdeps, hskip, rfl, rfl⟩
  | _ =>
    rw [hk] at hdeps
    simp [asRedeclarableTemplateDecl] at hdeps

end ForwardDeclPrinter

end cling

namespace cling

namespace ForwardDeclPrinter

/-! ## C20 -/

theorem isOperator_iff (D : Decl) :
    isOperator D = true ↔ ∃ rest : String, D.getNameAsString = "operator" ++ rest := by
  unfold isOperator
  rw [List.isPrefixOf_iff_prefix]
  constructor
  · rintro ⟨t, ht⟩
    refine ⟨⟨t⟩, ?_⟩
    apply String.ext
    exact ht.symm
  · rintro ⟨rest, hrest⟩
    refine ⟨rest.toList, ?_⟩
    rw [hrest]
    rfl

/-- A function that the eligibility test rejects is never rendered: whatever
the table holds, `Visit` dispatches nothing and writes nothing. -/
theorem Visit_of_rejected_function (E : Env) (V : DeclVisit) (D : DeclId) (F : FunctionDecl)
    (s : ForwardDeclPrinter) (hkind : (E.decl D).kind = .Function F)
    (hskip : shouldSkipImpl_FunctionDecl (E.decl D) F = true) :
    ∃ s', Visit E V D s = some s' ∧ s'.traceDispatch = s.traceDispatch ∧
      s'.streamTop = s.streamTop ∧ s'.streamRest = s.streamRest ∧
      (s.m_Visited.find (getCanonicalOrNamespace E D) = none →
        s'.m_Visited.find (getCanonicalOrNamespace E D) = some false ∧
        s'.m_SkipFlag = true) := by
  unfold Visit
  cases hfind : s.m_Visited.find (getCanonicalOrNamespace E D) with
  | some b =>
    cases b with
    | true => exact ⟨s, rfl, rfl, rfl, rfl, fun h => by simp at h⟩
    | false => exact ⟨s.skipCurrentDecl true, rfl, rfl, rfl, rfl, fun h => by simp at h⟩
  | none =>
    have hs := shouldSkip_function E D F (s.setVisited (getCanonicalOrNamespace E D) true)
      hkind hskip
    simp only [hs, if_true]
    exact ⟨_, rfl, rfl, rfl, rfl, fun _ => ⟨by simp [find_setVisited], rfl⟩⟩

/-- C20: `isOperator(D)` holds exactly when the name of `D` begins with the
eight characters `operator`; therefore every function whose name begins with
them satisfies `shouldSkipImpl`, whatever its other properties, and no
`Visit` of it ever dispatches to a render routine or writes text; its first
visit records it not-emittable.  The function `operatorCount` is such a
function: the run over `int operatorCount();` leaves the output as the
constructor's first lines and records the function not-emittable. -/
theorem isOperator_is_a_prefix_test :
    (∀ D : Decl, isOperator D = true ↔
      ∃ rest : String, D.getNameAsString = "operator" ++ rest) ∧
    (∀ (E : Env) (V : DeclVisit) (D : DeclId) (F : FunctionDecl) (s : ForwardDeclPrinter)
      (rest : String), (E.decl D).kind = .Function F →
      (E.decl D).getNameAsString = "operator" ++ rest →
      shouldSkipImpl_FunctionDecl (E.decl D) F = true ∧
      ∃ s', Visit E V D s = some s' ∧ s'.traceDispatch = s.traceDispatch ∧
        s'.streamTop = s.streamTop ∧ s'.streamRest = s.streamRest ∧
        (s.m_Visited.find (getCanonicalOrNamespace E D) = none →
          s'.m_Visited.find (getCanonicalOrNamespace E D) = some false ∧
          s'.m_SkipFlag = true)) ∧
    (operatorCountUnit.decl 0).getNameAsString = "operator" ++ "Count" ∧
    (ctor operatorCountUnit 2 { decls := [{ m_DGR := some [0] }] } 0 false).map
        (fun s => (s.streamTop, s.m_Visited, s.traceDispatch)) =
      some ((ctor_init 0).streamTop, [(0, false)], []) := by
  refine ⟨isOperator_iff, ?_, by decide!, by decide!⟩
  intro E V D F s rest hkind hname
  have hop : isOperator (E.decl D) = true := (isOperator_iff _).mpr ⟨rest, hname⟩
  have hskip : shouldSkipImpl_FunctionDecl (E.decl D) F = true := by
    unfold shouldSkipImpl_FunctionDecl
    simp [hop]
  exact ⟨hskip, Visit_of_rejected_function E V D F s hkind hskip⟩

/-! ## C12 -/

theorem mem_driverDeclsOf (E : Env) (l : List DelayCallInfo) (D : DeclId)
    (h : D ∈ driverDeclsOf E l) : (E.decl D).isInTranslationUnit = true := by
  unfold driverDeclsOf at h
  simp only [List.mem_flatten, List.mem_map] at h
  obtain ⟨group, ⟨dci, _, hg⟩, hD⟩ := h
  rw [← hg] at hD
  exact (List.mem_filter.mp hD).2

/-- C12 as stated fails: the loop writes no line to the log for a top-level
declaration outside the translation unit.  The run over the stray parameter
alone ends in the state in which it began: nothing is passed to `Visit`,
the output is the constructor's first lines, and the log is empty. -/
theorem ctor_logs_nothing_outside_translation_unit :
    (strayUnit.decl 1).isInTranslationUnit = false ∧
    (ctor strayUnit 3 { decls := [{ m_DGR := some [1] }] } 0 false).map
        (fun s => (s.m_Log, s.streamTop)) = some ("", (ctor_init 0).streamTop) ∧
    (ctor strayUnit 3 { decls := [{ m_DGR := some [1] }] } 0 false).map
        (fun s => (s.traceDriver, s.m_Visited)) = some ([], []) ∧
    (ctor strayUnit 3 { decls := [{ m_DGR := some [0, 1] }] } 0 false).map
        (fun s => (s.m_Log, s.traceDriver, s.m_Visited)) =
      some ("", [0], [(0, true)]) := by
  decide!

/-- C12, amended: a top-level declaration whose context is not the translation
unit is passed over in silence (line 93, `continue`): the iteration of the
loop for it changes nothing - no call of `Visit`, no text in the output, no
line in the log -, and every declaration that a run passes to `Visit` from
the loop has the translation unit as its context. -/
theorem ctor_group_passes_over_outside_translation_unit (E : Env) :
    (∀ (V : DeclVisit) (D : DeclId) (rest : List DeclId) (s : ForwardDeclPrinter),
      (E.decl D).isInTranslationUnit = false →
      ctor_group E V (D :: rest) s = ctor_group E V rest s) ∧
    (∀ (fuel : Nat) (T : Transaction) (Indentation : Nat) (printMacros : Bool)
      (s : ForwardDeclPrinter), ctor E fuel T Indentation printMacros = some s →
      ∀ D ∈ s.traceDriver, (E.decl D).isInTranslationUnit = true) := by
  constructor
  · intro V D rest s h
    rw [ctor_group]
    simp [h]
  · intro fuel T Indentation printMacros s h D hD
    obtain ⟨s1, hrun, hs⟩ := ctor_run E fuel T Indentation printMacros s h
    have hd : s.traceDriver = driverDecls E T := by
      rw [hs]
      show s1.traceDriver = _
      rw [hrun.driver]
      show [] ++ driverDecls E T = _
      simp
    rw [hd] at hD
    exact mem_driverDeclsOf E T.decls D hD

/-! ## C14 -/

/-- C14 as stated fails: the unscoped enumeration `Color`, which has no fixed
underlying type, is rendered with the suffix ` : unsigned int`. -/
theorem VisitEnumDecl_writes_underlying_type_of_unscoped_enum :
    colorEnum.isScoped = false ∧ colorEnum.isFixed = false ∧
    (VisitEnumDecl colorUnit (colorUnit.decl 0) colorEnum (ctor_init 0)).streamTop =
      (ctor_init 0).streamTop ++
        "enum  __attribute__((annotate(\"$clingAutoload$a.h 0\"))) Color : unsigned int;\n" ∧
    (ctor colorUnit 2 { decls := [{ m_DGR := some [0] }] } 0 false).map
        (fun s => s.streamTop) =
      some ((ctor_init 0).streamTop ++
        "enum  __attribute__((annotate(\"$clingAutoload$a.h 0\"))) Color : unsigned int;\n") := by
  decide!

/-- C14, amended: `VisitEnumDecl` renders only the forward shell, and in one
form for every enumeration, scoped or not, fixed or not: it appends to the
current buffer a text that ends with the name, the suffix ` : ` with the
integer type of the enumeration, and `;\n` (line 266; the test `isFixed()` of
line 265 is commented out); before the name come `enum `, the origin
annotation and, for a scoped enumeration only, `class ` or `struct `.  Nothing
else of the state changes, and the enumerators are never written: the result
does not depend on them. -/
theorem VisitEnumDecl_writes_shell_with_underlying_type (E : Env) (D : Decl) (N : EnumDecl)
    (s : ForwardDeclPrinter) :
    (VisitEnumDecl E D N s).streamTop =
      s.streamTop ++
        ((if !s.m_Policy.SuppressSpecifiers && D.isModulePrivate then "__module_private__ "
          else "") ++ "enum " ++ prettyPrintAttributes_text D (if N.isFixed then "1" else "0") ++
          (if N.isScoped then (if N.isScopedUsingClassTag then "class " else "struct ")
            else "") ++
          D.getNameAsString ++ " : " ++ E.printQualType s.m_Policy N.getIntegerType "" ++
          ";\n") ∧
    VisitEnumDecl E D N s = { s with streamTop := (VisitEnumDecl E D N s).streamTop } ∧
    ∀ l : List String, VisitEnumDecl E D { N with enumerators := l } s = VisitEnumDecl E D N s :=
  ⟨rfl, rfl, fun _ => rfl⟩

/-! ## C15 -/

theorem getLast_cons_getD {α : Type} (a d : α) (l : List α) :
    ((a :: l).getLast?).getD d = (l.getLast?).getD a := by
  cases l with
  | nil => rfl
  | cons b l =>
    rw [List.getLast?_cons_cons]
    cases h : (b :: l).getLast? with
    | none => simp at h
    | some x => rfl

/-- The loop of lines 853-857 ends with the last redeclaration of the chain
that has a defaulted parameter, and with the declaration it began with when
the chain has none. -/
theorem VisitRedeclarableTemplateDecl_redecls_eq (E : Env) (l : List DeclId) :
    ∀ D : DeclId × RedeclarableTemplateDecl,
      VisitRedeclarableTemplateDecl_redecls E l D = ((redeclsWithDefault E l).getLast?).getD D := by
  induction l with
  | nil => intro D; rfl
  | cons RD rest ih =>
    intro D
    rw [VisitRedeclarableTemplateDecl_redecls]
    cases hk : asRedeclarableTemplateDecl (E.decl RD).kind with
    | none =>
      simp only [ih]
      simp [redeclsWithDefault, List.filterMap_cons, hk]
    | some R =>
      simp only [ih]
      by_cases hc : hasDefaultedParameter R = true
      · have hc2 : R.getTemplateParameters.getMinRequiredArguments <
            R.getTemplateParameters.params.length := by
          simpa [hasDefaultedParameter] using hc
        rw [if_pos hc2]
        have : redeclsWithDefault E (RD :: rest) = (RD, R) :: redeclsWithDefault E rest := by
          simp [redeclsWithDefault, List.filterMap_cons, hk, hc]
        rw [this, getLast_cons_getD]
      · have hc2 : ¬ R.getTemplateParameters.getMinRequiredArguments <
            R.getTemplateParameters.params.length := by
          simpa [hasDefaultedParameter] using hc
        rw [if_neg hc2]
        have : redeclsWithDefault E (RD :: rest) = redeclsWithDefault E rest := by
          simp [redeclsWithDefault, List.filterMap_cons, hk, hc]
        rw [this]

/-- C15 as stated fails.  The class template `X` is declared three times; from
the first declaration the chain is walked as first, third, second.  The loop
ends with the second declaration, which has one defaulted parameter, although
the third has two; the run prints `template <class A, class B = int> `. -/
theorem VisitRedeclarableTemplateDecl_prints_fewer_defaults :
    (VisitRedeclarableTemplateDecl_redecls boxUnit boxFirst.redecls (0, boxFirst)).1 = 1 ∧
    defaultedParameters boxSecond = 1 ∧ defaultedParameters boxThird = 2 ∧
    (ctor boxUnit 5 { decls := [{ m_DGR := some [0, 1, 2] }] } 0 false).map
        (fun s => s.streamTop) =
      some ((ctor_init 0).streamTop ++ "template <class A, class B = int> class " ++
        "__attribute__((annotate(\"$clingAutoload$a.h\")))  X;\n") := by
  decide!

/-- C15, amended: among the redeclarations of the template, the one whose
template parameter list `VisitRedeclarableTemplateDecl` prints is the last
one, in the order of the chain `redecls()`, that has at least one defaulted
parameter (fewer required arguments than parameters), and the declaration
itself when no redeclaration has one; the routine renders the template as it
would render that redeclaration alone. -/
theorem VisitRedeclarableTemplateDecl_prints_last_with_default (E : Env) (V : DeclVisit)
    (Did : DeclId) (T : RedeclarableTemplateDecl) (s : ForwardDeclPrinter) :
    VisitRedeclarableTemplateDecl_redecls E T.redecls (Did, T) =
        ((redeclsWithDefault E T.redecls).getLast?).getD (Did, T) ∧
    (∀ RD ∈ redeclsWithDefault E T.redecls, hasDefaultedParameter RD.2 = true ∧ RD.1 ∈ T.redecls ∧
      asRedeclarableTemplateDecl (E.decl RD.1).kind = some RD.2) ∧
    VisitRedeclarableTemplateDecl E V Did T s =
      VisitRedeclarableTemplateDecl E V
        (((redeclsWithDefault E T.redecls).getLast?).getD (Did, T)).1
        { (((redeclsWithDefault E T.redecls).getLast?).getD (Did, T)).2 with redecls := [] } s := by
  refine ⟨VisitRedeclarableTemplateDecl_redecls_eq E T.redecls (Did, T), ?_, ?_⟩
  · intro RD hRD
    unfold redeclsWithDefault at hRD
    rw [List.mem_filterMap] at hRD
    obtain ⟨d, hd, hsome⟩ := hRD
    cases hk : asRedeclarableTemplateDecl (E.decl d).kind with
    | none => rw [hk] at hsome; simp at hsome
    | some R =>
      rw [hk] at hsome
      by_cases hc : hasDefaultedParameter R = true
      · simp only [hc, if_true, Option.some.injEq] at hsome
        subst hsome
        exact ⟨hc, hd, hk⟩
      · simp [hc] at hsome
  · unfold VisitRedeclarableTemplateDecl
    rw [VisitRedeclarableTemplateDecl_redecls_eq]
    rfl

/-! ## C16 -/

theorem SameRest_exec (E : Env) (n : Nat) :
    ∀ d, Triple True (fun _ => True) SameRest (exec E n d) := by
  intro d s _
  cases h : exec E n d s with
  | none => trivial
  | some b => exact ⟨(exec_step E n d s b h).rest, trivial⟩

/-- C16: when the visit of the templated entity signals skip,
`VisitRedeclarableTemplateDecl` returns with the enclosing buffer, the buffers
below it and the policy exactly as they were on entry: the text
`template <...> ` and whatever the templated entity wrote went to the nested
buffer and are dropped with it, and the enclosing buffer is the write target
again; the skip signal stays set. -/
theorem VisitRedeclarableTemplateDecl_discards_on_skip (E : Env) (n : Nat) (Did : DeclId)
    (T : RedeclarableTemplateDecl) (s s1 s2 : ForwardDeclPrinter)
    (hparams : PrintTemplateParameters E (exec E n)
      (VisitRedeclarableTemplateDecl_redecls E T.redecls (Did, T)).2.getTemplateParameters none
      s.StreamRAII_push = some s1)
    (hvisit : exec E n
      (VisitRedeclarableTemplateDecl_redecls E T.redecls (Did, T)).2.getTemplatedDecl s1 = some s2)
    (hskip : s2.m_SkipFlag = true) :
    ∃ s', VisitRedeclarableTemplateDecl E (exec E n) Did T s = some s' ∧
      s'.streamTop = s.streamTop ∧ s'.streamRest = s.streamRest ∧
      s'.m_Policy = s.m_Policy ∧ s'.m_SkipFlag = true := by
  have hR1 : s1.streamRest = s.streamTop :: s.streamRest := by
    have := PrintTemplateParameters_post SameRest_frame E (SameRest_exec E n)
      (VisitRedeclarableTemplateDecl_redecls E T.redecls (Did, T)).2.getTemplateParameters none
      s.StreamRAII_push trivial
    rw [hparams] at this
    exact this.1
  have hR2 : s2.streamRest = s.streamTop :: s.streamRest :=
    (exec_step E n _ s1 s2 hvisit).rest.trans hR1
  refine ⟨s2.StreamRAII_exit false s.m_Policy, ?_, ?_, ?_, rfl, hskip⟩
  · unfold VisitRedeclarableTemplateDecl
    simp only [hparams, hvisit, Option.bind, hskip, Bool.not_true, Bool.false_eq_true, if_false]
  · show s2.streamRest.headD s2.streamTop = s.streamTop
    rw [hR2]; rfl
  · show s2.streamRest.tail = s.streamRest
    rw [hR2]; rfl

/-- C16 at a concrete input: `template <class T> Hidden g();`, whose result
type is the typedef of an unnamed record. -/
theorem VisitRedeclarableTemplateDecl_discards_on_skip_witness :
    ∃ s', VisitRedeclarableTemplateDecl hiddenResultUnit (exec hiddenResultUnit 5) 3
        hiddenResultTemplate (ctor_init 0) = some s' ∧
      s'.streamTop = (ctor_init 0).streamTop ∧ s'.streamRest = (ctor_init 0).streamRest ∧
      s'.m_Policy = (ctor_init 0).m_Policy ∧ s'.m_SkipFlag = true := by
  have hx : ((PrintTemplateParameters hiddenResultUnit (exec hiddenResultUnit 5)
      (VisitRedeclarableTemplateDecl_redecls hiddenResultUnit hiddenResultTemplate.redecls
        (3, hiddenResultTemplate)).2.getTemplateParameters none
      (ctor_init 0).StreamRAII_push).bind fun s1 =>
        exec hiddenResultUnit 5
          (VisitRedeclarableTemplateDecl_redecls hiddenResultUnit hiddenResultTemplate.redecls
            (3, hiddenResultTemplate)).2.getTemplatedDecl s1).map (fun s => s.m_SkipFlag)
      = some true := by decide!
  cases hp : PrintTemplateParameters hiddenResultUnit (exec hiddenResultUnit 5)
      (VisitRedeclarableTemplateDecl_redecls hiddenResultUnit hiddenResultTemplate.redecls
        (3, hiddenResultTemplate)).2.getTemplateParameters none
      (ctor_init 0).StreamRAII_push with
  | none => rw [hp] at hx; simp at hx
  | some s1 =>
    rw [hp] at hx
    simp only [Option.bind] at hx
    cases hv : exec hiddenResultUnit 5
        (VisitRedeclarableTemplateDecl_redecls hiddenResultUnit hiddenResultTemplate.redecls
          (3, hiddenResultTemplate)).2.getTemplatedDecl s1 with
    | none => rw [hv] at hx; simp at hx
    | some s2 =>
      rw [hv] at hx
      exact VisitRedeclarableTemplateDecl_discards_on_skip hiddenResultUnit 5 3
        hiddenResultTemplate (ctor_init 0) s1 s2 hp hv (by simpa using hx)

/-! ## C11 -/

/-- What the eligibility test writes to the log when it rejects a declaration:
one line, the name of the declaration followed by the reason. -/
theorem shouldSkip_log (E : Env) (D : DeclId) (s : ForwardDeclPrinter)
    (h : (shouldSkip E D s).1 = true) :
    (shouldSkip E D s).2.m_Log =
      s.m_Log ++ (loggedName (E.decl D) ++ skipReason (E.decl D).kind) := by
  have hlogged : ∀ b : Bool, (shouldSkip_logged (E.decl D) b s).1 = true →
      (shouldSkip_logged (E.decl D) b s).2.m_Log =
        s.m_Log ++ ((E.decl D).getNameAsString ++ " : Ineligible by policy\n") := by
    intro b hb
    have hb2 : b = true := hb
    subst hb2
    rfl
  unfold shouldSkip loggedName at *
  dsimp only at *
  cases hk : (E.decl D).kind with
  | Var VD =>
    rw [hk] at h
    simp only at h ⊢
    unfold shouldSkipImpl_VarDecl at h ⊢
    by_cases hc : VD.getStorageClass = .SC_Static
    · rw [if_pos hc]; rfl
    · rw [if_neg hc] at h; simp at h
  | ParmVar VD =>
    rw [hk] at h
    simp only at h ⊢
    unfold shouldSkipImpl_VarDecl at h ⊢
    by_cases hc : VD.getStorageClass = .SC_Static
    · rw [if_pos hc]; rfl
    · rw [if_neg hc] at h; simp at h
  | Enum N =>
    rw [hk] at h
    simp only at h ⊢
    unfold shouldSkipImpl_EnumDecl at h ⊢
    by_cases hc : (E.decl D).getIdentifier.isNone = true
    · rw [if_pos hc]
      show s.m_Log ++ (E.decl D).getNameAsString ++ "Enum: Empty name\n" = _
      rw [String.append_assoc]
      rfl
    · rw [if_neg hc] at h; simp at h
  | UsingDirective U =>
    rw [hk] at h
    simp [shouldSkipImpl_UsingDirectiveDecl, shouldSkipImpl_default] at h
  | TypeAliasTemplate =>
    simp only
    unfold shouldSkipImpl_TypeAliasTemplateDecl
    show s.m_Log ++ (E.decl D).getNameAsString ++ " TypeAliasTemplateDecl: Always Skipped\n" = _
    rw [String.append_assoc]
    rfl
  | Function F => rw [hk] at h; exact hlogged _ h
  | FunctionTemplate T => rw [hk] at h; exact hlogged _ h
  | Record k => rw [hk] at h; exact hlogged _ h
  | ClassTemplate T => rw [hk] at h; exact hlogged _ h
  | ClassTemplateSpecialization C => rw [hk] at h; exact hlogged _ h
  | _ => rw [hk] at h; simp [shouldSkipImpl_default] at h

/-- C11: the first `Visit` of a declaration that is skipped by policy returns
with one more line in the log, which states the name of the declaration
followed by the reason; the declaration is recorded not-emittable, the skip
signal is set, the skip counter is incremented and no text is written to the
output.  For a variable, an enumeration and a type alias template the line is
the one of the predicate (lines 1129, 1138-1139, 1169-1170); for a function, a
function template, a tag and a class template specialization, whose predicates
write nothing, it is the line of the dispatcher, modelled from the spec. -/
theorem Visit_logs_name_of_policy_skip (E : Env) (V : DeclVisit) (D : DeclId)
    (s : ForwardDeclPrinter)
    (hfirst : s.m_Visited.find (getCanonicalOrNamespace E D) = none)
    (hskip : (shouldSkip E D (s.setVisited (getCanonicalOrNamespace E D) true)).1 = true) :
    ∃ s', Visit E V D s = some s' ∧
      s'.m_Log = s.m_Log ++ (loggedName (E.decl D) ++ skipReason (E.decl D).kind) ∧
      s'.m_Visited.find (getCanonicalOrNamespace E D) = some false ∧
      s'.m_SkipFlag = true ∧ s'.m_SkipCounter = s.m_SkipCounter + 1 ∧
      s'.streamTop = s.streamTop ∧ s'.streamRest = s.streamRest := by
  have hlog := shouldSkip_log E D (s.setVisited (getCanonicalOrNamespace E D) true) hskip
  obtain ⟨_, hc2, _, _, hc5, _, hc7, _, _⟩ :=
    shouldSkip_core E D (s.setVisited (getCanonicalOrNamespace E D) true)
  refine ⟨((shouldSkip E D (s.setVisited (getCanonicalOrNamespace E D) true)).2.skipCurrentDecl
      true).setVisited (getCanonicalOrNamespace E D) false, ?_, hlog,
    by simp [find_setVisited], rfl, ?_, hc5, hc2⟩
  · unfold Visit
    rw [hfirst]
    simp only [hskip, if_true]
  · show (shouldSkip E D (s.setVisited (getCanonicalOrNamespace E D) true)).2.m_SkipCounter + 1
      = _
    rw [hc7]
    rfl

/-- C11 at a concrete input: the run over `static int hidden();` writes the
log line `hidden : Ineligible by policy`, which states the name of the
function, records the function not-emittable and counts one skip; the first
visit of `static int counter;` writes the line `counter Var : Static`. -/
theorem Visit_logs_name_of_policy_skip_witness :
    (∃ s', Visit hiddenUnit (exec hiddenUnit 0) 0 (ctor_init 0) = some s' ∧
      s'.m_Log = (ctor_init 0).m_Log ++
        (loggedName (hiddenUnit.decl 0) ++ skipReason (hiddenUnit.decl 0).kind) ∧
      s'.m_Visited.find (getCanonicalOrNamespace hiddenUnit 0) = some false ∧
      s'.m_SkipFlag = true ∧ s'.m_SkipCounter = (ctor_init 0).m_SkipCounter + 1 ∧
      s'.streamTop = (ctor_init 0).streamTop ∧ s'.streamRest = (ctor_init 0).streamRest) ∧
    loggedName (hiddenUnit.decl 0) ++ skipReason (hiddenUnit.decl 0).kind =
      "hidden : Ineligible by policy\n" ∧
    (ctor hiddenUnit 2 { decls := [{ m_DGR := some [0] }] } 0 false).map
        (fun s => (s.m_Log, s.m_Visited, s.m_SkipCounter, s.streamTop)) =
      some ("hidden : Ineligible by policy\n", [(0, false)], 1, (ctor_init 0).streamTop) ∧
    (Visit staticVarUnit (exec staticVarUnit 0) 0 (ctor_init 0)).map (fun s => s.m_Log) =
      some "counter Var : Static\n" :=
  ⟨Visit_logs_name_of_policy_skip hiddenUnit (exec hiddenUnit 0) 0 (ctor_init 0) rfl rfl,
    by decide!, by decide!, by decide!⟩

end ForwardDeclPrinter

end cling

namespace cling

namespace ForwardDeclPrinter

/-! ## The entries of the Visit State Table -/

theorem Keeps_frame : Frame (fun _ => True) Keeps where
  refl := fun _ _ _ h => h
  trans := fun h1 h2 k b h => h2 k b (h1 k b h)
  pres := fun _ _ => trivial
  core := fun {s s'} h k b hk => by
    have h1 : s'.m_Visited = s.m_Visited := congrArg Core.m_Visited h
    rw [h1]; exact hk
  push_pop := fun _ h k b hk => h k b hk
  push_A := fun _ _ => trivial
  pop_A := fun _ => trivial

/-- The eligibility test touches no entry of the table but the one of the
declaration that it tests. -/
theorem shouldSkip_find (E : Env) (D : DeclId) (s : ForwardDeclPrinter) (k : DeclId)
    (hk : k ≠ getCanonicalOrNamespace E D) :
    (shouldSkip E D s).2.m_Visited.find k = s.m_Visited.find k := by
  unfold getCanonicalOrNamespace at hk
  unfold shouldSkip
  dsimp only
  cases hkind : (E.decl D).kind with
  | Var VD =>
    rw [hkind] at hk
    simp only at hk ⊢
    unfold shouldSkipImpl_VarDecl
    split_ifs
    · show ((s.Log _).setVisited _ false).m_Visited.find k = _
      rw [find_setVisited, if_neg (fun h => hk h.symm)]
      rfl
    · rfl
  | ParmVar VD =>
    rw [hkind] at hk
    simp only at hk ⊢
    unfold shouldSkipImpl_VarDecl
    split_ifs
    · show ((s.Log _).setVisited _ false).m_Visited.find k = _
      rw [find_setVisited, if_neg (fun h => hk h.symm)]
      rfl
    · rfl
  | Enum N =>
    simp only
    unfold shouldSkipImpl_EnumDecl
    split_ifs <;> rfl
  | UsingDirective U =>
    simp only
    unfold shouldSkipImpl_UsingDirectiveDecl
    split_ifs <;> rfl
  | Function F => simp only; unfold shouldSkip_logged; split_ifs <;> rfl
  | FunctionTemplate T => simp only; unfold shouldSkip_logged; split_ifs <;> rfl
  | Record _ => simp only; unfold shouldSkip_logged; split_ifs <;> rfl
  | ClassTemplate T => simp only; unfold shouldSkip_logged; split_ifs <;> rfl
  | ClassTemplateSpecialization C => simp only; unfold shouldSkip_logged; split_ifs <;> rfl
  | _ => rfl

/-- A declaration that the eligibility test accepts leaves the state as it is. -/
theorem shouldSkip_false (E : Env) (D : DeclId) (s : ForwardDeclPrinter)
    (h : (shouldSkip E D s).1 = false) : (shouldSkip E D s).2 = s := by
  unfold shouldSkip at h ⊢
  dsimp only at h ⊢
  cases hkind : (E.decl D).kind with
  | Var VD =>
    rw [hkind] at h
    simp only at h ⊢
    unfold shouldSkipImpl_VarDecl at h ⊢
    by_cases hc : VD.getStorageClass = .SC_Static
    · rw [if_pos hc] at h; simp at h
    · rw [if_neg hc]
  | ParmVar VD =>
    rw [hkind] at h
    simp only at h ⊢
    unfold shouldSkipImpl_VarDecl at h ⊢
    by_cases hc : VD.getStorageClass = .SC_Static
    · rw [if_pos hc] at h; simp at h
    · rw [if_neg hc]
  | Enum N =>
    rw [hkind] at h
    simp only at h ⊢
    unfold shouldSkipImpl_EnumDecl at h ⊢
    by_cases hc : (E.decl D).getIdentifier.isNone = true
    · rw [if_pos hc] at h; simp at h
    · rw [if_neg hc]
  | UsingDirective U =>
    simp only
    unfold shouldSkipImpl_UsingDirectiveDecl
    rw [if_neg (by simp [shouldSkipImpl_default])]
  | TypeAliasTemplate =>
    rw [hkind] at h
    simp [shouldSkipImpl_TypeAliasTemplateDecl] at h
  | Function F =>
    rw [hkind] at h
    simp only [shouldSkip_logged] at h ⊢
    simp [h]
  | FunctionTemplate T =>
    rw [hkind] at h
    simp only [shouldSkip_logged] at h ⊢
    simp [h]
  | Record _ =>
    rw [hkind] at h
    simp only [shouldSkip_logged] at h ⊢
    simp [h]
  | ClassTemplate T =>
    rw [hkind] at h
    simp only [shouldSkip_logged] at h ⊢
    simp [h]
  | ClassTemplateSpecialization C =>
    rw [hkind] at h
    simp only [shouldSkip_logged] at h ⊢
    simp [h]
  | _ => rfl

/-- The table after `Visit(D)`, given that the recursive calls keep the entries
that they find: every other entry is as before; an entry of `D` that was
there is as before, and the skip signal is set when it says not-emittable and
as before when it says emittable; a new entry of `D` says not-emittable
exactly when the skip signal is set on return. -/
theorem Visit_entry (E : Env) {V : DeclVisit} (hV : ∀ d a b, V d a = some b → Keeps a b)
    (D : DeclId) (s s' : ForwardDeclPrinter) (h : Visit E V D s = some s') :
    (∀ k b, k ≠ getCanonicalOrNamespace E D → s.m_Visited.find k = some b →
      s'.m_Visited.find k = some b) ∧
    (∀ b, s.m_Visited.find (getCanonicalOrNamespace E D) = some b →
      s'.m_Visited.find (getCanonicalOrNamespace E D) = some b ∧
      (b = false → s'.m_SkipFlag = true) ∧ (b = true → s'.m_SkipFlag = s.m_SkipFlag)) ∧
    (s.m_Visited.find (getCanonicalOrNamespace E D) = none →
      s'.m_Visited.find (getCanonicalOrNamespace E D) = some (!s'.m_SkipFlag)) := by
  unfold Visit at h
  cases hfind : s.m_Visited.find (getCanonicalOrNamespace E D) with
  | some b =>
    rw [hfind] at h
    dsimp only at h
    cases b with
    | true =>
      simp only [Bool.not_true, Bool.false_eq_true, if_false, Option.some.injEq] at h
      subst h
      exact ⟨fun _ _ _ hk => hk, fun b hb => by
        injection hb with hb; subst hb
        exact ⟨hfind, fun h => by simp at h, fun _ => rfl⟩, fun h => by simp at h⟩
    | false =>
      simp only [Bool.not_false, if_true, Option.some.injEq] at h
      subst h
      exact ⟨fun _ _ _ hk => hk, fun b hb => by
        injection hb with hb; subst hb
        exact ⟨hfind, fun _ => rfl, fun h => by simp at h⟩, fun h => by simp at h⟩
  | none =>
    rw [hfind] at h
    dsimp only at h
    have hother : ∀ k b, k ≠ getCanonicalOrNamespace E D → s.m_Visited.find k = some b →
        (shouldSkip E D (s.setVisited (getCanonicalOrNamespace E D) true)).2.m_Visited.find k
          = some b := by
      intro k b hk hkb
      rw [shouldSkip_find E D _ k hk, find_setVisited, if_neg (fun h => hk h.symm)]
      exact hkb
    by_cases hr : (shouldSkip E D (s.setVisited (getCanonicalOrNamespace E D) true)).1 = true
    · rw [if_pos hr] at h
      injection h with h
      subst h
      refine ⟨fun k b hk hkb => ?_, fun b hb => by simp at hb, fun _ => ?_⟩
      · rw [find_setVisited, if_neg (fun h => hk h.symm)]
        exact hother k b hk hkb
      · rw [find_setVisited, if_pos rfl]
        rfl
    · rw [if_neg hr] at h
      simp only [Bool.not_eq_true] at hr
      have hsame := shouldSkip_false E D _ hr
      cases hd : DeclVisitor_Visit E V D
          ((shouldSkip E D (s.setVisited (getCanonicalOrNamespace E D) true)).2.traceDispatched D)
        with
      | none => rw [hd] at h; simp at h
      | some s1 =>
        rw [hd] at h
        simp only [Option.bind] at h
        have hV2 : ∀ d, Triple True (fun _ => True) Keeps (V d) := by
          intro d a _
          cases hv : V d a with
          | none => trivial
          | some b => exact ⟨hV d a b hv, trivial⟩
        have hpost := DeclVisitor_Visit_post Keeps_frame E hV2 D
          ((shouldSkip E D (s.setVisited (getCanonicalOrNamespace E D) true)).2.traceDispatched D)
          trivial
        rw [hd] at hpost
        have hkeep : Keeps
            ((shouldSkip E D (s.setVisited (getCanonicalOrNamespace E D) true)).2.traceDispatched
              D) s1 := hpost.1
        by_cases hflag : s1.m_SkipFlag = true
        · rw [if_pos hflag] at h
          injection h with h
          subst h
          refine ⟨fun k b hk hkb => ?_, fun b hb => by simp at hb, fun _ => ?_⟩
          · rw [find_setVisited, if_neg (fun h => hk h.symm)]
            exact hkeep k b (hother k b hk hkb)
          · rw [find_setVisited, if_pos rfl]
            rfl
        · rw [if_neg hflag] at h
          injection h with h
          subst h
          simp only [Bool.not_eq_true] at hflag
          refine ⟨fun k b hk hkb => hkeep k b (hother k b hk hkb),
            fun b hb => by simp at hb, fun _ => ?_⟩
          rw [hflag]
          apply hkeep
          show (shouldSkip E D (s.setVisited (getCanonicalOrNamespace E D) true)).2.m_Visited.find
            (getCanonicalOrNamespace E D) = some true
          rw [hsame, find_setVisited, if_pos rfl]

theorem Visit_keeps (E : Env) {V : DeclVisit} (hV : ∀ d a b, V d a = some b → Keeps a b)
    (D : DeclId) (s s' : ForwardDeclPrinter) (h : Visit E V D s = some s') : Keeps s s' := by
  obtain ⟨h1, h2, _⟩ := Visit_entry E hV D s s' h
  intro k b hk
  by_cases hkey : k = getCanonicalOrNamespace E D
  · subst hkey; exact (h2 b hk).1
  · exact h1 k b hkey hk

/-- Whenever `Visit(D)` returns, the entries that the table held are as before. -/
theorem exec_keeps (E : Env) :
    ∀ (n : Nat) (D : DeclId) (s s' : ForwardDeclPrinter), exec E n D s = some s' → Keeps s s' := by
  intro n
  induction n with
  | zero => intro D s s' h; simp [exec] at h
  | succ n ih =>
    intro D s s' h
    exact Visit_keeps E (fun d a b hv => ih d a b hv) D s s' h

/-! ## C17 -/

/-- C17: if the skip signal is clear when `Visit(D)` is entered, then on return
the skip signal is set exactly when the entry of the key of `D` in the Visit
State Table says not-emittable, and clear exactly when it says emittable -
whatever the table held on entry and whatever the declarations that `D` depends
on, cycles included; with a bound on the depth of the recursion above the
number of keys of the unit, `Visit(D)` returns. -/
theorem Visit_signal_iff_not_emittable (E : Env) (n : Nat) (D : DeclId)
    (s : ForwardDeclPrinter) (hclear : s.m_SkipFlag = false) :
    (∀ s', exec E n D s = some s' →
      (s'.m_SkipFlag = true ↔
        s'.m_Visited.find (getCanonicalOrNamespace E D) = some false) ∧
      (s'.m_SkipFlag = false ↔
        s'.m_Visited.find (getCanonicalOrNamespace E D) = some true)) ∧
    ((allKeys E).length < n → ∃ s', exec E n D s = some s') := by
  constructor
  · intro s' h
    cases n with
    | zero => simp [exec] at h
    | succ n =>
      have hent := Visit_entry E (fun d a b hv => exec_keeps E n d a b hv) D s s' h
      have key : s'.m_Visited.find (getCanonicalOrNamespace E D) = some (!s'.m_SkipFlag) := by
        cases hfind : s.m_Visited.find (getCanonicalOrNamespace E D) with
        | none => exact hent.2.2 hfind
        | some b =>
          obtain ⟨h1, h2, h3⟩ := hent.2.1 b hfind
          cases b with
          | false => rw [h1, h2 rfl]; rfl
          | true => rw [h1, h3 rfl, hclear]; rfl
      rw [key]
      cases s'.m_SkipFlag <;> simp
  · intro hn
    obtain ⟨s', h, _⟩ := exec_total E n (allKeys E).length hn D s (unvisited_le_length E s)
    exact ⟨s', h⟩

/-- C17 at a concrete input: the visit of the typedef `A` of the two typedefs
that name each other returns with the skip signal clear and `A` emittable. -/
theorem Visit_signal_iff_not_emittable_witness :
    ((∀ s', exec cyclicUnit 4 0 (ctor_init 0) = some s' →
      (s'.m_SkipFlag = true ↔
        s'.m_Visited.find (getCanonicalOrNamespace cyclicUnit 0) = some false) ∧
      (s'.m_SkipFlag = false ↔
        s'.m_Visited.find (getCanonicalOrNamespace cyclicUnit 0) = some true)) ∧
    ((allKeys cyclicUnit).length < 4 → ∃ s', exec cyclicUnit 4 0 (ctor_init 0) = some s')) ∧
    (exec cyclicUnit 4 0 (ctor_init 0)).map (fun s => (s.m_SkipFlag, s.m_Visited)) =
      some (false, [(0, true), (1, true)]) :=
  ⟨Visit_signal_iff_not_emittable cyclicUnit 4 0 (ctor_init 0) rfl, by decide!⟩

/-! ## C19 -/

/-- The loop over the members of a namespace that has a member leaves the skip
signal clear (line 686). -/
theorem VisitNamespaceDecl_decls_flag (V : DeclVisit) (l : List DeclId) :
    ∀ (b : Bool) (s : ForwardDeclPrinter) (r : Bool × ForwardDeclPrinter),
      l ≠ [] → VisitNamespaceDecl_decls V l b s = some r → r.2.m_SkipFlag = false := by
  induction l with
  | nil => intro b s r h; exact absurd rfl h
  | cons d rest ih =>
    intro b s r _ h
    rw [VisitNamespaceDecl_decls] at h
    cases hv : V d s with
    | none => rw [hv] at h; simp at h
    | some s1 =>
      rw [hv] at h
      simp only [Option.bind] at h
      cases rest with
      | nil =>
        simp only [VisitNamespaceDecl_decls, Option.some.injEq] at h
        subst h
        rfl
      | cons d2 rest2 => exact ih _ _ r (by simp) h

theorem VisitNamespaceDecl_flag (V : DeclVisit) (Did : DeclId) (D : Decl) (N : NamespaceDecl)
    (s s1 : ForwardDeclPrinter) (hmember : N.decls ≠ [])
    (h : VisitNamespaceDecl V Did D N s = some s1) : s1.m_SkipFlag = false := by
  unfold VisitNamespaceDecl at h
  dsimp only at h
  cases hl : VisitNamespaceDecl_decls V N.decls false s.StreamRAII_push with
  | none => rw [hl] at h; simp at h
  | some r =>
    rw [hl] at h
    simp only [Option.bind] at h
    have hr := VisitNamespaceDecl_decls_flag V N.decls false _ r hmember hl
    by_cases hc : (r.1 || Did == D.getCanonicalDecl) = true
    · rw [if_pos hc] at h
      injection h with h
      subst h
      exact hr
    · rw [if_neg hc] at h
      injection h with h
      subst h
      exact hr

/-- C19: the first `Visit` of a namespace redeclaration that has at least one
member returns (with a bound on the depth of the recursion above the number of
keys of the unit) with the skip signal clear and the namespace recorded
emittable - whatever the skip signal on entry, whatever became of the members,
and whether or not any text was written for the namespace. -/
theorem Visit_namespace_with_member_is_emittable (E : Env) (n : Nat) (D : DeclId)
    (N : NamespaceDecl) (s : ForwardDeclPrinter)
    (hkind : (E.decl D).kind = .Namespace N) (hmember : N.decls ≠ [])
    (hfirst : s.m_Visited.find (getCanonicalOrNamespace E D) = none)
    (hn : (allKeys E).length < n) :
    ∃ s', exec E (n + 1) D s = some s' ∧ s'.m_SkipFlag = false ∧
      s'.m_Visited.find (getCanonicalOrNamespace E D) = some true := by
  obtain ⟨s', h, _⟩ := exec_total E (n + 1) (allKeys E).length (by omega) D s
    (unvisited_le_length E s)
  refine ⟨s', h, ?_⟩
  have hent := (Visit_entry E (fun d a b hv => exec_keeps E n d a b hv) D s s' h).2.2 hfirst
  have hflag : s'.m_SkipFlag = false := by
    have h2 : Visit E (exec E n) D s = some s' := h
    unfold Visit at h2
    rw [hfirst] at h2
    dsimp only at h2
    have hs : shouldSkip E D (s.setVisited (getCanonicalOrNamespace E D) true) =
        (shouldSkipImpl_default, s.setVisited (getCanonicalOrNamespace E D) true) := by
      unfold shouldSkip
      simp only [hkind]
    rw [hs] at h2
    simp only [shouldSkipImpl_default, Bool.false_eq_true, if_false] at h2
    have hd : DeclVisitor_Visit E (exec E n) D
        ((s.setVisited (getCanonicalOrNamespace E D) true).traceDispatched D) =
        VisitNamespaceDecl (exec E n) D (E.decl D) N
          ((s.setVisited (getCanonicalOrNamespace E D) true).traceDispatched D) := by
      unfold DeclVisitor_Visit
      simp only [hkind]
    rw [hd] at h2
    cases hv : VisitNamespaceDecl (exec E n) D (E.decl D) N
        ((s.setVisited (getCanonicalOrNamespace E D) true).traceDispatched D) with
    | none => rw [hv] at h2; simp at h2
    | some s1 =>
      rw [hv] at h2
      simp only [Option.bind] at h2
      have hf := VisitNamespaceDecl_flag (exec E n) D (E.decl D) N _ s1 hmember hv
      rw [if_neg (by rw [hf]; simp)] at h2
      injection h2 with h2
      rw [← h2]
      exact hf
  refine ⟨hflag, ?_⟩
  rw [hent, hflag]
  rfl

/-- C19 at a concrete input: the namespace `N` is reopened with the static
function `hidden` as its only member, and `using namespace N;` follows.  The
redeclaration is not the canonical declaration and its member is skipped:
nothing is written for it, yet it is recorded emittable, and the
using-directive is rendered. -/
theorem Visit_namespace_with_member_is_emittable_witness :
    (∃ s', exec reopenedUnit (6 + 1) 1 (ctor_init 0) = some s' ∧ s'.m_SkipFlag = false ∧
      s'.m_Visited.find (getCanonicalOrNamespace reopenedUnit 1) = some true) ∧
    (exec reopenedUnit (6 + 1) 1 (ctor_init 0)).map (fun s => s.streamTop) =
      some (ctor_init 0).streamTop ∧
    (ctor reopenedUnit 6 { decls := [{ m_DGR := some [1, 3] }] } 0 false).map
        (fun s => (s.streamTop, s.m_Visited)) =
      some ((ctor_init 0).streamTop ++ "using namespace N;\n",
        [(0, true), (2, false), (3, true)]) :=
  ⟨Visit_namespace_with_member_is_emittable reopenedUnit 6 1 reopenedNamespace (ctor_init 0)
    rfl (by decide) rfl (by decide), by decide!, by decide!⟩

end ForwardDeclPrinter

end cling

namespace cling

namespace ForwardDeclPrinter

/-! ## The skip signal is cleared by the namespace routine only -/

theorem Sticky_refl (E : Env) (s : ForwardDeclPrinter) : Sticky E s s :=
  ⟨[], by simp, fun _ h => h⟩

theorem Sticky_trans {E : Env} {a b c : ForwardDeclPrinter} (h1 : Sticky E a b)
    (h2 : Sticky E b c) : Sticky E a c := by
  obtain ⟨l1, e1, f1⟩ := h1
  obtain ⟨l2, e2, f2⟩ := h2
  refine ⟨l1 ++ l2, by rw [e2, e1, List.append_assoc], fun hno hset => ?_⟩
  exact f2 (fun d hd => hno d (List.mem_append_right _ hd))
    (f1 (fun d hd => hno d (List.mem_append_left _ hd)) hset)

/-- A step without a dispatch that does not clear the skip signal. -/
theorem Sticky_atom {E : Env} {s s' : ForwardDeclPrinter}
    (ht : s'.traceDispatch = s.traceDispatch)
    (hf : s.m_SkipFlag = true → s'.m_SkipFlag = true) : Sticky E s s' :=
  ⟨[], by simp [ht], fun _ h => hf h⟩

theorem Sticky_logFrame (E : Env) : LogFrame (fun _ => True) (Sticky E) :=
  ⟨Sticky_refl E, fun h1 h2 => Sticky_trans h1 h2, fun _ _ => trivial,
    fun _ _ => Sticky_atom rfl (fun h => h)⟩

theorem StickyPost_atom {E : Env} {s s' : ForwardDeclPrinter}
    (ht : s'.traceDispatch = s.traceDispatch)
    (hf : s.m_SkipFlag = true → s'.m_SkipFlag = true) : StickyPost E s (some s') :=
  ⟨Sticky_atom ht hf, trivial⟩

theorem StickyPost_left {E : Env} {s t : ForwardDeclPrinter} {x : Option ForwardDeclPrinter}
    (ht : t.traceDispatch = s.traceDispatch)
    (hf : s.m_SkipFlag = true → t.m_SkipFlag = true) (hx : StickyPost E t x) :
    StickyPost E s x := by
  cases x with
  | none => trivial
  | some s2 => exact ⟨Sticky_trans (Sticky_atom ht hf) hx.1, trivial⟩

theorem StickyPost_bind {E : Env} {s : ForwardDeclPrinter} {x : Option ForwardDeclPrinter}
    {g : ForwardDeclPrinter → Option ForwardDeclPrinter} (hx : StickyPost E s x)
    (hg : ∀ s1, StickyPost E s1 (g s1)) : StickyPost E s (x.bind g) :=
  Post_bind_log (Sticky_logFrame E) hx fun s1 _ => hg s1

theorem StickyPost_of {E : Env} {s s' : ForwardDeclPrinter} {x : Option ForwardDeclPrinter}
    (hx : StickyPost E s x) (h : x = some s') : Sticky E s s' := by
  subst h
  exact hx.1

theorem StickyPost_iff {E : Env} {s : ForwardDeclPrinter} {x : Option ForwardDeclPrinter}
    (h : ∀ s', x = some s' → Sticky E s s') : StickyPost E s x := by
  cases x with
  | none => trivial
  | some s' => exact ⟨h s' rfl, trivial⟩

/-- The loops that return a flag beside the state. -/
theorem StickyPost_pair {E : Env} {β : Type} {s : ForwardDeclPrinter}
    {x : Option (β × ForwardDeclPrinter)} {g : β × ForwardDeclPrinter → Option ForwardDeclPrinter}
    (hx : StickyPost E s (x.bind fun r => some r.2))
    (hg : ∀ r : β × ForwardDeclPrinter, StickyPost E r.2 (g r)) :
    StickyPost E s (x.bind g) := by
  cases x with
  | none => trivial
  | some r =>
    have h1 : Sticky E s r.2 := hx.1
    have h2 := hg r
    show StickyPost E s (g r)
    cases hgr : g r with
    | none => trivial
    | some s2 =>
      rw [hgr] at h2
      exact ⟨Sticky_trans h1 h2.1, trivial⟩

section sticky

variable {E : Env} {V : DeclVisit}

theorem Sticky_triple (hV : ∀ d a, StickyPost E a (V d a)) :
    ∀ d, Triple True (fun _ => True) (Sticky E) (V d) :=
  fun d a _ => hV d a

theorem VisitQualType_sticky (hV : ∀ d a, StickyPost E a (V d a)) (q : QualType)
    (s : ForwardDeclPrinter) : StickyPost E s (VisitQualType V q s) :=
  VisitType_post (Sticky_logFrame E) (Sticky_triple hV) q.ty s trivial

theorem VisitEach_sticky (hV : ∀ d a, StickyPost E a (V d a)) (l : List DeclId) :
    ∀ s : ForwardDeclPrinter, StickyPost E s (VisitEach V l s) := by
  induction l with
  | nil => intro s; exact StickyPost_atom rfl (fun h => h)
  | cons d l ih =>
    intro s
    rw [VisitEach]
    exact StickyPost_bind (hV d s) ih

theorem VisitTypedefDecl_sticky (hV : ∀ d a, StickyPost E a (V d a)) (D : Decl) (q : QualType)
    (s : ForwardDeclPrinter) : StickyPost E s (VisitTypedefDecl E V D q s) := by
  unfold VisitTypedefDecl
  refine StickyPost_bind (VisitQualType_sticky hV q s) fun s1 => ?_
  by_cases hflag : s1.m_SkipFlag = true
  · rw [if_pos hflag]; exact StickyPost_atom rfl (fun _ => rfl)
  · rw [if_neg hflag]; exact StickyPost_atom rfl (fun h => h)

theorem VisitVarDecl_sticky (hV : ∀ d a, StickyPost E a (V d a)) (D : Decl) (VD : VarDecl)
    (s : ForwardDeclPrinter) : StickyPost E s (VisitVarDecl E V D VD s) := by
  unfold VisitVarDecl
  refine StickyPost_bind (VisitQualType_sticky hV _ s) fun s1 => ?_
  by_cases hflag : s1.m_SkipFlag = true
  · rw [if_pos hflag]; exact StickyPost_atom rfl (fun _ => rfl)
  · rw [if_neg hflag]; exact StickyPost_atom rfl (fun h => h)

theorem VisitUsingDirectiveDecl_sticky (hV : ∀ d a, StickyPost E a (V d a))
    (U : UsingDirectiveDecl) (s : ForwardDeclPrinter) :
    StickyPost E s (VisitUsingDirectiveDecl E V U s) := by
  unfold VisitUsingDirectiveDecl
  refine StickyPost_bind (hV _ s) fun s1 => ?_
  by_cases hflag : s1.m_SkipFlag = true
  · rw [if_pos hflag]; exact StickyPost_atom rfl (fun _ => rfl)
  · rw [if_neg hflag]; exact StickyPost_atom rfl (fun h => h)

theorem VisitUsingDecl_sticky (hV : ∀ d a, StickyPost E a (V d a)) (Did : DeclId)
    (shadows : List DeclId) (s : ForwardDeclPrinter) :
    StickyPost E s (VisitUsingDecl E V Did shadows s) := by
  unfold VisitUsingDecl
  refine StickyPost_bind (VisitEach_sticky hV shadows s) fun s1 => ?_
  by_cases hflag : s1.m_SkipFlag = true
  · rw [if_pos hflag]; exact StickyPost_atom rfl (fun _ => rfl)
  · rw [if_neg hflag]; exact StickyPost_atom rfl (fun h => h)

theorem VisitUsingShadowDecl_sticky (hV : ∀ d a, StickyPost E a (V d a)) (target : DeclId)
    (s : ForwardDeclPrinter) : StickyPost E s (VisitUsingShadowDecl V target s) := by
  unfold VisitUsingShadowDecl
  refine StickyPost_bind (hV _ s) fun s1 => ?_
  by_cases hflag : s1.m_SkipFlag = true
  · rw [if_pos hflag]; exact StickyPost_atom rfl (fun _ => rfl)
  · rw [if_neg hflag]; exact StickyPost_atom rfl (fun h => h)

theorem VisitLinkageSpecDecl_sticky (hV : ∀ d a, StickyPost E a (V d a)) (L : LinkageSpecDecl)
    (s : ForwardDeclPrinter) : StickyPost E s (VisitLinkageSpecDecl V L s) := by
  unfold VisitLinkageSpecDecl
  dsimp only
  by_cases hb : L.hasBraces = true
  · rw [if_pos hb]
    exact StickyPost_left (t := (s.Out ("extern \"" ++ (if L.isLangC then "C" else "C++")
      ++ "\" ")).Out "\x7b\n") rfl (fun h => h)
      (StickyPost_bind (VisitEach_sticky hV L.decls _)
        fun s1 => StickyPost_atom rfl (fun h => h))
  · rw [if_neg hb]
    refine StickyPost_left (t := (s.Out ("extern \"" ++ (if L.isLangC then "C" else "C++")
      ++ "\" ")).Out "\x7b\n") rfl (fun h => h)
      (StickyPost_bind ?_ fun s1 => StickyPost_atom rfl (fun h => h))
    cases L.decls with
    | nil => exact StickyPost_atom rfl (fun h => h)
    | cons first rest => exact hV first _

theorem VisitClassTemplateSpecializationDecl_sticky (hV : ∀ d a, StickyPost E a (V d a))
    (D : Decl) (C : ClassTemplateSpecializationDecl) (s : ForwardDeclPrinter) :
    StickyPost E s (VisitClassTemplateSpecializationDecl V D C s) := by
  unfold VisitClassTemplateSpecializationDecl
  exact StickyPost_left (t := (s.Log D.getNameAsString).Log
    " ClassTemplateSpecialization : Skipped by default\n") rfl (fun h => h) (hV _ _)

theorem VisitFunctionDecl_params_sticky (hV : ∀ d a, StickyPost E a (V d a)) (i : Nat)
    (l : List DeclId) (s : ForwardDeclPrinter) :
    StickyPost E s ((VisitFunctionDecl_params V i l s).bind fun r => some r.2) := by
  cases l with
  | nil => exact StickyPost_atom rfl (fun h => h)
  | cons P rest =>
    unfold VisitFunctionDecl_params
    dsimp only
    refine StickyPost_left (t := s.Out (if i ≠ 0 then ", " else "")) rfl (fun h => h) ?_
    cases hv : V P (s.Out (if i ≠ 0 then ", " else "")) with
    | none => trivial
    | some s1 =>
      have h1 := hV P (s.Out (if i ≠ 0 then ", " else ""))
      rw [hv] at h1
      simp only [Option.bind]
      by_cases hflag : s1.m_SkipFlag = true
      · rw [if_pos hflag]
        exact ⟨Sticky_trans h1.1 (Sticky_atom rfl (fun _ => rfl)), trivial⟩
      · rw [if_neg hflag]
        exact ⟨h1.1, trivial⟩

theorem VisitFunctionDecl_KRparams_sticky (hV : ∀ d a, StickyPost E a (V d a))
    (l : List DeclId) :
    ∀ s : ForwardDeclPrinter, StickyPost E s (VisitFunctionDecl_KRparams V l s) := by
  induction l with
  | nil => intro s; exact StickyPost_atom rfl (fun h => h)
  | cons P rest ih =>
    intro s
    rw [VisitFunctionDecl_KRparams]
    exact StickyPost_left (t := s.Indent s.m_Indentation) rfl (fun h => h)
      (StickyPost_bind (hV P _) fun s1 =>
        StickyPost_left (t := s1.Out ";\n") rfl (fun h => h) (ih _))

theorem VisitFunctionDecl_KRbody_sticky (hV : ∀ d a, StickyPost E a (V d a))
    (F : FunctionDecl) (SubPolicy : PrintingPolicy) (s : ForwardDeclPrinter) :
    StickyPost E s (VisitFunctionDecl_KRbody V F SubPolicy s) := by
  unfold VisitFunctionDecl_KRbody
  dsimp only
  exact StickyPost_left (t := { (s.Out "\n").StreamRAII_push (some SubPolicy) with
      m_Indentation := ((s.Out "\n").StreamRAII_push (some SubPolicy)).m_Indentation
        + ((s.Out "\n").StreamRAII_push (some SubPolicy)).m_Policy.Indentation })
    rfl (fun h => h)
    (StickyPost_bind (VisitFunctionDecl_KRparams_sticky hV F.params _)
      fun s1 => StickyPost_atom rfl (fun h => h))

theorem VisitFunctionDecl_body_sticky (hV : ∀ d a, StickyPost E a (V d a))
    (F : FunctionDecl) (SubPolicy : PrintingPolicy) (s : ForwardDeclPrinter) :
    StickyPost E s (VisitFunctionDecl_body V F SubPolicy s) := by
  unfold VisitFunctionDecl_body
  split_ifs
  · exact StickyPost_atom rfl (fun h => h)
  · exact StickyPost_atom rfl (fun h => h)
  · exact StickyPost_atom rfl (fun h => h)
  · exact VisitFunctionDecl_KRbody_sticky hV F SubPolicy s
  · exact StickyPost_atom rfl (fun h => h)
  · exact StickyPost_atom rfl (fun h => h)

theorem VisitFunctionDecl_rest_sticky (hV : ∀ d a, StickyPost E a (V d a)) (D : Decl)
    (F : FunctionDecl) (FT : Option FunctionProtoType) (Proto : String)
    (SubPolicy streamPol : PrintingPolicy) (s : ForwardDeclPrinter) :
    StickyPost E s (VisitFunctionDecl_rest E V D F FT Proto SubPolicy streamPol s) := by
  unfold VisitFunctionDecl_rest
  dsimp only
  exact StickyPost_left (t := (s.Out (VisitFunctionDecl_declarator E s.m_Policy
      s.m_Indentation F FT Proto SubPolicy).2).Out (if !(VisitFunctionDecl_declarator E
        s.m_Policy s.m_Indentation F FT Proto SubPolicy).1 then prettyPrintAttributes_text D ""
        else "")) rfl (fun h => h)
    (StickyPost_bind (VisitFunctionDecl_body_sticky hV F SubPolicy _)
      fun s1 => StickyPost_atom rfl (fun h => h))

theorem VisitFunctionDecl_prototype_sticky (hV : ∀ d a, StickyPost E a (V d a)) (D : Decl)
    (F : FunctionDecl) (FT : Option FunctionProtoType) (Proto : String)
    (SubPolicy streamPol : PrintingPolicy) (s : ForwardDeclPrinter) :
    StickyPost E s (VisitFunctionDecl_prototype E V D F FT Proto SubPolicy streamPol s) := by
  unfold VisitFunctionDecl_prototype
  cases FT with
  | none => exact VisitFunctionDecl_rest_sticky hV D F none _ SubPolicy streamPol s
  | some FTy =>
    dsimp only
    refine StickyPost_left (t := s.StreamRAII_push (some SubPolicy)) rfl (fun h => h)
      (StickyPost_pair (VisitFunctionDecl_params_sticky hV 0 F.params _) fun r => ?_)
    by_cases hr : r.1 = true
    · rw [if_pos hr]; exact StickyPost_atom rfl (fun h => h)
    · rw [if_neg hr]
      exact StickyPost_left (t := (r.2.Out (if FTy.isVariadic then
          (if F.params.length ≠ 0 then ", " else "") ++ "..." else "")).StreamRAII_exit false
          s.m_Policy) rfl (fun h => h)
        (VisitFunctionDecl_rest_sticky hV D F (some FTy) _ SubPolicy streamPol _)

theorem VisitFunctionDecl_sticky (hV : ∀ d a, StickyPost E a (V d a)) (D : Decl)
    (F : FunctionDecl) (s : ForwardDeclPrinter) :
    StickyPost E s (VisitFunctionDecl E V D F s) := by
  unfold VisitFunctionDecl
  refine StickyPost_bind (VisitQualType_sticky hV _ s) fun s1 => ?_
  by_cases hflag : s1.m_SkipFlag = true
  · rw [if_pos hflag]; exact StickyPost_atom rfl (fun _ => rfl)
  · rw [if_neg hflag]
    dsimp only
    cases hAFT : F.getAsFunctionType with
    | none =>
      exact StickyPost_left (t := (s1.StreamRAII_push none).Out
          (VisitFunctionDecl_specifiers (s1.StreamRAII_push none).m_Policy D F))
        rfl (fun h => h) (VisitFunctionDecl_rest_sticky hV D F none _ _ _ _)
    | some AFT =>
      exact StickyPost_left (t := (s1.StreamRAII_push none).Out
          (VisitFunctionDecl_specifiers (s1.StreamRAII_push none).m_Policy D F))
        rfl (fun h => h) (VisitFunctionDecl_prototype_sticky hV D F _ _ _ _ _)

theorem PrintTemplateParameters_params_sticky (hV : ∀ d a, StickyPost E a (V d a))
    (Args : Option (List (QualType × String))) (l : List TemplateParam) :
    ∀ (i : Nat) (s : ForwardDeclPrinter),
      StickyPost E s (PrintTemplateParameters_params E V Args i l s) := by
  induction l with
  | nil => intro i s; exact StickyPost_atom rfl (fun h => h)
  | cons P rest ih =>
    intro i s
    cases P with
    | TemplateTemplateParm d =>
      simp only [PrintTemplateParameters_params]
      exact StickyPost_left (t := s.Out (if i ≠ 0 then ", " else "")) rfl (fun h => h)
        (StickyPost_bind (hV d _) fun s1 => ih _ s1)
    | TemplateTypeParm a b c e =>
      simp only [PrintTemplateParameters_params]
      exact StickyPost_bind (StickyPost_atom rfl (fun h => h)) fun s1 => ih _ s1
    | NonTypeTemplateParm a b c e =>
      simp only [PrintTemplateParameters_params]
      exact StickyPost_bind (StickyPost_atom rfl (fun h => h)) fun s1 => ih _ s1
    | Other =>
      simp only [PrintTemplateParameters_params]
      exact StickyPost_bind (StickyPost_atom rfl (fun h => h)) fun s1 => ih _ s1

theorem PrintTemplateParameters_sticky (hV : ∀ d a, StickyPost E a (V d a))
    (Params : TemplateParameterList) (Args : Option (List (QualType × String)))
    (s : ForwardDeclPrinter) : StickyPost E s (PrintTemplateParameters E V Params Args s) := by
  unfold PrintTemplateParameters
  exact StickyPost_left (t := s.Out "template <") rfl (fun h => h)
    (StickyPost_bind (PrintTemplateParameters_params_sticky hV Args Params.params 0 _)
      fun s1 => StickyPost_atom rfl (fun h => h))

theorem VisitRedeclarableTemplateDecl_sticky (hV : ∀ d a, StickyPost E a (V d a))
    (Did : DeclId) (T : RedeclarableTemplateDecl) (s : ForwardDeclPrinter) :
    StickyPost E s (VisitRedeclarableTemplateDecl E V Did T s) := by
  unfold VisitRedeclarableTemplateDecl
  dsimp only
  refine StickyPost_left (t := s.StreamRAII_push none) rfl (fun h => h)
    (StickyPost_bind (PrintTemplateParameters_sticky hV _ none _) fun s1 =>
      StickyPost_bind (hV _ s1) fun s2 => ?_)
  by_cases hflag : (!s2.m_SkipFlag) = true
  · rw [if_pos hflag]; exact StickyPost_atom rfl (fun h => h)
  · rw [if_neg hflag]; exact StickyPost_atom rfl (fun h => h)

theorem VisitTemplateDecl_specs_sticky (hV : ∀ d a, StickyPost E a (V d a))
    (Params : TemplateParameterList) (nl : Bool) (l : List TemplateSpec) :
    ∀ s : ForwardDeclPrinter, StickyPost E s (VisitTemplateDecl_specs E V Params nl l s) := by
  induction l with
  | nil => intro s; exact StickyPost_atom rfl (fun h => h)
  | cons I rest ih =>
    intro s
    rw [VisitTemplateDecl_specs]
    exact StickyPost_bind (PrintTemplateParameters_sticky hV Params _ s) fun s1 =>
      StickyPost_bind (hV _ s1) fun s2 =>
        StickyPost_left (t := s2.Out (if nl then "\n" else "")) rfl (fun h => h) (ih _)

theorem VisitFunctionTemplateDecl_sticky (hV : ∀ d a, StickyPost E a (V d a))
    (Did : DeclId) (T : RedeclarableTemplateDecl) (s : ForwardDeclPrinter) :
    StickyPost E s (VisitFunctionTemplateDecl E V Did T s) := by
  unfold VisitFunctionTemplateDecl
  refine StickyPost_bind ?_ fun s1 => VisitRedeclarableTemplateDecl_sticky hV Did T s1
  split_ifs
  · exact VisitTemplateDecl_specs_sticky hV _ _ _ s
  · exact StickyPost_atom rfl (fun h => h)

theorem VisitClassTemplateDecl_sticky (hV : ∀ d a, StickyPost E a (V d a))
    (Did : DeclId) (T : RedeclarableTemplateDecl) (s : ForwardDeclPrinter) :
    StickyPost E s (VisitClassTemplateDecl E V Did T s) := by
  unfold VisitClassTemplateDecl
  refine StickyPost_bind ?_ fun s1 => VisitRedeclarableTemplateDecl_sticky hV Did T s1
  split_ifs
  · exact VisitTemplateDecl_specs_sticky hV _ _ _ s
  · exact StickyPost_atom rfl (fun h => h)

/-- Every render routine but the one of a namespace keeps a skip signal that
is set, when the nested visits do. -/
theorem DeclVisitor_Visit_sticky (hV : ∀ d a, StickyPost E a (V d a)) (Did : DeclId)
    (s : ForwardDeclPrinter) (hkind : isNamespace (E.decl Did).kind = false) :
    StickyPost E s (DeclVisitor_Visit E V Did s) := by
  unfold DeclVisitor_Visit
  dsimp only
  cases hk : (E.decl Did).kind with
  | Namespace N => rw [hk] at hkind; simp [isNamespace] at hkind
  | TranslationUnit decls => exact VisitEach_sticky hV _ s
  | Typedef q => exact VisitTypedefDecl_sticky hV _ _ s
  | Function F => exact VisitFunctionDecl_sticky hV _ _ s
  | Var VD => exact VisitVarDecl_sticky hV _ _ s
  | ParmVar VD => exact VisitVarDecl_sticky hV _ _ s
  | UsingDirective U => exact VisitUsingDirectiveDecl_sticky hV _ s
  | Using shadows => exact VisitUsingDecl_sticky hV Did _ s
  | UsingShadow target => exact VisitUsingShadowDecl_sticky hV _ s
  | LinkageSpec L => exact VisitLinkageSpecDecl_sticky hV _ s
  | FunctionTemplate T => exact VisitFunctionTemplateDecl_sticky hV Did _ s
  | ClassTemplate T => exact VisitClassTemplateDecl_sticky hV Did _ s
  | VarTemplate T => exact VisitRedeclarableTemplateDecl_sticky hV Did _ s
  | ClassTemplateSpecialization C => exact VisitClassTemplateSpecializationDecl_sticky hV _ _ s
  | _ => exact StickyPost_atom rfl (fun h => h)

end sticky

/-- Whenever `Visit(D)` returns, it has extended the dispatch trace, and it has
kept a skip signal that was set unless it has dispatched to a namespace
routine. -/
theorem exec_sticky (E : Env) :
    ∀ (n : Nat) (D : DeclId) (s s' : ForwardDeclPrinter), exec E n D s = some s' →
      Sticky E s s' := by
  intro n
  induction n with
  | zero => intro D s s' h; simp [exec] at h
  | succ n ih =>
    intro D s s' h
    have hV : ∀ d a, StickyPost E a (exec E n d a) :=
      fun d a => StickyPost_iff fun b hb => ih d a b hb
    have h2 : Visit E (exec E n) D s = some s' := h
    unfold Visit at h2
    cases hfind : s.m_Visited.find (getCanonicalOrNamespace E D) with
    | some b =>
      rw [hfind] at h2
      dsimp only at h2
      cases b with
      | true =>
        simp only [Bool.not_true, Bool.false_eq_true, if_false, Option.some.injEq] at h2
        subst h2
        exact Sticky_refl E s
      | false =>
        simp only [Bool.not_false, if_true, Option.some.injEq] at h2
        subst h2
        exact Sticky_atom rfl (fun _ => rfl)
    | none =>
      rw [hfind] at h2
      dsimp only at h2
      obtain ⟨hc1, _, _, _, _, hc6, _, _, _⟩ :=
        shouldSkip_core E D (s.setVisited (getCanonicalOrNamespace E D) true)
      have ht : (shouldSkip E D (s.setVisited (getCanonicalOrNamespace E D) true)).2.traceDispatch
          = s.traceDispatch := hc1
      have hf : (shouldSkip E D (s.setVisited (getCanonicalOrNamespace E D) true)).2.m_SkipFlag
          = s.m_SkipFlag := hc6
      by_cases hr : (shouldSkip E D (s.setVisited (getCanonicalOrNamespace E D) true)).1 = true
      · rw [if_pos hr] at h2
        injection h2 with h2
        subst h2
        exact Sticky_atom ht (fun _ => rfl)
      · rw [if_neg hr] at h2
        cases hd : DeclVisitor_Visit E (exec E n) D
            ((shouldSkip E D (s.setVisited (getCanonicalOrNamespace E D) true)).2.traceDispatched
              D) with
        | none => rw [hd] at h2; simp at h2
        | some s1 =>
          rw [hd] at h2
          simp only [Option.bind] at h2
          have htr : s'.traceDispatch = s1.traceDispatch ∧
              (s1.m_SkipFlag = true → s'.m_SkipFlag = true) := by
            by_cases hflag : s1.m_SkipFlag = true
            · rw [if_pos hflag] at h2
              injection h2 with h2
              subst h2
              exact ⟨rfl, fun _ => rfl⟩
            · rw [if_neg hflag] at h2
              injection h2 with h2
              subst h2
              exact ⟨rfl, fun h => h⟩
          cases hns : isNamespace (E.decl D).kind with
          | true =>
            have hVs : ∀ d, Triple True (fun _ => True) (Step E) (exec E n d) := by
              intro d a _
              cases h1 : exec E n d a with
              | none => trivial
              | some b => exact ⟨exec_step E n d a b h1, trivial⟩
            have hFs : Frame (fun _ => True) (Step E) :=
              Step_frame E _ (fun _ _ _ _ => trivial) (fun _ _ _ => trivial) (fun _ _ => trivial)
            have hpost := DeclVisitor_Visit_post hFs E hVs D
              ((shouldSkip E D (s.setVisited (getCanonicalOrNamespace E D)
                true)).2.traceDispatched D) trivial
            rw [hd] at hpost
            obtain ⟨l, hl⟩ := hpost.1.trace
            refine ⟨D :: l, ?_, fun hno _ => ?_⟩
            · rw [htr.1, hl]
              show ((shouldSkip E D (s.setVisited (getCanonicalOrNamespace E D)
                true)).2.traceDispatch ++ [D]) ++ l = _
              rw [ht]
              simp
            · have := hno D (List.mem_cons_self _ _)
              rw [hns] at this
              exact absurd this (by simp)
          | false =>
            have hpost := DeclVisitor_Visit_sticky hV D
              ((shouldSkip E D (s.setVisited (getCanonicalOrNamespace E D)
                true)).2.traceDispatched D) hns
            rw [hd] at hpost
            obtain ⟨l, hl, hkeep⟩ := hpost.1
            refine ⟨D :: l, ?_, fun hno hset => ?_⟩
            · rw [htr.1, hl]
              show ((shouldSkip E D (s.setVisited (getCanonicalOrNamespace E D)
                true)).2.traceDispatch ++ [D]) ++ l = _
              rw [ht]
              simp
            · apply htr.2
              apply hkeep (fun d hd => hno d (List.mem_cons_of_mem _ hd))
              show (shouldSkip E D (s.setVisited (getCanonicalOrNamespace E D)
                true)).2.m_SkipFlag = true
              rw [hf]
              exact hset

/-! ## C18 -/

/-- C18: a skip signal that is already set when `Visit(D)` is entered for a
declaration not yet in the table is still set on return, and `D` is recorded
not-emittable, whenever the visit dispatches to no namespace routine (no
declaration added to the dispatch trace is a namespace) - whatever `D`
depends on; with a bound on the depth of the recursion above the number of
keys of the unit, `Visit(D)` returns. -/
theorem stale_skip_signal_is_kept (E : Env) (n : Nat) (D : DeclId) (s : ForwardDeclPrinter)
    (hset : s.m_SkipFlag = true)
    (hfirst : s.m_Visited.find (getCanonicalOrNamespace E D) = none) :
    (∀ s', exec E n D s = some s' →
      (∀ d ∈ s'.traceDispatch.drop s.traceDispatch.length,
        isNamespace (E.decl d).kind = false) →
      s'.m_SkipFlag = true ∧
        s'.m_Visited.find (getCanonicalOrNamespace E D) = some false) ∧
    ((allKeys E).length < n → ∃ s', exec E n D s = some s') := by
  constructor
  · intro s' h hno
    obtain ⟨l, hl, hkeep⟩ := exec_sticky E n D s s' h
    have hflag : s'.m_SkipFlag = true := by
      apply hkeep _ hset
      intro d hd
      apply hno
      rw [hl, List.drop_left]
      exact hd
    refine ⟨hflag, ?_⟩
    cases n with
    | zero => simp [exec] at h
    | succ n =>
      have := (Visit_entry E (fun d a b hv => exec_keeps E n d a b hv) D s s' h).2.2 hfirst
      rw [this, hflag]
      rfl
  · intro hn
    obtain ⟨s', h, _⟩ := exec_total E n (allKeys E).length hn D s (unvisited_le_length E s)
    exact ⟨s', h⟩

/-- C18 at a concrete input: `extern "C" { int _hidden(); int visible(); }`.
The visit of `visible` with the skip signal set records it not-emittable,
whereas with the signal clear it is rendered; in the run over the block,
`visible` follows the skipped `_hidden` and is recorded not-emittable. -/
theorem stale_skip_signal_is_kept_witness :
    ((∀ s', exec bracedUnit 4 1 ((ctor_init 0).skipCurrentDecl true) = some s' →
      (∀ d ∈ s'.traceDispatch.drop ((ctor_init 0).skipCurrentDecl true).traceDispatch.length,
        isNamespace (bracedUnit.decl d).kind = false) →
      s'.m_SkipFlag = true ∧
        s'.m_Visited.find (getCanonicalOrNamespace bracedUnit 1) = some false) ∧
    ((allKeys bracedUnit).length < 4 →
      ∃ s', exec bracedUnit 4 1 ((ctor_init 0).skipCurrentDecl true) = some s')) ∧
    (exec bracedUnit 4 1 ((ctor_init 0).skipCurrentDecl true)).map
        (fun s => (s.m_SkipFlag, s.m_Visited, s.traceDispatch)) =
      some (true, [(1, false)], [1]) ∧
    (exec bracedUnit 4 1 (ctor_init 0)).map (fun s => (s.m_SkipFlag, s.m_Visited)) =
      some (false, [(1, true)]) ∧
    (ctor bracedUnit 6 { decls := [{ m_DGR := some [2] }] } 0 false).map
        (fun s => s.m_Visited) = some [(2, false), (0, false), (1, false)] :=
  ⟨stale_skip_signal_is_kept bracedUnit 4 1 ((ctor_init 0).skipCurrentDecl true) rfl rfl,
    by decide!, by decide!, by decide!⟩

/-! ## C13 -/

/-- The loop over a list of declarations returns when the bound on the depth of
the recursion is above the number of keys of the unit. -/
theorem VisitEach_total (E : Env) (n : Nat) (hn : (allKeys E).length < n) (l : List DeclId) :
    ∀ s : ForwardDeclPrinter, ∃ t, VisitEach (exec E n) l s = some t := by
  induction l with
  | nil => intro s; exact ⟨s, rfl⟩
  | cons d rest ih =>
    intro s
    obtain ⟨s1, h1, _⟩ := exec_total E n (allKeys E).length hn d s (unvisited_le_length E s)
    obtain ⟨t, ht⟩ := ih s1
    exact ⟨t, by rw [VisitEach, h1]; exact ht⟩

/-- The skip signal after the loop over a list of declarations: when no
namespace routine was entered during the loop, the signal is set exactly when
it was set before the loop or after the visit of some declaration of the
list. -/
theorem VisitEach_flag (E : Env) (n : Nat) (l : List DeclId) :
    ∀ (s t : ForwardDeclPrinter), VisitEach (exec E n) l s = some t →
      (VisitEach_flags (exec E n) l s).length = l.length ∧
      ∃ tr, t.traceDispatch = s.traceDispatch ++ tr ∧
        ((∀ d ∈ tr, isNamespace (E.decl d).kind = false) →
          t.m_SkipFlag = (s.m_SkipFlag || (VisitEach_flags (exec E n) l s).any id)) := by
  induction l with
  | nil =>
    intro s t h
    simp only [VisitEach, Option.some.injEq] at h
    subst h
    exact ⟨rfl, [], by simp, fun _ => by simp [VisitEach_flags]⟩
  | cons d rest ih =>
    intro s t h
    rw [VisitEach] at h
    cases hv : exec E n d s with
    | none => rw [hv] at h; simp at h
    | some s1 =>
      rw [hv] at h
      obtain ⟨hlen, tr2, htr2, hflag2⟩ := ih s1 t h
      obtain ⟨tr1, htr1, hkeep⟩ := exec_sticky E n d s s1 hv
      refine ⟨by simp only [VisitEach_flags, hv, List.length_cons, hlen],
        tr1 ++ tr2, by rw [htr2, htr1, List.append_assoc], fun hns => ?_⟩
      have h1 : ∀ d ∈ tr1, isNamespace (E.decl d).kind = false :=
        fun d hd => hns d (List.mem_append_left _ hd)
      have h2 : ∀ d ∈ tr2, isNamespace (E.decl d).kind = false :=
        fun d hd => hns d (List.mem_append_right _ hd)
      simp only [VisitEach_flags, hv, List.any_cons, id]
      rw [hflag2 h2]
      cases hs : s.m_SkipFlag with
      | false => simp
      | true => simp [hkeep h1 hs]

/-- C13 as stated fails.  The using-declaration `using A::f;` has two shadows;
the visit of the first (the static function) signals skip, and the visit of
the second (the function template whose result type is qualified by the
namespace `N`) enters the namespace routine, which clears the signal: the
using-declaration is written and recorded emittable. -/
theorem VisitUsingDecl_written_after_failed_shadow :
    VisitEach_flags (exec dependentUsingUnit 13) [9, 10] (ctor_init 0) = [true, false] ∧
    (ctor dependentUsingUnit 14 { decls := [{ m_DGR := some [11] }] } 0 false).map
        (fun s => (s.m_Visited.find 9, s.m_Visited.find 11)) =
      some (some false, some true) ∧
    (ctor dependentUsingUnit 14 { decls := [{ m_DGR := some [11] }] } 0 false).map
        (fun s => s.streamTop) =
      some ((ctor_init 0).streamTop ++ "template <class T> namespace N \x7b\n\x7d\n" ++
        "template <class T> struct __attribute__((annotate(\"$clingAutoload$a.h\")))  Tr;\n" ++
        "typename N::Tr<T>::type f() __attribute__((annotate(\"$clingAutoload$a.h\"))) ;\n" ++
        "using A::f;\n") :=
  ⟨by decide!, by decide!, by decide!⟩

/-- C13, amended: for a using-declaration entered with the skip signal clear,
`VisitUsingDecl` visits every shadow before it writes anything, and it
returns.  If the skip signal is set when the visit of the last shadow has
returned, the using-declaration writes no text and signals skip; otherwise it
appends its text followed by `;\n` to what the visits have left.  When no
namespace routine is entered during the visits of the shadows, the signal is
set at that point exactly when the visit of at least one shadow, in any
position, has signalled skip. -/
theorem VisitUsingDecl_follows_signal_after_shadows (E : Env) (n : Nat) (Did : DeclId)
    (shadows : List DeclId) (s : ForwardDeclPrinter)
    (hfuel : (allKeys E).length < n) (hclear : s.m_SkipFlag = false) :
    ∃ t, VisitEach (exec E n) shadows s = some t ∧
      VisitUsingDecl E (exec E n) Did shadows s =
        some (if t.m_SkipFlag then t.skipCurrentDecl true
          else t.Out (E.printDecl t.m_Policy Did ++ ";\n")) ∧
      (VisitEach_flags (exec E n) shadows s).length = shadows.length ∧
      ((∀ d ∈ t.traceDispatch.drop s.traceDispatch.length,
          isNamespace (E.decl d).kind = false) →
        (t.m_SkipFlag = true ↔ ∃ b ∈ VisitEach_flags (exec E n) shadows s, b = true)) := by
  obtain ⟨t, ht⟩ := VisitEach_total E n hfuel shadows s
  obtain ⟨hlen, tr, htr, hflag⟩ := VisitEach_flag E n shadows s t ht
  refine ⟨t, ht, ?_, hlen, fun hns => ?_⟩
  · unfold VisitUsingDecl
    rw [ht]
    simp only [Option.bind]
    split_ifs <;> rfl
  · have hdrop : t.traceDispatch.drop s.traceDispatch.length = tr := by
      rw [htr, List.drop_left]
    rw [hdrop] at hns
    rw [hflag hns, hclear]
    simp [List.any_eq_true]

/-- C13, amended, at concrete inputs.  `using A::f;` with a shadow for the
static function `f` and one for the record `f`: the visit of each shadow
signals skip, and the using-declaration signals skip and adds no text to what
the visits of the shadows have left.  `using A::f;` with a single shadow for
the record `f`: the visit succeeds and the text `using A::f;` is written. -/
theorem VisitUsingDecl_follows_signal_after_shadows_witness :
    (∃ t, VisitEach (exec plainUsingUnit 7) [2, 3] (ctor_init 0) = some t ∧
      VisitUsingDecl plainUsingUnit (exec plainUsingUnit 7) 4 [2, 3] (ctor_init 0) =
        some (if t.m_SkipFlag then t.skipCurrentDecl true
          else t.Out (plainUsingUnit.printDecl t.m_Policy 4 ++ ";\n")) ∧
      (VisitEach_flags (exec plainUsingUnit 7) [2, 3] (ctor_init 0)).length = [2, 3].length ∧
      ((∀ d ∈ t.traceDispatch.drop (ctor_init 0).traceDispatch.length,
          isNamespace (plainUsingUnit.decl d).kind = false) →
        (t.m_SkipFlag = true ↔
          ∃ b ∈ VisitEach_flags (exec plainUsingUnit 7) [2, 3] (ctor_init 0), b = true))) ∧
    VisitEach_flags (exec plainUsingUnit 7) [2, 3] (ctor_init 0) = [true, true] ∧
    (VisitUsingDecl plainUsingUnit (exec plainUsingUnit 7) 4 [2, 3] (ctor_init 0)).map
        (fun s => (s.m_SkipFlag, s.streamTop, s.traceDispatch)) =
      some (true, (ctor_init 0).streamTop ++
        "struct __attribute__((annotate(\"$clingAutoload$a.h\")))  f;\n", [2, 3, 1]) ∧
    VisitEach_flags (exec recordUsingUnit 5) [1] (ctor_init 0) = [false] ∧
    (VisitUsingDecl recordUsingUnit (exec recordUsingUnit 5) 2 [1] (ctor_init 0)).map
        (fun s => (s.m_SkipFlag, s.streamTop)) =
      some (false, (ctor_init 0).streamTop ++
        "struct __attribute__((annotate(\"$clingAutoload$a.h\")))  f;\n" ++ "using A::f;\n") :=
  ⟨VisitUsingDecl_follows_signal_after_shadows plainUsingUnit 7 4 [2, 3] (ctor_init 0)
      (by decide) rfl,
    by decide!, by decide!, by decide!, by decide!⟩

end ForwardDeclPrinter

end cling

namespace cling

namespace ForwardDeclPrinter

/-! ## C3 -/

/-- The visits of the dependencies of a template are made in a nested buffer:
they leave the enclosing buffer and the buffers below it as they were. -/
theorem VisitDependencies_of_template (E : Env) (n : Nat) (D : DeclId)
    (T : RedeclarableTemplateDecl) (s s1 : ForwardDeclPrinter)
    (hT : asRedeclarableTemplateDecl (E.decl D).kind = some T)
    (hdeps : VisitDependencies E (exec E n) D s = some s1) :
    s1.streamTop = s.streamTop ∧ s1.streamRest = s.streamRest := by
  have key : ∀ R : RedeclarableTemplateDecl,
      (((PrintTemplateParameters E (exec E n)
          (VisitRedeclarableTemplateDecl_redecls E R.redecls (D, R)).2.getTemplateParameters none
          s.StreamRAII_push).bind fun a =>
          exec E n (VisitRedeclarableTemplateDecl_redecls E R.redecls (D, R)).2.getTemplatedDecl
            a).map
        fun b => b.StreamRAII_exit false s.m_Policy) = some s1 →
      s1.streamTop = s.streamTop ∧ s1.streamRest = s.streamRest := by
    intro R h
    cases hp : PrintTemplateParameters E (exec E n)
        (VisitRedeclarableTemplateDecl_redecls E R.redecls (D, R)).2.getTemplateParameters none
        s.StreamRAII_push with
    | none => rw [hp] at h; simp at h
    | some a =>
      rw [hp] at h
      simp only [Option.bind] at h
      cases hv : exec E n
          (VisitRedeclarableTemplateDecl_redecls E R.redecls (D, R)).2.getTemplatedDecl a with
      | none => rw [hv] at h; simp at h
      | some b =>
        rw [hv] at h
        simp only [Option.map, Option.some.injEq] at h
        have hR1 : a.streamRest = s.streamTop :: s.streamRest := by
          have := PrintTemplateParameters_post SameRest_frame E (SameRest_exec E n)
            (VisitRedeclarableTemplateDecl_redecls E R.redecls (D, R)).2.getTemplateParameters
            none s.StreamRAII_push trivial
          rw [hp] at this
          exact this.1
        have hR2 : b.streamRest = s.streamTop :: s.streamRest :=
          (exec_step E n _ a b hv).rest.trans hR1
        rw [← h]
        constructor
        · show b.streamRest.headD b.streamTop = s.streamTop
          rw [hR2]; rfl
        · show b.streamRest.tail = s.streamRest
          rw [hR2]; rfl
  unfold VisitDependencies at hdeps
  cases hk : (E.decl D).kind with
  | FunctionTemplate R =>
    rw [hk] at hdeps
    exact key R (by simpa [asRedeclarableTemplateDecl] using hdeps)
  | ClassTemplate R =>
    rw [hk] at hdeps
    exact key R (by simpa [asRedeclarableTemplateDecl] using hdeps)
  | VarTemplate R =>
    rw [hk] at hdeps
    exact key R (by simpa [asRedeclarableTemplateDecl] using hdeps)
  | _ => rw [hk] at hT; simp [asRedeclarableTemplateDecl] at hT

/-- C3 as stated fails.  A linkage specification whose member is skipped
(`extern "C" int _hidden();`) is recorded not-emittable, and yet the wrapper
that its render routine wrote before and after the visit of the member (lines
767 and 776-778) stays in the output.  A type alias never visits the type that
it names (lines 241-250): the alias `A` of a record that is recorded
not-emittable is rendered and recorded emittable, whereas the typedef `B` of
the same record is skipped.  A using-declaration tests the skip signal after
the visits of all its shadows (line 719): in `dependentUsingUnit` the target
of the first shadow is recorded not-emittable, the visit of the second shadow
enters a namespace routine, which clears the signal (line 686), and the
using-declaration is rendered and recorded emittable. -/
theorem linkage_spec_wrapper_survives_skip :
    (ctor linkageUnit 3 { decls := [{ m_DGR := some [1] }] } 0 false).map
        (fun s => (s.streamTop, s.m_Visited)) =
      some ((ctor_init 0).streamTop ++ "extern \"C\" \x7b\n;\x7d\n", [(1, false), (0, false)]) ∧
    (ctor aliasUnit 3 { decls := [{ m_DGR := some [0, 1, 2] }] } 0 false).map
        (fun s => (s.streamTop, s.m_Visited)) =
      some ((ctor_init 0).streamTop ++
          "using A __attribute__((annotate(\"$clingAutoload$a.h\")))  = struct (unnamed) ;\n",
        [(0, false), (1, true), (2, false)]) ∧
    (exec dependentUsingUnit 14 11 (ctor_init 0)).map
        (fun s => (s.m_Visited.find 0, s.m_Visited.find 9, s.m_Visited.find 11,
          "using A::f;\n".toList.isSuffixOf s.streamTop.toList)) =
      some (some false, some false, some true, true) :=
  ⟨by decide!, by decide!, by decide!⟩

/-- C3, amended: let `D` be a typedef, a variable or parameter, a function, a
using-directive, a using-declaration or one of its shadows, or a template,
visited for the first time and eligible by policy.  If the skip signal is set
when the visits of the dependencies of `D` with which its render routine
begins have returned - the visit of the declared type (the return type of a
function), of the nominated namespace, of the shadows, of the template
parameters and the templated declaration -, then `Visit(D)` returns with `D`
recorded not-emittable and the skip signal set, and the render routine of `D`
has written no text: the current buffer and the buffers below it are as those
visits left them, and for a template, whose dependencies are visited in a
nested buffer, as they were when `Visit(D)` was entered. -/
theorem Visit_propagates_skip_of_dependencies (E : Env) (n : Nat) (D : DeclId)
    (s s1 : ForwardDeclPrinter)
    (hfirst : s.m_Visited.find (getCanonicalOrNamespace E D) = none)
    (helig : (shouldSkip E D (s.setVisited (getCanonicalOrNamespace E D) true)).1 = false)
    (hprint : s.m_PrintInstantiation = false)
    (hdeps : VisitDependencies E (exec E n) D
      ((s.setVisited (getCanonicalOrNamespace E D) true).traceDispatched D) = some s1)
    (hskip : s1.m_SkipFlag = true) :
    ∃ s', exec E (n + 1) D s = some s' ∧
      s'.m_Visited.find (getCanonicalOrNamespace E D) = some false ∧
      s'.m_SkipFlag = true ∧
      s'.streamTop = s1.streamTop ∧ s'.streamRest = s1.streamRest ∧
      (∀ T, asRedeclarableTemplateDecl (E.decl D).kind = some T →
        s'.streamTop = s.streamTop ∧ s'.streamRest = s.streamRest) := by
  obtain ⟨x, hx, hxflag, hxtop, hxrest⟩ := DeclVisitor_Visit_of_failed_dependencies E
    (exec E n) D ((s.setVisited (getCanonicalOrNamespace E D) true).traceDispatched D) s1
    hprint hdeps hskip
  have hstate := shouldSkip_false E D (s.setVisited (getCanonicalOrNamespace E D) true) helig
  refine ⟨(x.skipCurrentDecl true).setVisited (getCanonicalOrNamespace E D) false, ?_,
    by simp [find_setVisited], rfl, hxtop, hxrest, fun T hT => ?_⟩
  · show Visit E (exec E n) D s = _
    unfold Visit
    rw [hfirst]
    simp only [helig, Bool.false_eq_true, if_false]
    rw [hstate, hx]
    simp only [Option.bind, hxflag, if_true]
  · obtain ⟨h1, h2⟩ := VisitDependencies_of_template E n D T _ s1 hT hdeps
    exact ⟨hxtop.trans h1, hxrest.trans h2⟩

/-- C3, amended, at concrete inputs, in the unit of
`template <class T> Hidden g();`, where `Hidden` is the typedef of an unnamed
record.  The record is ineligible, so the visit of the declared type of the
typedef `Hidden` signals skip and the typedef is recorded not-emittable.  The
visit of the templated function `g`, whose return type is `Hidden`, signals
skip as well: the template is recorded not-emittable, as are the function, the
typedef and the record, and nothing is written. -/
theorem Visit_propagates_skip_of_dependencies_witness :
    (∃ s1 s', VisitDependencies hiddenResultUnit (exec hiddenResultUnit 4) 3
        (((ctor_init 0).setVisited (getCanonicalOrNamespace hiddenResultUnit 3)
          true).traceDispatched 3) = some s1 ∧
      s1.m_SkipFlag = true ∧
      exec hiddenResultUnit (4 + 1) 3 (ctor_init 0) = some s' ∧
      s'.m_Visited.find (getCanonicalOrNamespace hiddenResultUnit 3) = some false ∧
      s'.m_SkipFlag = true ∧
      s'.streamTop = (ctor_init 0).streamTop ∧ s'.streamRest = (ctor_init 0).streamRest ∧
      s'.m_Visited = [(3, false), (2, false), (1, false), (0, false)]) ∧
    (∃ s1 s', VisitDependencies hiddenResultUnit (exec hiddenResultUnit 2) 1
        (((ctor_init 0).setVisited (getCanonicalOrNamespace hiddenResultUnit 1)
          true).traceDispatched 1) = some s1 ∧
      s1.m_SkipFlag = true ∧
      exec hiddenResultUnit (2 + 1) 1 (ctor_init 0) = some s' ∧
      s'.m_Visited.find (getCanonicalOrNamespace hiddenResultUnit 1) = some false ∧
      s'.m_SkipFlag = true ∧
      s'.streamTop = s1.streamTop ∧ s'.streamRest = s1.streamRest ∧
      s1.streamTop = (ctor_init 0).streamTop) := by
  have hx : (VisitDependencies hiddenResultUnit (exec hiddenResultUnit 4) 3
      (((ctor_init 0).setVisited (getCanonicalOrNamespace hiddenResultUnit 3)
        true).traceDispatched 3)).map (fun s => s.m_SkipFlag) = some true := by decide!
  have hv : (exec hiddenResultUnit (4 + 1) 3 (ctor_init 0)).map (fun s => s.m_Visited) =
      some [(3, false), (2, false), (1, false), (0, false)] := by decide!
  have hy : (VisitDependencies hiddenResultUnit (exec hiddenResultUnit 2) 1
      (((ctor_init 0).setVisited (getCanonicalOrNamespace hiddenResultUnit 1)
        true).traceDispatched 1)).map (fun s => (s.m_SkipFlag, s.streamTop)) =
      some (true, (ctor_init 0).streamTop) := by decide!
  constructor
  · cases hd : VisitDependencies hiddenResultUnit (exec hiddenResultUnit 4) 3
        (((ctor_init 0).setVisited (getCanonicalOrNamespace hiddenResultUnit 3)
          true).traceDispatched 3) with
    | none => rw [hd] at hx; simp at hx
    | some s1 =>
      rw [hd] at hx
      have hflag : s1.m_SkipFlag = true := by simpa using hx
      obtain ⟨s', h1, h2, h3, _, _, h6⟩ :=
        Visit_propagates_skip_of_dependencies hiddenResultUnit 4 3 (ctor_init 0) s1
          rfl (by decide!) rfl hd hflag
      obtain ⟨h7, h8⟩ := h6 hiddenResultTemplate rfl
      rw [h1] at hv
      exact ⟨s1, s', rfl, hflag, h1, h2, h3, h7, h8, by simpa using hv⟩
  · cases hd : VisitDependencies hiddenResultUnit (exec hiddenResultUnit 2) 1
        (((ctor_init 0).setVisited (getCanonicalOrNamespace hiddenResultUnit 1)
          true).traceDispatched 1) with
    | none => rw [hd] at hy; simp at hy
    | some s1 =>
      rw [hd] at hy
      simp only [Option.map, Option.some.injEq, Prod.mk.injEq] at hy
      obtain ⟨s', h1, h2, h3, h4, h5, _⟩ :=
        Visit_propagates_skip_of_dependencies hiddenResultUnit 2 1 (ctor_init 0) s1
          rfl (by decide!) rfl hd hy.1
      exact ⟨s1, s', rfl, hy.1, h1, h2, h3, h4, h5, hy.2⟩

end ForwardDeclPrinter

end cling

